import Mathlib

/-!
The program `square`: off-screen Vulkan render of one frame, read back and saved as TIFF.

A shallow embedding of `src/utilities.c` and `src/square.c`.

* Vulkan handles are `Option Res`: `none` is `nullptr`, `some r` is the live
  object made by the creation site `r` (every creation site of `renderImage`
  runs at most once per execution, so the site identifies the object).
* The driver is an explicit environment: the `VkResult` of every call, the
  enumerated physical devices with their properties, the memory requirements of
  the two images, the layout and contents of the mapped staging memory, and
  whether `malloc` succeeds.
* Every function that talks to the driver returns, next to its C result, the
  list of GPU calls it issued, in order.
* `uint32_t` values are `Nat` reduced `% 2^32` where an operation can overflow.
-/

namespace Square

/-! ## Vulkan constants (values of `vulkan_core.h`) -/

abbrev VkResult := Int

def VK_SUCCESS : VkResult := 0
def VK_ERROR_DEVICE_LOST : VkResult := -4
def VK_ERROR_FEATURE_NOT_PRESENT : VkResult := -8

def VK_PHYSICAL_DEVICE_TYPE_INTEGRATED_GPU : Nat := 1
def VK_PHYSICAL_DEVICE_TYPE_DISCRETE_GPU : Nat := 2
def VK_PHYSICAL_DEVICE_TYPE_CPU : Nat := 4

def VK_QUEUE_GRAPHICS_BIT : Nat := 1
def VK_QUEUE_COMPUTE_BIT : Nat := 2

def VK_MEMORY_PROPERTY_DEVICE_LOCAL_BIT : Nat := 1
def VK_MEMORY_PROPERTY_HOST_VISIBLE_BIT : Nat := 2
def VK_MEMORY_PROPERTY_HOST_COHERENT_BIT : Nat := 4

def VK_FORMAT_R8G8B8A8_UNORM : Nat := 37

/-- The macro `IS_FLAG_SET(Val_, Flag_)` of `utilities.h`: `0 != (Val_ & Flag_)`. -/
def IS_FLAG_SET (val flag : Nat) : Bool := (0 : Nat) != (val &&& flag)

/-! ## Handles and the trace of GPU calls -/

/-- The objects `renderImage` can hold a handle to, named after the variable
that holds it (the two fences are the `fence` local of the two calls of
`submitCommandBuffer`; `physicalDevice` is the device `findFirstGPU` selects). -/
inductive Res
  | inst | physicalDevice | device | queue | commandPool | pipelineCache
  | vertexShader | fragmentShader | pipelineLayout | renderPass
  | graphicsPipeline | image | imageMemory | imageView | framebuffer
  | renderCommandBuffer | renderFence | destImage | destImageMemory
  | copyCommandBuffer | copyFence
  deriving DecidableEq, Repr, Fintype

/-- A Vulkan handle: `none` is `nullptr`. -/
abbrev Handle := Option Res

/-- The Vulkan entry points called by the program. -/
inductive VkFn
  | vkCreateInstance | vkEnumeratePhysicalDevices | vkGetPhysicalDeviceProperties
  | vkGetPhysicalDeviceMemoryProperties | vkGetPhysicalDeviceQueueFamilyProperties
  | vkCreateDevice | vkGetDeviceQueue | vkCreateCommandPool | vkCreatePipelineCache
  | vkCreateShaderModule | vkCreatePipelineLayout | vkCreateRenderPass
  | vkCreateGraphicsPipelines | vkCreateImage | vkGetImageMemoryRequirements
  | vkAllocateMemory | vkBindImageMemory | vkCreateImageView | vkCreateFramebuffer
  | vkAllocateCommandBuffers | vkBeginCommandBuffer | vkCmdBeginRenderPass
  | vkCmdBindPipeline | vkCmdDraw | vkCmdEndRenderPass | vkEndCommandBuffer
  | vkCreateFence | vkQueueSubmit | vkWaitForFences | vkQueueWaitIdle
  | vkCmdPipelineBarrier | vkCmdCopyImage | vkGetImageSubresourceLayout
  | vkMapMemory | vkUnmapMemory
  | vkDestroyFence | vkFreeCommandBuffers | vkDestroyImage | vkFreeMemory
  | vkDestroyFramebuffer | vkDestroyImageView | vkDestroyPipeline
  | vkDestroyRenderPass | vkDestroyPipelineLayout | vkDestroyShaderModule
  | vkDestroyPipelineCache | vkDestroyCommandPool | vkDestroyDevice
  | vkDestroyInstance
  deriving DecidableEq, Repr

/-- One GPU call of the trace: the entry point, the handles passed to it
(directly or inside its info structure; for a destroy or free call the object
being released comes last), the `VkResult` it returned (`VK_SUCCESS` for a
`void` entry point) and the handle it wrote through its output pointer. -/
structure Call where
  fn : VkFn
  args : List Handle
  ret : VkResult
  out : Handle
  deriving DecidableEq, Repr

/-- Whether the entry point releases an object. -/
def VkFn.isDestroy : VkFn → Bool
  | .vkDestroyFence | .vkFreeCommandBuffers | .vkDestroyImage | .vkFreeMemory
  | .vkDestroyFramebuffer | .vkDestroyImageView | .vkDestroyPipeline
  | .vkDestroyRenderPass | .vkDestroyPipelineLayout | .vkDestroyShaderModule
  | .vkDestroyPipelineCache | .vkDestroyCommandPool | .vkDestroyDevice
  | .vkDestroyInstance => true
  | _ => false

/-- Whether the entry point creates or allocates an object that the caller
must release. -/
def VkFn.isCreate : VkFn → Bool
  | .vkCreateInstance | .vkCreateDevice | .vkCreateCommandPool
  | .vkCreatePipelineCache | .vkCreateShaderModule | .vkCreatePipelineLayout
  | .vkCreateRenderPass | .vkCreateGraphicsPipelines | .vkCreateImage
  | .vkAllocateMemory | .vkCreateImageView | .vkCreateFramebuffer
  | .vkAllocateCommandBuffers | .vkCreateFence => true
  | _ => false

/-- A call whose result the caller has to test: the value it returned and the
handle it produced, which stays `nullptr` unless the call succeeded. -/
def created (fn : VkFn) (args : List Handle) (ret : VkResult) (r : Res) : Call :=
  { fn := fn, args := args, ret := ret, out := if ret = VK_SUCCESS then some r else none }

/-- A call that returns a `VkResult` and produces no handle. -/
def checked (fn : VkFn) (args : List Handle) (ret : VkResult) : Call :=
  { fn := fn, args := args, ret := ret, out := none }

/-- A call of a `void` entry point. -/
def issued (fn : VkFn) (args : List Handle) : Call :=
  { fn := fn, args := args, ret := VK_SUCCESS, out := none }

/-! ## `utilities.c` -/

/-- `VkMemoryType`. -/
structure VkMemoryType where
  propertyFlags : Nat
  heapIndex : Nat
  deriving DecidableEq, Repr, Inhabited

/-- `VkPhysicalDeviceMemoryProperties`, without the heaps the program never
reads. `memoryTypes` is the array `memoryTypes[VK_MAX_MEMORY_TYPES]`. -/
structure VkPhysicalDeviceMemoryProperties where
  memoryTypeCount : Nat
  memoryTypes : List VkMemoryType
  deriving DecidableEq, Repr

/-- What the driver reports about one enumerated physical device:
`vkGetPhysicalDeviceProperties` (its `deviceType`),
`vkGetPhysicalDeviceQueueFamilyProperties` (the `queueFlags` of each family)
and `vkGetPhysicalDeviceMemoryProperties`. -/
structure PhysicalDevice where
  deviceType : Nat
  queueFamilies : List Nat
  memoryProperties : VkPhysicalDeviceMemoryProperties
  deriving DecidableEq, Repr

/-- Result of `findFirstGPU`: the returned code, `*pPhysicalDevice`, and the
GPU calls issued. -/
structure FirstGPU where
  result : VkResult
  physicalDevice : Option PhysicalDevice
  calls : List Call
  deriving DecidableEq, Repr

/-- The `for` loop of `findFirstGPU`, from index `ii` on. The first argument
is the loop variant `physicalDeviceCount - ii`: it is zero exactly when the
loop condition `ii < physicalDeviceCount` fails. -/
def findFirstGPU.loop (physicalDevices : List PhysicalDevice) :
    Nat → Nat → List Call → FirstGPU
  | 0, _, calls =>
      { result := VK_ERROR_FEATURE_NOT_PRESENT, physicalDevice := none, calls := calls }
  | n + 1, ii, calls =>
      match physicalDevices[ii]? with
      | none =>
          { result := VK_ERROR_FEATURE_NOT_PRESENT, physicalDevice := none, calls := calls }
      | some pd =>
          let calls := calls ++ [issued .vkGetPhysicalDeviceProperties [some .physicalDevice]]
          if VK_PHYSICAL_DEVICE_TYPE_INTEGRATED_GPU = pd.deviceType ∨
             VK_PHYSICAL_DEVICE_TYPE_DISCRETE_GPU = pd.deviceType then
            { result := VK_SUCCESS, physicalDevice := some pd, calls := calls }
          else
            findFirstGPU.loop physicalDevices n (ii + 1) calls

/-- `findFirstGPU(instance, pPhysicalDevice)`; `physicalDevices` is what
`vkEnumeratePhysicalDevices` reports for the instance. -/
def findFirstGPU (inst : Handle) (physicalDevices : List PhysicalDevice) : FirstGPU :=
  findFirstGPU.loop physicalDevices physicalDevices.length 0
    [ checked .vkEnumeratePhysicalDevices [inst] VK_SUCCESS,
      checked .vkEnumeratePhysicalDevices [inst] VK_SUCCESS ]

/-- Result of `findGraphicsAndComputeQueueFamily`. -/
structure QueueFamily where
  result : VkResult
  queueFamilyIndex : Nat
  calls : List Call
  deriving DecidableEq, Repr

/-- The `for` loop of `findGraphicsAndComputeQueueFamily`, from index `ii` on;
the first argument is the loop variant `queueFamilyCount - ii`. -/
def findGraphicsAndComputeQueueFamily.loop (queueFamilyProperties : List Nat) :
    Nat → Nat → VkResult × Nat
  | 0, _ => (VK_ERROR_FEATURE_NOT_PRESENT, 0)
  | n + 1, ii =>
      match queueFamilyProperties[ii]? with
      | none => (VK_ERROR_FEATURE_NOT_PRESENT, 0)
      | some queueFlags =>
          if IS_FLAG_SET queueFlags VK_QUEUE_GRAPHICS_BIT &&
             IS_FLAG_SET queueFlags VK_QUEUE_COMPUTE_BIT then
            (VK_SUCCESS, ii)
          else
            findGraphicsAndComputeQueueFamily.loop queueFamilyProperties n (ii + 1)

/-- `vkGetPhysicalDeviceQueueFamilyProperties`: the `queueFlags` of the queue
families of the device (nothing for the null handle). -/
def vkGetPhysicalDeviceQueueFamilyProperties (device : Option PhysicalDevice) : List Nat :=
  match device with
  | some d => d.queueFamilies
  | none => []

/-- `vkGetPhysicalDeviceMemoryProperties` (an empty table for the null handle). -/
def vkGetPhysicalDeviceMemoryProperties (device : Option PhysicalDevice) :
    VkPhysicalDeviceMemoryProperties :=
  match device with
  | some d => d.memoryProperties
  | none => { memoryTypeCount := 0, memoryTypes := [] }

/-- `findGraphicsAndComputeQueueFamily(device, pQueueFamilyIndex)`. -/
def findGraphicsAndComputeQueueFamily (device : Option PhysicalDevice) : QueueFamily :=
  let queueFamilyProperties := vkGetPhysicalDeviceQueueFamilyProperties device
  let r := findGraphicsAndComputeQueueFamily.loop queueFamilyProperties
    queueFamilyProperties.length 0
  { result := r.1, queueFamilyIndex := r.2,
    calls := [ issued .vkGetPhysicalDeviceQueueFamilyProperties [some .physicalDevice],
               issued .vkGetPhysicalDeviceQueueFamilyProperties [some .physicalDevice] ] }

/-- `hasProperties(memoryType, requestedProperties)`. -/
def hasProperties (memoryType : VkMemoryType) (requestedProperties : Nat) : Bool :=
  requestedProperties == (memoryType.propertyFlags &&& requestedProperties)

/-- `hasMemoryProperties(memoryProperties, memoryTypeIndex, requestedProperties)`. -/
def hasMemoryProperties (memoryProperties : VkPhysicalDeviceMemoryProperties)
    (memoryTypeIndex : Nat) (requestedProperties : Nat) : Bool :=
  hasProperties (memoryProperties.memoryTypes.getD memoryTypeIndex default)
    requestedProperties

/-- The scan behind `stdc_trailing_zeros`: the first set bit of `value` at or
above position `i`, looking at no more than the given number of positions. -/
def stdc_trailing_zeros.scan (value : Nat) : Nat → Nat → Nat
  | 0, i => i
  | n + 1, i => if value.testBit i then i else stdc_trailing_zeros.scan value n (i + 1)

/-- `stdc_trailing_zeros` of `<stdbit.h>` on a `uint32_t`: the number of
consecutive zero bits from the least significant one, 32 for the value 0. -/
def stdc_trailing_zeros (value : Nat) : Nat := stdc_trailing_zeros.scan value 32 0

/-- The `for` loop of `findMemoryTypeIndex` from the state `(index, indexBit)`
on. The first argument is the loop variant `memoryTypeCount - index`: it is
zero exactly when the loop condition `index < memoryTypeCount` fails. The
update `indexBit <<= 1` is a `uint32_t` shift. -/
def findMemoryTypeIndex.loop (pMemoryProperties : VkPhysicalDeviceMemoryProperties)
    (memoryTypeIndexBits requestedProperties : Nat) : Nat → Nat → Nat → VkResult × Nat
  | 0, _, _ => (VK_ERROR_FEATURE_NOT_PRESENT, 0)
  | n + 1, index, indexBit =>
      if IS_FLAG_SET memoryTypeIndexBits indexBit &&
         hasMemoryProperties pMemoryProperties index requestedProperties then
        (VK_SUCCESS, index)
      else
        findMemoryTypeIndex.loop pMemoryProperties memoryTypeIndexBits requestedProperties
          n (index + 1) ((indexBit <<< 1) % 2 ^ 32)

/-- `findMemoryTypeIndex`; returns the result code and `*pMemoryTypeIndex`.
For the mask 0 the initialiser `1u << 32` has no defined value in C; the model
takes the shifted value `% 2^32`, and with `memoryTypeCount ≤ 32` the loop body
never reads it. -/
def findMemoryTypeIndex (pMemoryProperties : VkPhysicalDeviceMemoryProperties)
    (memoryTypeIndexBits requestedProperties : Nat) : VkResult × Nat :=
  let index := stdc_trailing_zeros memoryTypeIndexBits
  findMemoryTypeIndex.loop pMemoryProperties memoryTypeIndexBits requestedProperties
    (pMemoryProperties.memoryTypeCount - index) index ((1 <<< index) % 2 ^ 32)

/-- What the driver answers during one call of `createImageAndMemory`: the
results of its three fallible calls and the `memoryTypeBits` that
`vkGetImageMemoryRequirements` reports for the image. -/
structure ImageDriver where
  vkCreateImage : VkResult := VK_SUCCESS
  memoryTypeBits : Nat := 1
  vkAllocateMemory : VkResult := VK_SUCCESS
  vkBindImageMemory : VkResult := VK_SUCCESS
  deriving DecidableEq, Repr

/-- Result of `createImageAndMemory`: the returned code, `*pImage`,
`*pImageMemory`, and the GPU calls issued. -/
structure ImageAndMemory where
  result : VkResult
  image : Handle
  imageMemory : Handle
  calls : List Call
  deriving DecidableEq, Repr

/-- The part of `createImageAndMemory` after the `do ... while (0)` block,
where every `break` lands: on failure both objects are released,
unconditionally, and both locals are reset. -/
def createImageAndMemory.finish (device : Handle) (result : VkResult)
    (image imageMemory : Handle) (calls : List Call) : ImageAndMemory :=
  if VK_SUCCESS ≠ result then
    { result := result, image := none, imageMemory := none,
      calls := calls ++ [ issued .vkDestroyImage [device, image],
                          issued .vkFreeMemory [device, imageMemory] ] }
  else
    { result := result, image := image, imageMemory := imageMemory, calls := calls }

/-- `createImageAndMemory`. `imageRes` and `memoryRes` name the two objects the
call creates when it succeeds. The image info only travels to the driver and
is not part of the model. -/
def createImageAndMemory (device : Handle)
    (pMemoryProperties : VkPhysicalDeviceMemoryProperties)
    (requestedMemoryProperties : Nat) (drv : ImageDriver)
    (imageRes memoryRes : Res) : ImageAndMemory :=
  let cImage := created .vkCreateImage [device] drv.vkCreateImage imageRes
  let image := cImage.out
  if VK_SUCCESS ≠ drv.vkCreateImage then
    createImageAndMemory.finish device drv.vkCreateImage image none [cImage]
  else
    let cReq := issued .vkGetImageMemoryRequirements [device, image]
    let found := findMemoryTypeIndex pMemoryProperties drv.memoryTypeBits
      requestedMemoryProperties
    if VK_SUCCESS ≠ found.1 then
      createImageAndMemory.finish device found.1 image none [cImage, cReq]
    else
      let cAlloc := created .vkAllocateMemory [device] drv.vkAllocateMemory memoryRes
      let imageMemory := cAlloc.out
      if VK_SUCCESS ≠ drv.vkAllocateMemory then
        createImageAndMemory.finish device drv.vkAllocateMemory image imageMemory
          [cImage, cReq, cAlloc]
      else
        createImageAndMemory.finish device drv.vkBindImageMemory image imageMemory
          [ cImage, cReq, cAlloc,
            checked .vkBindImageMemory [device, image, imageMemory] drv.vkBindImageMemory ]

/-- What the driver answers during one call of `submitCommandBuffer`. -/
structure SubmitDriver where
  vkCreateFence : VkResult := VK_SUCCESS
  vkQueueSubmit : VkResult := VK_SUCCESS
  vkWaitForFences : VkResult := VK_SUCCESS
  deriving DecidableEq, Repr

/-- Result of `submitCommandBuffer`. -/
structure Submitted where
  result : VkResult
  calls : List Call
  deriving DecidableEq, Repr

/-- `submitCommandBuffer(device, queue, commandBuffer)`; `fenceRes` names the
fence the call creates. -/
def submitCommandBuffer (device queue commandBuffer : Handle) (drv : SubmitDriver)
    (fenceRes : Res) : Submitted :=
  let cFence := created .vkCreateFence [device] drv.vkCreateFence fenceRes
  let fence := cFence.out
  if VK_SUCCESS = drv.vkCreateFence then
    let cSubmit := checked .vkQueueSubmit [queue, commandBuffer, fence] drv.vkQueueSubmit
    let waited :=
      if VK_SUCCESS = drv.vkQueueSubmit then
        [checked .vkWaitForFences [device, fence] drv.vkWaitForFences]
      else []
    { result := drv.vkQueueSubmit,
      calls := [cFence, cSubmit] ++ waited ++ [issued .vkDestroyFence [device, fence]] }
  else
    { result := drv.vkCreateFence, calls := [cFence] }

/-! ## `square.c`: `renderImage` -/

/-- `ImageContext`; `data` is the owned buffer, `none` for `nullptr`. -/
structure ImageContext where
  width : Nat := 0
  height : Nat := 0
  bytesPerRow : Nat := 0
  colorPixelFormat : Nat := 0
  data : Option (List Nat) := none
  deriving DecidableEq, Repr

/-- Everything outside the program that one run of `renderImage` depends on:
the result of each Vulkan call (also of the calls whose result the program
discards), what the instance enumerates, the answers of the driver about the
two images, the `VkSubresourceLayout` of the staging image, the bytes behind
the pointer `vkMapMemory` returns, and whether `malloc` returns a buffer. -/
structure Env where
  vkCreateInstance : VkResult := VK_SUCCESS
  physicalDevices : List PhysicalDevice := []
  vkCreateDevice : VkResult := VK_SUCCESS
  vkCreateCommandPool : VkResult := VK_SUCCESS
  vkCreatePipelineCache : VkResult := VK_SUCCESS
  vertex_vkCreateShaderModule : VkResult := VK_SUCCESS
  fragment_vkCreateShaderModule : VkResult := VK_SUCCESS
  vkCreatePipelineLayout : VkResult := VK_SUCCESS
  vkCreateRenderPass : VkResult := VK_SUCCESS
  vkCreateGraphicsPipelines : VkResult := VK_SUCCESS
  image : ImageDriver := {}
  vkCreateImageView : VkResult := VK_SUCCESS
  vkCreateFramebuffer : VkResult := VK_SUCCESS
  render_vkAllocateCommandBuffers : VkResult := VK_SUCCESS
  render_vkBeginCommandBuffer : VkResult := VK_SUCCESS
  render_vkEndCommandBuffer : VkResult := VK_SUCCESS
  render_submit : SubmitDriver := {}
  render_vkQueueWaitIdle : VkResult := VK_SUCCESS
  destImage : ImageDriver := {}
  copy_vkAllocateCommandBuffers : VkResult := VK_SUCCESS
  copy_vkBeginCommandBuffer : VkResult := VK_SUCCESS
  copy_vkEndCommandBuffer : VkResult := VK_SUCCESS
  copy_submit : SubmitDriver := {}
  copy_vkQueueWaitIdle : VkResult := VK_SUCCESS
  layoutOffset : Nat := 0
  layoutRowPitch : Nat := 0
  vkMapMemory : VkResult := VK_SUCCESS
  mapped : Nat → Nat := fun _ => 0
  mallocSucceeds : Bool := true

/-- The locals of `renderImage`. A local that a `goto` jumped over is never
read; it is shown as `nullptr`. -/
structure Locals where
  imageContext : ImageContext := {}
  inst : Handle := none
  physicalDevice : Option PhysicalDevice := none
  memoryProperties : VkPhysicalDeviceMemoryProperties :=
    { memoryTypeCount := 0, memoryTypes := [] }
  queueFamilyIndex : Nat := 0
  device : Handle := none
  queue : Handle := none
  commandPool : Handle := none
  pipelineCache : Handle := none
  vertexShader : Handle := none
  fragmentShader : Handle := none
  pipelineLayout : Handle := none
  renderPass : Handle := none
  graphicsPipeline : Handle := none
  image : Handle := none
  imageMemory : Handle := none
  imageView : Handle := none
  framebuffer : Handle := none
  renderCommandBuffer : Handle := none
  destImage : Handle := none
  destImageMemory : Handle := none
  copyCommandBuffer : Handle := none
  deriving DecidableEq, Repr

/-- The state of the cleanup section of `renderImage` (the code from the label
`post_copy_command` on): the locals and the GPU calls the section has issued
so far. -/
structure Unwinding where
  v : Locals
  cleanup : List Call := []
  deriving DecidableEq, Repr

/-- The code at the label `post_cleanup_instance`: `return imageContext`. -/
def post_cleanup_instance (u : Unwinding) : Unwinding := u

/-- The code at the label `post_cleanup_physical_device`, falling through. -/
def post_cleanup_physical_device (u : Unwinding) : Unwinding :=
  let v := u.v
  post_cleanup_instance
    { v := { v with inst := none },
      cleanup := u.cleanup ++
        [ issued .vkDestroyInstance [v.inst] ] }

/-- The code at the label `post_cleanup_queue_family_index`, falling through. -/
def post_cleanup_queue_family_index (u : Unwinding) : Unwinding :=
  let v := u.v
  post_cleanup_physical_device
    { u with v := { v with physicalDevice := none } }

/-- The code at the label `post_cleanup_device`, falling through. -/
def post_cleanup_device (u : Unwinding) : Unwinding :=
  let v := u.v
  post_cleanup_queue_family_index
    { u with v := { v with queueFamilyIndex := 0 } }

/-- The code at the label `post_cleanup_command_pool`, falling through. -/
def post_cleanup_command_pool (u : Unwinding) : Unwinding :=
  let v := u.v
  post_cleanup_device
    { v := { v with device := none, queue := none },
      cleanup := u.cleanup ++
        [ issued .vkDestroyDevice [v.device] ] }

/-- The code at the label `post_cleanup_pipeline_cache`, falling through. -/
def post_cleanup_pipeline_cache (u : Unwinding) : Unwinding :=
  let v := u.v
  post_cleanup_command_pool
    { v := { v with commandPool := none },
      cleanup := u.cleanup ++
        [ issued .vkDestroyCommandPool [v.device, v.commandPool] ] }

/-- The code at the label `post_cleanup_vertex_shader`, falling through. -/
def post_cleanup_vertex_shader (u : Unwinding) : Unwinding :=
  let v := u.v
  post_cleanup_pipeline_cache
    { v := { v with pipelineCache := none },
      cleanup := u.cleanup ++
        [ issued .vkDestroyPipelineCache [v.device, v.pipelineCache] ] }

/-- The code at the label `post_cleanup_fragment_shader`, falling through. -/
def post_cleanup_fragment_shader (u : Unwinding) : Unwinding :=
  let v := u.v
  post_cleanup_vertex_shader
    (if none ≠ v.vertexShader then
      { v := { v with vertexShader := none },
        cleanup := u.cleanup ++
          [ issued .vkDestroyShaderModule [v.device, v.vertexShader] ] }
     else u)

/-- The code at the label `post_cleanup_pipeline_layout`, falling through. -/
def post_cleanup_pipeline_layout (u : Unwinding) : Unwinding :=
  let v := u.v
  post_cleanup_fragment_shader
    (if none ≠ v.fragmentShader then
      { v := { v with fragmentShader := none },
        cleanup := u.cleanup ++
          [ issued .vkDestroyShaderModule [v.device, v.fragmentShader] ] }
     else u)

/-- The code at the label `post_cleanup_render_pass`, falling through. -/
def post_cleanup_render_pass (u : Unwinding) : Unwinding :=
  let v := u.v
  post_cleanup_pipeline_layout
    { v := { v with pipelineLayout := none },
      cleanup := u.cleanup ++
        [ issued .vkDestroyPipelineLayout [v.device, v.pipelineLayout] ] }

/-- The code at the label `post_cleanup_graphics_pipeline`, falling through. -/
def post_cleanup_graphics_pipeline (u : Unwinding) : Unwinding :=
  let v := u.v
  post_cleanup_render_pass
    { v := { v with renderPass := none },
      cleanup := u.cleanup ++
        [ issued .vkDestroyRenderPass [v.device, v.renderPass] ] }

/-- The code at the label `post_cleanup_image`, falling through. -/
def post_cleanup_image (u : Unwinding) : Unwinding :=
  let v := u.v
  post_cleanup_graphics_pipeline
    { v := { v with graphicsPipeline := none },
      cleanup := u.cleanup ++
        [ issued .vkDestroyPipeline [v.device, v.graphicsPipeline] ] }

/-- The code at the label `post_cleanup_image_view`, falling through. -/
def post_cleanup_image_view (u : Unwinding) : Unwinding :=
  let v := u.v
  post_cleanup_image
    { v := { v with image := none, imageMemory := none },
      cleanup := u.cleanup ++
        [ issued .vkDestroyImage [v.device, v.image],
          issued .vkFreeMemory [v.device, v.imageMemory] ] }

/-- The code at the label `post_cleanup_framebuffer`, falling through. -/
def post_cleanup_framebuffer (u : Unwinding) : Unwinding :=
  let v := u.v
  post_cleanup_image_view
    { v := { v with imageView := none },
      cleanup := u.cleanup ++
        [ issued .vkDestroyImageView [v.device, v.imageView] ] }

/-- The code at the label `post_cleanup_render_command_buffer`, falling through. -/
def post_cleanup_render_command_buffer (u : Unwinding) : Unwinding :=
  let v := u.v
  post_cleanup_framebuffer
    { v := { v with framebuffer := none },
      cleanup := u.cleanup ++
        [ issued .vkDestroyFramebuffer [v.device, v.framebuffer] ] }

/-- The code at the label `post_render_command`, falling through. -/
def post_render_command (u : Unwinding) : Unwinding :=
  let v := u.v
  post_cleanup_render_command_buffer
    (if none ≠ v.renderCommandBuffer then
      { v := { v with renderCommandBuffer := none },
        cleanup := u.cleanup ++
          [ issued .vkFreeCommandBuffers [v.device, v.commandPool, v.renderCommandBuffer] ] }
     else u)

/-- The label `post_cleanup_dest_image` stands at the same statement as
`post_render_command`. -/
def post_cleanup_dest_image (u : Unwinding) : Unwinding := post_render_command u

/-- The code at the label `post_cleanup_copy_command_buffer`, falling through. -/
def post_cleanup_copy_command_buffer (u : Unwinding) : Unwinding :=
  let v := u.v
  post_cleanup_dest_image
    { v := { v with destImage := none, destImageMemory := none },
      cleanup := u.cleanup ++
        [ issued .vkDestroyImage [v.device, v.destImage],
          issued .vkFreeMemory [v.device, v.destImageMemory] ] }

/-- The code at the label `post_copy_command`, falling through. -/
def post_copy_command (u : Unwinding) : Unwinding :=
  let v := u.v
  post_cleanup_copy_command_buffer
    (if none ≠ v.copyCommandBuffer then
      { v := { v with copyCommandBuffer := none },
        cleanup := u.cleanup ++
          [ issued .vkFreeCommandBuffers [v.device, v.commandPool, v.copyCommandBuffer] ] }
     else u)

/-- The outcome of one run of `renderImage`: the final values of its locals
(`v.imageContext` is the value the C function returns), the GPU calls issued
before the cleanup section, and the GPU calls of the cleanup section. -/
structure Run where
  v : Locals
  calls : List Call
  cleanup : List Call
  deriving DecidableEq, Repr

/-- The value `renderImage` returns. -/
def Run.imageContext (r : Run) : ImageContext := r.v.imageContext

/-- The whole trace of a run: the calls before the cleanup section, then the
calls of the cleanup section. -/
def Run.trace (r : Run) : List Call := r.calls ++ r.cleanup

/-- The statement `goto target`: with the locals `v`, after the GPU calls
`calls`, run the cleanup section from the label `target` to the `return`. -/
def jump (target : Unwinding → Unwinding) (v : Locals) (calls : List Call) : Run :=
  let u := target { v := v, cleanup := [] }
  { v := u.v, calls := calls, cleanup := u.cleanup }

/-!
`renderImage` is one long C function; the model cuts it at the banner comments
of the source (`* Instance`, `* Physical device`, ...). Each piece takes the
locals `v` and the GPU calls `calls` as the code above it left them, and ends
either in a `goto label` or in the next piece. The pieces are listed last
first, so that each one can name the piece that follows it. The info structures
only travel to the driver; of them the model keeps the handles they hold, as
arguments of the call.
-/

/-- `renderImage` from the banner `* Copy destination image to host allocated
buffer` on; it falls into the cleanup section at `post_copy_command`. The
buffer holds `(size_t)height * rowPitch` bytes read from
`pDestImageData + offset`. -/
def renderImage.copyToHost (env : Env) (width height : Nat) (v : Locals)
    (calls : List Call) : Run :=
  --  - image memory layout, map memory
  let calls := calls ++
    [ issued .vkGetImageSubresourceLayout [v.device, v.destImage],
      checked .vkMapMemory [v.device, v.destImageMemory] env.vkMapMemory ]
  if VK_SUCCESS ≠ env.vkMapMemory then jump post_copy_command v calls else
  --  - copy to local buffer
  let destImageDataSize := (height * env.layoutRowPitch) % 2 ^ 64
  let v :=
    if env.mallocSucceeds then
      { v with imageContext :=
          { data := some ((List.range destImageDataSize).map
                      (fun i => env.mapped (env.layoutOffset + i))),
            width := width,
            height := height,
            colorPixelFormat := VK_FORMAT_R8G8B8A8_UNORM,
            bytesPerRow := env.layoutRowPitch } }
    else v
  let calls := calls ++ [issued .vkUnmapMemory [v.device, v.destImageMemory]]
  jump post_copy_command v calls

/-- `renderImage` from the banner `* Copy command` on. -/
def renderImage.copyCommand (env : Env) (width height : Nat) (v : Locals)
    (calls : List Call) : Run :=
  --  - command buffer
  let c := created .vkAllocateCommandBuffers [v.device, v.commandPool]
    env.copy_vkAllocateCommandBuffers .copyCommandBuffer
  let v := { v with copyCommandBuffer := c.out }
  let calls := calls ++ [c]
  if VK_SUCCESS ≠ env.copy_vkAllocateCommandBuffers then
    jump post_cleanup_copy_command_buffer v calls else
  --  - begin
  let calls := calls ++
    [checked .vkBeginCommandBuffer [v.copyCommandBuffer] env.copy_vkBeginCommandBuffer]
  if VK_SUCCESS ≠ env.copy_vkBeginCommandBuffer then jump post_copy_command v calls else
  --  - transition, copy image, transition, end
  let calls := calls ++
    [ issued .vkCmdPipelineBarrier [v.copyCommandBuffer, v.destImage],
      issued .vkCmdCopyImage [v.copyCommandBuffer, v.image, v.destImage],
      issued .vkCmdPipelineBarrier [v.copyCommandBuffer, v.destImage],
      checked .vkEndCommandBuffer [v.copyCommandBuffer] env.copy_vkEndCommandBuffer ]
  if VK_SUCCESS ≠ env.copy_vkEndCommandBuffer then jump post_copy_command v calls else
  --  - submit copy command buffer
  let sent := submitCommandBuffer v.device v.queue v.copyCommandBuffer env.copy_submit
    .copyFence
  let calls := calls ++ sent.calls
  if VK_SUCCESS ≠ sent.result then jump post_copy_command v calls else
  --  - wait for events to complete
  let calls := calls ++ [checked .vkQueueWaitIdle [v.queue] env.copy_vkQueueWaitIdle]
  --  - command buffer no longer in use
  let calls := calls ++
    [issued .vkFreeCommandBuffers [v.device, v.commandPool, v.copyCommandBuffer]]
  let v := { v with copyCommandBuffer := none }
  renderImage.copyToHost env width height v calls

/-- `renderImage` from the banner `* Destination image` on. -/
def renderImage.destinationImage (env : Env) (width height : Nat) (v : Locals)
    (calls : List Call) : Run :=
  let made := createImageAndMemory v.device v.memoryProperties
    (VK_MEMORY_PROPERTY_HOST_VISIBLE_BIT ||| VK_MEMORY_PROPERTY_HOST_COHERENT_BIT)
    env.destImage .destImage .destImageMemory
  let v := { v with destImage := made.image, destImageMemory := made.imageMemory }
  let calls := calls ++ made.calls
  if VK_SUCCESS ≠ made.result then jump post_cleanup_dest_image v calls else
  renderImage.copyCommand env width height v calls

/-- `renderImage` from the banner `* Command buffer` on. -/
def renderImage.commandBuffer (env : Env) (width height : Nat) (v : Locals)
    (calls : List Call) : Run :=
  --  - allocate
  let c := created .vkAllocateCommandBuffers [v.device, v.commandPool]
    env.render_vkAllocateCommandBuffers .renderCommandBuffer
  let v := { v with renderCommandBuffer := c.out }
  let calls := calls ++ [c]
  if VK_SUCCESS ≠ env.render_vkAllocateCommandBuffers then
    jump post_cleanup_render_command_buffer v calls else
  --  - begin
  let calls := calls ++
    [checked .vkBeginCommandBuffer [v.renderCommandBuffer] env.render_vkBeginCommandBuffer]
  if VK_SUCCESS ≠ env.render_vkBeginCommandBuffer then jump post_render_command v calls else
  --  - render pass, pipeline, draw, end
  let calls := calls ++
    [ issued .vkCmdBeginRenderPass [v.renderCommandBuffer, v.renderPass, v.framebuffer],
      issued .vkCmdBindPipeline [v.renderCommandBuffer, v.graphicsPipeline],
      issued .vkCmdDraw [v.renderCommandBuffer],
      issued .vkCmdEndRenderPass [v.renderCommandBuffer],
      checked .vkEndCommandBuffer [v.renderCommandBuffer] env.render_vkEndCommandBuffer ]
  if VK_SUCCESS ≠ env.render_vkEndCommandBuffer then jump post_render_command v calls else
  --  - submit command buffer
  let sent := submitCommandBuffer v.device v.queue v.renderCommandBuffer env.render_submit
    .renderFence
  let calls := calls ++ sent.calls
  if VK_SUCCESS ≠ sent.result then jump post_render_command v calls else
  --  - wait for events to complete
  let calls := calls ++ [checked .vkQueueWaitIdle [v.queue] env.render_vkQueueWaitIdle]
  --  - command buffer no longer in use
  let calls := calls ++
    [issued .vkFreeCommandBuffers [v.device, v.commandPool, v.renderCommandBuffer]]
  let v := { v with renderCommandBuffer := none }
  renderImage.destinationImage env width height v calls

/-- `renderImage` from the banner `* Image` on: the render target, its view
and the framebuffer. -/
def renderImage.image (env : Env) (width height : Nat) (v : Locals)
    (calls : List Call) : Run :=
  --  - image
  let made := createImageAndMemory v.device v.memoryProperties
    VK_MEMORY_PROPERTY_DEVICE_LOCAL_BIT env.image .image .imageMemory
  let v := { v with image := made.image, imageMemory := made.imageMemory }
  let calls := calls ++ made.calls
  if VK_SUCCESS ≠ made.result then jump post_cleanup_image v calls else
  --  - image view
  let c := created .vkCreateImageView [v.device, v.image] env.vkCreateImageView .imageView
  let v := { v with imageView := c.out }
  let calls := calls ++ [c]
  if VK_SUCCESS ≠ env.vkCreateImageView then jump post_cleanup_image_view v calls else
  --  - framebuffer
  let c := created .vkCreateFramebuffer [v.device, v.renderPass, v.imageView]
    env.vkCreateFramebuffer .framebuffer
  let v := { v with framebuffer := c.out }
  let calls := calls ++ [c]
  if VK_SUCCESS ≠ env.vkCreateFramebuffer then jump post_cleanup_framebuffer v calls else
  renderImage.commandBuffer env width height v calls

/-- `renderImage` from the banner `* Pipeline` on. -/
def renderImage.pipeline (env : Env) (width height : Nat) (v : Locals)
    (calls : List Call) : Run :=
  let c := created .vkCreateGraphicsPipelines
    [v.device, v.pipelineCache, v.vertexShader, v.fragmentShader, v.pipelineLayout,
     v.renderPass]
    env.vkCreateGraphicsPipelines .graphicsPipeline
  let v := { v with graphicsPipeline := c.out }
  let calls := calls ++ [c]
  if VK_SUCCESS ≠ env.vkCreateGraphicsPipelines then
    jump post_cleanup_graphics_pipeline v calls else
  --  - shader modules no longer in use
  let calls := calls ++ [issued .vkDestroyShaderModule [v.device, v.fragmentShader]]
  let v := { v with fragmentShader := none }
  let calls := calls ++ [issued .vkDestroyShaderModule [v.device, v.vertexShader]]
  let v := { v with vertexShader := none }
  renderImage.image env width height v calls

/-- `renderImage` from the banner `* Render pass` on. -/
def renderImage.renderPass (env : Env) (width height : Nat) (v : Locals)
    (calls : List Call) : Run :=
  let c := created .vkCreateRenderPass [v.device] env.vkCreateRenderPass .renderPass
  let v := { v with renderPass := c.out }
  let calls := calls ++ [c]
  if VK_SUCCESS ≠ env.vkCreateRenderPass then jump post_cleanup_render_pass v calls else
  renderImage.pipeline env width height v calls

/-- `renderImage` from the banner `* Pipeline layout` on. -/
def renderImage.pipelineLayout (env : Env) (width height : Nat) (v : Locals)
    (calls : List Call) : Run :=
  let c := created .vkCreatePipelineLayout [v.device] env.vkCreatePipelineLayout
    .pipelineLayout
  let v := { v with pipelineLayout := c.out }
  let calls := calls ++ [c]
  if VK_SUCCESS ≠ env.vkCreatePipelineLayout then
    jump post_cleanup_pipeline_layout v calls else
  renderImage.renderPass env width height v calls

/-- `renderImage` from the banner `* Shaders` on. -/
def renderImage.shaders (env : Env) (width height : Nat) (v : Locals)
    (calls : List Call) : Run :=
  --  - vertex
  let c := created .vkCreateShaderModule [v.device] env.vertex_vkCreateShaderModule
    .vertexShader
  let v := { v with vertexShader := c.out }
  let calls := calls ++ [c]
  if VK_SUCCESS ≠ env.vertex_vkCreateShaderModule then
    jump post_cleanup_vertex_shader v calls else
  --  - fragment
  let c := created .vkCreateShaderModule [v.device] env.fragment_vkCreateShaderModule
    .fragmentShader
  let v := { v with fragmentShader := c.out }
  let calls := calls ++ [c]
  if VK_SUCCESS ≠ env.fragment_vkCreateShaderModule then
    jump post_cleanup_fragment_shader v calls else
  renderImage.pipelineLayout env width height v calls

/-- `renderImage` from the banner `* Pipeline cache` on. -/
def renderImage.pipelineCache (env : Env) (width height : Nat) (v : Locals)
    (calls : List Call) : Run :=
  let c := created .vkCreatePipelineCache [v.device] env.vkCreatePipelineCache .pipelineCache
  let v := { v with pipelineCache := c.out }
  let calls := calls ++ [c]
  if VK_SUCCESS ≠ env.vkCreatePipelineCache then
    jump post_cleanup_pipeline_cache v calls else
  renderImage.shaders env width height v calls

/-- `renderImage` from the banner `* Command pool` on. -/
def renderImage.commandPool (env : Env) (width height : Nat) (v : Locals)
    (calls : List Call) : Run :=
  let c := created .vkCreateCommandPool [v.device] env.vkCreateCommandPool .commandPool
  let v := { v with commandPool := c.out }
  let calls := calls ++ [c]
  if VK_SUCCESS ≠ env.vkCreateCommandPool then jump post_cleanup_command_pool v calls else
  renderImage.pipelineCache env width height v calls

/-- `renderImage` from the banner `* Logical device` on: the device and its
queue. -/
def renderImage.logicalDevice (env : Env) (width height : Nat) (v : Locals)
    (calls : List Call) : Run :=
  let c := created .vkCreateDevice [some .physicalDevice] env.vkCreateDevice .device
  let v := { v with device := c.out }
  let calls := calls ++ [c]
  if VK_SUCCESS ≠ env.vkCreateDevice then jump post_cleanup_device v calls else
  --  - queue
  let c : Call := { fn := .vkGetDeviceQueue, args := [v.device], ret := VK_SUCCESS,
                    out := some .queue }
  let v := { v with queue := c.out }
  let calls := calls ++ [c]
  renderImage.commandPool env width height v calls

/-- `renderImage` from the banner `* Queue family` on. -/
def renderImage.queueFamily (env : Env) (width height : Nat) (v : Locals)
    (calls : List Call) : Run :=
  let family := findGraphicsAndComputeQueueFamily v.physicalDevice
  let v := { v with queueFamilyIndex := family.queueFamilyIndex }
  let calls := calls ++ family.calls
  if VK_SUCCESS ≠ family.result then jump post_cleanup_queue_family_index v calls else
  renderImage.logicalDevice env width height v calls

/-- `renderImage` from the banner `* Physical device` on: the first GPU and
its memory properties. -/
def renderImage.physicalDevice (env : Env) (width height : Nat) (v : Locals)
    (calls : List Call) : Run :=
  let gpu := findFirstGPU v.inst env.physicalDevices
  let v := { v with physicalDevice := gpu.physicalDevice }
  let calls := calls ++ gpu.calls
  if VK_SUCCESS ≠ gpu.result then jump post_cleanup_physical_device v calls else
  --  - memory properties
  let v := { v with memoryProperties := vkGetPhysicalDeviceMemoryProperties v.physicalDevice }
  let calls := calls ++ [issued .vkGetPhysicalDeviceMemoryProperties [some .physicalDevice]]
  renderImage.queueFamily env width height v calls

/-- `renderImage(width, height)` in the environment `env`. -/
def renderImage (env : Env) (width height : Nat) : Run :=
  let v : Locals := {}
  -- * Instance
  let c := created .vkCreateInstance [] env.vkCreateInstance .inst
  let v := { v with inst := c.out }
  let calls := [c]
  if VK_SUCCESS ≠ env.vkCreateInstance then jump post_cleanup_instance v calls else
  renderImage.physicalDevice env width height v calls

/-! ## Reading the trace -/

/-- The call created the object `r`: a creating entry point that handed back
the handle of `r`. -/
def Call.creates (c : Call) (r : Res) : Bool := c.fn.isCreate && c.out == some r

/-- The call releases the object `r`: a destroy or free call on the live
handle of `r`. -/
def Call.releases (c : Call) (r : Res) : Bool :=
  c.fn.isDestroy && c.args.getLast? == some (some r)

/-- A destroy or free call that was handed the null handle. -/
def Call.releasesNull (c : Call) : Bool := c.fn.isDestroy && c.args.getLast? == some none

/-- The life of the object `r` in the trace `t`: `true` for each call that
creates it, `false` for each call that releases it, in the order of the trace. -/
def lifeline (r : Res) (t : List Call) : List Bool :=
  t.filterMap (fun c => if c.creates r then some true else if c.releases r then some false
    else none)

/-- The mappings of memory in the trace `t`: `true` for each `vkMapMemory` that
succeeded, `false` for each `vkUnmapMemory`, in the order of the trace. -/
def mapline (t : List Call) : List Bool :=
  t.filterMap (fun c => if c.fn = .vkMapMemory ∧ c.ret = VK_SUCCESS then some true
    else if c.fn = .vkUnmapMemory then some false else none)

/-- The objects the calls of `t` created, in the order of their creation. -/
def acquired (t : List Call) : List Res :=
  t.filterMap (fun c => if c.fn.isCreate then c.out else none)

/-- The order in which `renderImage` acquires its objects when nothing fails. -/
def acquisitionOrder : List Res :=
  [ .inst, .device, .commandPool, .pipelineCache, .vertexShader, .fragmentShader,
    .pipelineLayout, .renderPass, .graphicsPipeline, .image, .imageMemory, .imageView,
    .framebuffer, .renderCommandBuffer, .renderFence, .destImage, .destImageMemory,
    .copyCommandBuffer, .copyFence ]

/-- The place of an object in the teardown order of the specification:
command buffers, staging image and memory, framebuffer, image view, render
target and memory, graphics pipeline, render pass, pipeline layout, shader
modules, pipeline cache, command pool, device, instance. -/
def Res.category : Res → Option Nat
  | .copyCommandBuffer | .renderCommandBuffer => some 0
  | .destImage | .destImageMemory => some 1
  | .framebuffer => some 2
  | .imageView => some 3
  | .image | .imageMemory => some 4
  | .graphicsPipeline => some 5
  | .renderPass => some 6
  | .pipelineLayout => some 7
  | .fragmentShader | .vertexShader => some 8
  | .pipelineCache => some 9
  | .commandPool => some 10
  | .device => some 11
  | .inst => some 12
  | _ => none

/-- The teardown category of the object a destroy or free call releases;
`none` for any other call and for a release of the null handle. -/
def Call.category (c : Call) : Option Nat :=
  if c.fn.isDestroy then c.args.getLast?.join.bind Res.category else none

/-- The handle locals of `renderImage`. -/
def Locals.handles (v : Locals) : List Handle :=
  [ v.inst, v.device, v.queue, v.commandPool, v.pipelineCache, v.vertexShader,
    v.fragmentShader, v.pipelineLayout, v.renderPass, v.graphicsPipeline, v.image,
    v.imageMemory, v.imageView, v.framebuffer, v.renderCommandBuffer, v.destImage,
    v.destImageMemory, v.copyCommandBuffer ]

/-- Every object of `Res`. -/
def Res.all : List Res :=
  [ .inst, .physicalDevice, .device, .queue, .commandPool, .pipelineCache, .vertexShader,
    .fragmentShader, .pipelineLayout, .renderPass, .graphicsPipeline, .image, .imageMemory,
    .imageView, .framebuffer, .renderCommandBuffer, .renderFence, .destImage,
    .destImageMemory, .copyCommandBuffer, .copyFence ]

/-- The physical device is an integrated or a discrete GPU. -/
def PhysicalDevice.isGPU (d : PhysicalDevice) : Prop :=
  d.deviceType = VK_PHYSICAL_DEVICE_TYPE_INTEGRATED_GPU ∨
  d.deviceType = VK_PHYSICAL_DEVICE_TYPE_DISCRETE_GPU

/-- Memory type `i` of the table is allowed by the mask and has every
requested property: bit `i` of `bits` is set and
`propertyFlags & requested == requested`. -/
def suitable (mp : VkPhysicalDeviceMemoryProperties) (bits requested : Nat) (i : Nat) : Prop :=
  bits.testBit i = true ∧
  (mp.memoryTypes.getD i default).propertyFlags &&& requested = requested

/-- The memory properties `renderImage` reads: those of the device that
`findFirstGPU` selects. -/
def Env.memoryProperties (env : Env) : VkPhysicalDeviceMemoryProperties :=
  vkGetPhysicalDeviceMemoryProperties
    (findFirstGPU (some .inst) env.physicalDevices).physicalDevice

/-- Every check that `renderImage` makes comes out well: each Vulkan call whose
result it tests returns `VK_SUCCESS`, a GPU, a graphics and compute queue
family and a memory type for each of the two images are found, and `malloc`
returns a buffer. The results of `vkWaitForFences` and `vkQueueWaitIdle` are
not among them: the program discards them. -/
def Env.checksPass (env : Env) : Prop :=
  env.vkCreateInstance = VK_SUCCESS ∧
  (findFirstGPU (some .inst) env.physicalDevices).result = VK_SUCCESS ∧
  (findGraphicsAndComputeQueueFamily
    (findFirstGPU (some .inst) env.physicalDevices).physicalDevice).result = VK_SUCCESS ∧
  env.vkCreateDevice = VK_SUCCESS ∧
  env.vkCreateCommandPool = VK_SUCCESS ∧
  env.vkCreatePipelineCache = VK_SUCCESS ∧
  env.vertex_vkCreateShaderModule = VK_SUCCESS ∧
  env.fragment_vkCreateShaderModule = VK_SUCCESS ∧
  env.vkCreatePipelineLayout = VK_SUCCESS ∧
  env.vkCreateRenderPass = VK_SUCCESS ∧
  env.vkCreateGraphicsPipelines = VK_SUCCESS ∧
  env.image.vkCreateImage = VK_SUCCESS ∧
  (findMemoryTypeIndex env.memoryProperties env.image.memoryTypeBits
    VK_MEMORY_PROPERTY_DEVICE_LOCAL_BIT).1 = VK_SUCCESS ∧
  env.image.vkAllocateMemory = VK_SUCCESS ∧
  env.image.vkBindImageMemory = VK_SUCCESS ∧
  env.vkCreateImageView = VK_SUCCESS ∧
  env.vkCreateFramebuffer = VK_SUCCESS ∧
  env.render_vkAllocateCommandBuffers = VK_SUCCESS ∧
  env.render_vkBeginCommandBuffer = VK_SUCCESS ∧
  env.render_vkEndCommandBuffer = VK_SUCCESS ∧
  env.render_submit.vkCreateFence = VK_SUCCESS ∧
  env.render_submit.vkQueueSubmit = VK_SUCCESS ∧
  env.destImage.vkCreateImage = VK_SUCCESS ∧
  (findMemoryTypeIndex env.memoryProperties env.destImage.memoryTypeBits
    (VK_MEMORY_PROPERTY_HOST_VISIBLE_BIT ||| VK_MEMORY_PROPERTY_HOST_COHERENT_BIT)).1
      = VK_SUCCESS ∧
  env.destImage.vkAllocateMemory = VK_SUCCESS ∧
  env.destImage.vkBindImageMemory = VK_SUCCESS ∧
  env.copy_vkAllocateCommandBuffers = VK_SUCCESS ∧
  env.copy_vkBeginCommandBuffer = VK_SUCCESS ∧
  env.copy_vkEndCommandBuffer = VK_SUCCESS ∧
  env.copy_submit.vkCreateFence = VK_SUCCESS ∧
  env.copy_submit.vkQueueSubmit = VK_SUCCESS ∧
  env.vkMapMemory = VK_SUCCESS ∧
  env.mallocSucceeds = true

instance (env : Env) : Decidable env.checksPass := by
  unfold Env.checksPass; infer_instance

/-! ## The finitely many shapes of a run

The calls of a run depend on the environment only through the place where the
first check fails, the number of physical devices `findFirstGPU` looks at, and
the values of the results. `skeleton` forgets the last two; `exits` lists one
environment for each place where a run can leave the straight path. -/

def VK_ERROR_OUT_OF_HOST_MEMORY : VkResult := -1

/-- Entry points whose result the program never looks at. -/
def VkFn.resultDiscarded : VkFn → Bool
  | .vkEnumeratePhysicalDevices | .vkWaitForFences | .vkQueueWaitIdle => true
  | _ => false

/-- The call with its result reduced to what the program can tell of it:
success or failure, and nothing for a result it discards. -/
def Call.erase (c : Call) : Call :=
  { c with ret := if c.fn.resultDiscarded = true ∨ c.ret = VK_SUCCESS then VK_SUCCESS
                  else VK_ERROR_OUT_OF_HOST_MEMORY }

/-- The trace without the per-device property queries of `findFirstGPU`, each
call erased. -/
def skeleton (l : List Call) : List Call :=
  (l.filter (fun c => c.fn != .vkGetPhysicalDeviceProperties)).map Call.erase

/-- A function on calls that reads only what `Call.erase` keeps and gives
`dflt` on the per-device property queries: its value along a trace can be
read off the skeleton of the trace. -/
def Structural {α : Type} (g : Call → α) (dflt : α) : Prop :=
  (∀ c, g c.erase = g c) ∧ (∀ c, c.fn = .vkGetPhysicalDeviceProperties → g c = dflt)

/-- What a run shows of itself once results and device queries are forgotten. -/
def Run.shape (r : Run) : List Call × List Call × List Handle :=
  (skeleton r.calls, r.cleanup, r.v.handles)

/-- A discrete GPU with one graphics and compute queue family, one
device-local and one host-visible, host-coherent memory type. -/
def gpu0 : PhysicalDevice :=
  { deviceType := VK_PHYSICAL_DEVICE_TYPE_DISCRETE_GPU, queueFamilies := [3],
    memoryProperties := { memoryTypeCount := 2, memoryTypes := [⟨1, 0⟩, ⟨6, 0⟩] } }

/-- The same GPU without any queue family. -/
def gpuNoQueue : PhysicalDevice := { gpu0 with queueFamilies := [] }

/-- An environment in which every step of `renderImage` succeeds; the staging
image has rows of `layoutRowPitch = 16` bytes and byte `i` of the mapped memory
holds `i % 256`. -/
def envOk : Env :=
  { physicalDevices := [gpu0], image := { memoryTypeBits := 3 },
    destImage := { memoryTypeBits := 3 }, layoutRowPitch := 16,
    mapped := fun i => i % 256 }

/-- One environment for each place where `renderImage` can leave the straight
path, and `envOk` for the straight path itself. -/
def exits : List Env :=
  [ { envOk with vkCreateInstance := VK_ERROR_OUT_OF_HOST_MEMORY },
    { envOk with physicalDevices := [] },
    { envOk with physicalDevices := [gpuNoQueue] },
    { envOk with vkCreateDevice := VK_ERROR_OUT_OF_HOST_MEMORY },
    { envOk with vkCreateCommandPool := VK_ERROR_OUT_OF_HOST_MEMORY },
    { envOk with vkCreatePipelineCache := VK_ERROR_OUT_OF_HOST_MEMORY },
    { envOk with vertex_vkCreateShaderModule := VK_ERROR_OUT_OF_HOST_MEMORY },
    { envOk with fragment_vkCreateShaderModule := VK_ERROR_OUT_OF_HOST_MEMORY },
    { envOk with vkCreatePipelineLayout := VK_ERROR_OUT_OF_HOST_MEMORY },
    { envOk with vkCreateRenderPass := VK_ERROR_OUT_OF_HOST_MEMORY },
    { envOk with vkCreateGraphicsPipelines := VK_ERROR_OUT_OF_HOST_MEMORY },
    { envOk with image := { vkCreateImage := VK_ERROR_OUT_OF_HOST_MEMORY } },
    { envOk with image := { memoryTypeBits := 0 } },
    { envOk with image := { memoryTypeBits := 3,
                            vkAllocateMemory := VK_ERROR_OUT_OF_HOST_MEMORY } },
    { envOk with image := { memoryTypeBits := 3,
                            vkBindImageMemory := VK_ERROR_OUT_OF_HOST_MEMORY } },
    { envOk with vkCreateImageView := VK_ERROR_OUT_OF_HOST_MEMORY },
    { envOk with vkCreateFramebuffer := VK_ERROR_OUT_OF_HOST_MEMORY },
    { envOk with render_vkAllocateCommandBuffers := VK_ERROR_OUT_OF_HOST_MEMORY },
    { envOk with render_vkBeginCommandBuffer := VK_ERROR_OUT_OF_HOST_MEMORY },
    { envOk with render_vkEndCommandBuffer := VK_ERROR_OUT_OF_HOST_MEMORY },
    { envOk with render_submit := { vkCreateFence := VK_ERROR_OUT_OF_HOST_MEMORY } },
    { envOk with render_submit := { vkQueueSubmit := VK_ERROR_OUT_OF_HOST_MEMORY } },
    { envOk with destImage := { vkCreateImage := VK_ERROR_OUT_OF_HOST_MEMORY } },
    { envOk with destImage := { memoryTypeBits := 0 } },
    { envOk with destImage := { memoryTypeBits := 3,
                                vkAllocateMemory := VK_ERROR_OUT_OF_HOST_MEMORY } },
    { envOk with destImage := { memoryTypeBits := 3,
                                vkBindImageMemory := VK_ERROR_OUT_OF_HOST_MEMORY } },
    { envOk with copy_vkAllocateCommandBuffers := VK_ERROR_OUT_OF_HOST_MEMORY },
    { envOk with copy_vkBeginCommandBuffer := VK_ERROR_OUT_OF_HOST_MEMORY },
    { envOk with copy_vkEndCommandBuffer := VK_ERROR_OUT_OF_HOST_MEMORY },
    { envOk with copy_submit := { vkCreateFence := VK_ERROR_OUT_OF_HOST_MEMORY } },
    { envOk with copy_submit := { vkQueueSubmit := VK_ERROR_OUT_OF_HOST_MEMORY } },
    { envOk with vkMapMemory := VK_ERROR_OUT_OF_HOST_MEMORY },
    { envOk with mallocSucceeds := false },
    envOk ]

/-- The shapes of the runs in the environments of `exits`. -/
def shapes : List (List Call × List Call × List Handle) :=
  exits.map (fun e => (renderImage e 0 0).shape)

/-- An environment in which creating the render target image fails. -/
def envImageCreationFails : Env :=
  { envOk with image := { vkCreateImage := VK_ERROR_OUT_OF_HOST_MEMORY } }

/-- The environment `envOk` with a lost device reported by the `vkQueueWaitIdle`
that follows the copy. -/
def envWaitFails : Env := { envOk with copy_vkQueueWaitIdle := VK_ERROR_DEVICE_LOST }

/-- A table whose only memory type has exactly the host-visible property. -/
def hostVisibleOnly : VkPhysicalDeviceMemoryProperties :=
  { memoryTypeCount := 1, memoryTypes := [⟨VK_MEMORY_PROPERTY_HOST_VISIBLE_BIT, 0⟩] }

/-! ## Reading the results of the utilities -/

/-- The family has both the graphics and the compute capability. -/
def graphicsAndCompute (queueFlags : Nat) : Prop :=
  queueFlags &&& VK_QUEUE_GRAPHICS_BIT ≠ 0 ∧ queueFlags &&& VK_QUEUE_COMPUTE_BIT ≠ 0

instance (queueFlags : Nat) : Decidable (graphicsAndCompute queueFlags) := by
  unfold graphicsAndCompute; infer_instance

/-! ## `square.c`: `disposeImageContext`, `saveRGBATIFFFile`, `main` -/

def UINT64_MAX : Nat := 2 ^ 64 - 1

/-- The arguments of the `vkWaitForFences` call of `submitCommandBuffer` that
are not handles. -/
structure WaitArguments where
  fenceCount : Nat
  waitAll : Bool
  timeout : Nat
  deriving DecidableEq, Repr

/-- The wait of `submitCommandBuffer`: `vkWaitForFences(device, 1, &fence,
true, UINT64_MAX)`, made when the fence was created and the submission
succeeded, and not otherwise. -/
def submitCommandBuffer.wait (drv : SubmitDriver) : Option WaitArguments :=
  if VK_SUCCESS = drv.vkCreateFence then
    if VK_SUCCESS = drv.vkQueueSubmit then
      some { fenceCount := 1, waitAll := true, timeout := UINT64_MAX }
    else none
  else none

/-- The local `fence` of `submitCommandBuffer` when the function returns: it
starts as `nullptr`, `vkCreateFence` writes it, and when the fence was created
the function ends with `vkDestroyFence(device, fence, nullptr); fence =
nullptr;`. -/
def submitCommandBuffer.fence (device : Handle) (drv : SubmitDriver) (fenceRes : Res) :
    Handle :=
  let cFence := created .vkCreateFence [device] drv.vkCreateFence fenceRes
  let fence := cFence.out
  if VK_SUCCESS = drv.vkCreateFence then
    none
  else
    fence

/-- What one call of `disposeImageContext` does: the pointers it hands to
`free`, and the context as it leaves it. -/
structure Disposed where
  ctx : ImageContext
  freeCalls : List (Option (List Nat))
  deriving DecidableEq, Repr

/-- The buffers that a sequence of `free` calls releases: `free(nullptr)`
does nothing. -/
def released (freeCalls : List (Option (List Nat))) : List (List Nat) :=
  freeCalls.filterMap id

/-- `disposeImageContext(ctx)`: `free(ctx->data)`, then
`memset(ctx, 0, sizeof(*ctx))`. -/
def disposeImageContext (ctx : ImageContext) : Disposed :=
  { freeCalls := [ctx.data],
    ctx := { width := 0, height := 0, bytesPerRow := 0, colorPixelFormat := 0, data := none } }

/-! Constants of `tiff.h`. -/

def TIFFTAG_IMAGEWIDTH : Nat := 256
def TIFFTAG_IMAGELENGTH : Nat := 257
def TIFFTAG_BITSPERSAMPLE : Nat := 258
def TIFFTAG_PHOTOMETRIC : Nat := 262
def TIFFTAG_ORIENTATION : Nat := 274
def TIFFTAG_SAMPLESPERPIXEL : Nat := 277
def TIFFTAG_ROWSPERSTRIP : Nat := 278
def TIFFTAG_PLANARCONFIG : Nat := 284
def TIFFTAG_EXTRASAMPLES : Nat := 338
def ORIENTATION_TOPLEFT : Nat := 1
def PLANARCONFIG_CONTIG : Nat := 1
def PHOTOMETRIC_RGB : Nat := 2
def EXTRASAMPLE_ASSOCALPHA : Nat := 1

/-- One call of the TIFF library, with the arguments next to the file handle:
the values of a `TIFFSetField`, the requested size of `TIFFDefaultStripSize`
and of `_TIFFmalloc`, the bytes of the scanline buffer, the row and the sample
of a `TIFFWriteScanline`. -/
inductive TiffCall
  | TIFFOpen (filename mode : String)
  | TIFFSetField (tag : Nat) (values : List Nat)
  | TIFFDefaultStripSize (request : Nat)
  | TIFFScanlineSize
  | _TIFFmalloc (size : Nat)
  | TIFFWriteScanline (buf : List Nat) (row sample : Nat)
  | _TIFFfree
  | TIFFClose
  deriving DecidableEq, Repr

/-- What the TIFF library answers during one call of `saveRGBATIFFFile`:
whether `TIFFOpen` returns a file, the value of `TIFFDefaultStripSize`, the
value of `(size_t)TIFFScanlineSize(file)`, whether `_TIFFmalloc` returns a
buffer, the bytes that buffer holds when it is handed out, and the result of
`TIFFWriteScanline` for each row. -/
structure TiffDriver where
  TIFFOpen : Bool := true
  TIFFDefaultStripSize : Nat := 0
  TIFFScanlineSize : Nat := 0
  _TIFFmalloc : Bool := true
  uninitialised : Nat → Nat := fun _ => 0
  TIFFWriteScanline : Nat → Int := fun _ => 1

/-- The `for` loop of `saveRGBATIFFFile` from the state `(yy, row,
scanlineBuffer, writeResult)` on; `row` is the offset of the pointer `row` from
`imageData`. The first argument is the loop variant `height - yy`. -/
def saveRGBATIFFFile.loop (tiff : TiffDriver) (imageData : Nat → Nat)
    (bytesPerRow scanlineSize rowCopySize : Nat) :
    Nat → Nat → Nat → (Nat → Nat) → Int → List TiffCall → Int × List TiffCall
  | 0, _, _, _, writeResult, calls => (writeResult, calls)
  | n + 1, yy, row, scanlineBuffer, _, calls =>
      -- memcpy(scanlineBuffer, row, rowCopySize)
      let scanlineBuffer := fun j =>
        if j < rowCopySize then imageData (row + j) else scanlineBuffer j
      let writeResult := tiff.TIFFWriteScanline yy
      let calls := calls ++
        [.TIFFWriteScanline ((List.range scanlineSize).map scanlineBuffer) yy 0]
      if writeResult < 0 then (writeResult, calls)
      else
        saveRGBATIFFFile.loop tiff imageData bytesPerRow scanlineSize rowCopySize
          n (yy + 1) (row + bytesPerRow) scanlineBuffer writeResult calls

/-- Result of `saveRGBATIFFFile`: the returned flag and the calls of the TIFF
library. -/
structure Saved where
  result : Bool
  calls : List TiffCall
  deriving DecidableEq, Repr

/-- `saveRGBATIFFFile(filename, imageData, width, height, bytesPerRow)`;
`imageData i` is the byte at `imageData + i`. -/
def saveRGBATIFFFile (tiff : TiffDriver) (filename : String) (imageData : Nat → Nat)
    (width height bytesPerRow : Nat) : Saved :=
  let calls := [TiffCall.TIFFOpen filename "w"]
  if tiff.TIFFOpen = false then { result := false, calls := calls } else
  --  - image properties
  let calls := calls ++
    [ .TIFFSetField TIFFTAG_IMAGEWIDTH [width],
      .TIFFSetField TIFFTAG_IMAGELENGTH [height],
      .TIFFSetField TIFFTAG_SAMPLESPERPIXEL [4],
      .TIFFSetField TIFFTAG_BITSPERSAMPLE [8],
      .TIFFSetField TIFFTAG_ORIENTATION [ORIENTATION_TOPLEFT],
      .TIFFSetField TIFFTAG_PLANARCONFIG [PLANARCONFIG_CONTIG],
      .TIFFSetField TIFFTAG_PHOTOMETRIC [PHOTOMETRIC_RGB],
      .TIFFSetField TIFFTAG_EXTRASAMPLES [1, EXTRASAMPLE_ASSOCALPHA],
      .TIFFDefaultStripSize ((4 * width) % 2 ^ 32),
      .TIFFSetField TIFFTAG_ROWSPERSTRIP [tiff.TIFFDefaultStripSize] ]
  --  - scan line buffer
  let calls := calls ++ [.TIFFScanlineSize]
  let preferredScanlineSize := tiff.TIFFScanlineSize
  let scanlineSize := if 0 < preferredScanlineSize then preferredScanlineSize else bytesPerRow
  let calls := calls ++ [._TIFFmalloc scanlineSize]
  if tiff._TIFFmalloc = true then
    --  - write each scanline
    let rowCopySize := if scanlineSize < bytesPerRow then scanlineSize else bytesPerRow
    let written := saveRGBATIFFFile.loop tiff imageData bytesPerRow scanlineSize rowCopySize
      height 0 0 tiff.uninitialised (-1) calls
    --  - cleanup buffer, result, cleanup file
    { result := decide (0 ≤ written.1), calls := written.2 ++ [._TIFFfree, .TIFFClose] }
  else
    --  - cleanup file
    { result := false, calls := calls ++ [.TIFFClose] }

def EXIT_SUCCESS : Int := 0
def EXIT_FAILURE : Int := 1

/-- What `main` does, step by step: the functions of the program it calls and
the lines it prints. -/
inductive MainEvent
  | renderImage (width height : Nat)
  | puts (s : String)
  | saveRGBATIFFFile (filename : String) (width height bytesPerRow : Nat)
  | disposeImageContext
  deriving DecidableEq, Repr

/-- The outcome of one run of `main`: the exit code, its steps in order, the
GPU calls of `renderImage`, the calls of the TIFF library, and the pointers
handed to `free`. -/
structure MainRun where
  exitCode : Int
  events : List MainEvent
  gpu : List Call
  tiff : List TiffCall
  freeCalls : List (Option (List Nat))
  deriving DecidableEq, Repr

/-- The lines a run of `main` prints. -/
def MainRun.stdout (r : MainRun) : List String :=
  r.events.filterMap (fun e => match e with | .puts s => some s | _ => none)

/-- `main`, in the environment `env` of the GPU and `tiff` of the TIFF library. -/
def main (env : Env) (tiff : TiffDriver) : MainRun :=
  -- * Render image
  let rendered := renderImage env 1080 1080
  let imageContext := rendered.imageContext
  let events := [MainEvent.renderImage 1080 1080]
  match imageContext.data with
  | none =>
      { exitCode := EXIT_FAILURE, events := events ++ [.puts "Failed to render image"],
        gpu := rendered.trace, tiff := [], freeCalls := [] }
  | some data =>
      -- * Save image file
      let saved := saveRGBATIFFFile tiff "output.tiff" (fun i => data.getD i 0)
        imageContext.width imageContext.height imageContext.bytesPerRow
      let events := events ++
        [.saveRGBATIFFFile "output.tiff" imageContext.width imageContext.height
          imageContext.bytesPerRow]
      -- * Cleanup
      let disposed := disposeImageContext imageContext
      let events := events ++ [.disposeImageContext]
      -- * Error reporting
      if saved.result = false then
        { exitCode := EXIT_FAILURE, events := events ++ [.puts "Failed to save image file"],
          gpu := rendered.trace, tiff := saved.calls, freeCalls := disposed.freeCalls }
      else
        { exitCode := EXIT_SUCCESS, events := events,
          gpu := rendered.trace, tiff := saved.calls, freeCalls := disposed.freeCalls }

/-- The scanline buffer as `saveRGBATIFFFile` hands it to `TIFFWriteScanline`
for row `yy`: `rowCopySize` bytes of the image from offset `yy * bytesPerRow`
on, then what `_TIFFmalloc` left in the buffer. -/
def scanlineAt (tiff : TiffDriver) (imageData : Nat → Nat)
    (bytesPerRow scanlineSize rowCopySize yy : Nat) : List Nat :=
  (List.range scanlineSize).map (fun j =>
    if j < rowCopySize then imageData (yy * bytesPerRow + j) else tiff.uninitialised j)

/-- The scanlines a sequence of TIFF calls writes: the row and the bytes of
each `TIFFWriteScanline`. -/
def scanlines (calls : List TiffCall) : List (Nat × List Nat) :=
  calls.filterMap (fun c => match c with
    | .TIFFWriteScanline buf row _ => some (row, buf)
    | _ => none)

/-! ## Reading the order of the calls -/

/-- The cuts of the list `pre ++ l` at an element of `l`. -/
def splitsFrom {α : Type} (pre : List α) : List α → List (List α × α × List α)
  | [] => []
  | c :: l => (pre, c, l) :: splitsFrom (pre ++ [c]) l

/-- Every way to cut a list at one of its elements: what comes before the
element, the element, and what comes after it. -/
def splits {α : Type} (l : List α) : List (List α × α × List α) := splitsFrom [] l

/-- Entry points that allocate, record, submit or free a command buffer. -/
def VkFn.onCommandBuffer : VkFn → Bool
  | .vkAllocateCommandBuffers | .vkBeginCommandBuffer | .vkCmdBeginRenderPass
  | .vkCmdBindPipeline | .vkCmdDraw | .vkCmdEndRenderPass | .vkCmdPipelineBarrier
  | .vkCmdCopyImage | .vkEndCommandBuffer | .vkQueueSubmit | .vkFreeCommandBuffers => true
  | _ => false

/-- The call is an event of the command buffer `b`: its allocation, which
hands `b` back, or a begin, a recorded command, an end, a submission or a free
that is handed `b`. -/
def Call.isEventOf (c : Call) (b : Res) : Bool :=
  c.fn.onCommandBuffer && (c.args.contains (some b) || c.out == some b)

/-- A `vkQueueSubmit` of the render command buffer that returned `VK_SUCCESS`. -/
def Call.isRenderSubmitted (c : Call) : Bool :=
  c.fn == .vkQueueSubmit && c.args.contains (some .renderCommandBuffer) && c.ret == VK_SUCCESS

/-- The `vkWaitForFences` on the fence of the render submission. -/
def Call.isRenderWaited (c : Call) : Bool :=
  c.fn == .vkWaitForFences && c.args.contains (some .renderFence)

/-- A begin, an end or a queue submission of the render command buffer that
did not return `VK_SUCCESS`. -/
def Call.isRenderFailure (c : Call) : Bool :=
  c.isEventOf .renderCommandBuffer &&
  (c.fn == .vkBeginCommandBuffer || c.fn == .vkEndCommandBuffer || c.fn == .vkQueueSubmit) &&
  c.ret != VK_SUCCESS

/-- The call creates the staging image or its memory, or is an event of the
copy command buffer. -/
def Call.startsCopy (c : Call) : Bool :=
  c.creates .destImage || c.creates .destImageMemory || c.isEventOf .copyCommandBuffer

/-- The calls `l` start with the calls `G`, and none of the calls after them is
a `vkGetPhysicalDeviceProperties`. -/
def QueriesWithin (G l : List Call) : Prop :=
  ∃ rest, l = G ++ rest ∧ ∀ c ∈ rest, c.fn ≠ .vkGetPhysicalDeviceProperties

/-- A `vkCreatePipelineLayout`, `vkCreateRenderPass` or
`vkCreateGraphicsPipelines` that did not return `VK_SUCCESS`. -/
def Call.isPipelineStepFailure (c : Call) : Bool :=
  (c.fn == .vkCreatePipelineLayout || c.fn == .vkCreateRenderPass ||
    c.fn == .vkCreateGraphicsPipelines) && c.ret != VK_SUCCESS

/-- A `vkCreateShaderModule` that did not return `VK_SUCCESS`. -/
def Call.isShaderModuleFailure (c : Call) : Bool :=
  c.fn == .vkCreateShaderModule && c.ret != VK_SUCCESS

/-- The `vkDestroyShaderModule` calls among the calls `l`, in order. -/
def shaderModuleDestroys (l : List Call) : List Call :=
  l.filter (fun c => c.fn == .vkDestroyShaderModule)

/-- What the case analysis of `renderImage` establishes about the run `r` in
the environment `env`: it has one of the shapes of `shapes`; it returns the
copied image when every check passes and the zero-initialised `ImageContext`
otherwise; and, when the instance is created, the calls of `findFirstGPU` hold
every `vkGetPhysicalDeviceProperties` of the run. -/
def RunFacts (env : Env) (w h : Nat) (r : Run) : Prop :=
  r.shape ∈ shapes ∧
  ((env.checksPass ∧ r.imageContext =
      { data := some ((List.range ((h * env.layoutRowPitch) % 2 ^ 64)).map
                  (fun i => env.mapped (env.layoutOffset + i))),
        width := w, height := h, colorPixelFormat := VK_FORMAT_R8G8B8A8_UNORM,
        bytesPerRow := env.layoutRowPitch }) ∨
    (¬ env.checksPass ∧ r.imageContext = {})) ∧
  (env.vkCreateInstance = VK_SUCCESS →
    QueriesWithin
      ([created .vkCreateInstance [] VK_SUCCESS .inst] ++
        (findFirstGPU (some .inst) env.physicalDevices).calls)
      r.calls)

/-- What a call does to the life of an object: `(true, r)` when it creates
`r`, `(false, r)` when it releases `r`. -/
def Call.lifeEvent (c : Call) : Option (Bool × Res) :=
  if c.fn.isCreate then c.out.map (fun r => (true, r))
  else if c.fn.isDestroy then c.args.getLast?.join.map (fun r => (false, r))
  else none

/-- The creations and releases of a trace, in order. -/
def lifeEvents (t : List Call) : List (Bool × Res) := t.filterMap Call.lifeEvent

/-- The life of the object `r` among creations and releases: `lifeline r t`
read off `lifeEvents t`. -/
def lifeOf (r : Res) (l : List (Bool × Res)) : List Bool :=
  l.filterMap (fun e => if e.2 = r then some e.1 else none)

/-- The creations and releases of the two command buffers in a trace, in
order. -/
def commandBufferEvents (t : List Call) : List (Bool × Res) :=
  (lifeEvents t).filter (fun e => e.2 = .renderCommandBuffer ∨ e.2 = .copyCommandBuffer)

/-- Entry points that record a command into a command buffer. -/
def VkFn.isRecorded : VkFn → Bool
  | .vkCmdBeginRenderPass | .vkCmdBindPipeline | .vkCmdDraw | .vkCmdEndRenderPass
  | .vkCmdPipelineBarrier | .vkCmdCopyImage => true
  | _ => false

/-- What a call can be in the life of a command buffer: its allocation, the
begin and the end of its recording (with whether they succeeded), a recorded
command, a `vkCreateFence` that failed, its submission (with whether it
succeeded), the wait on the fence of its submission, its free. -/
inductive CbEvent
  | allocate
  | beginRecording (ok : Bool)
  | record
  | endRecording (ok : Bool)
  | fenceFailed
  | submit (ok : Bool)
  | wait
  | free
  deriving DecidableEq, Repr

/-- What the call `c` is in the life of the command buffer `b`, whose
submission uses the fence `fence`. -/
def Call.cbEvent (b fence : Res) (c : Call) : Option CbEvent :=
  if c.fn == .vkAllocateCommandBuffers && c.out == some b then some .allocate
  else if c.fn == .vkBeginCommandBuffer && c.args.contains (some b) then
    some (.beginRecording (c.ret == VK_SUCCESS))
  else if c.fn.isRecorded && c.args.contains (some b) then some .record
  else if c.fn == .vkEndCommandBuffer && c.args.contains (some b) then
    some (.endRecording (c.ret == VK_SUCCESS))
  else if c.fn == .vkCreateFence && !(c.ret == VK_SUCCESS) then some .fenceFailed
  else if c.fn == .vkQueueSubmit && c.args.contains (some b) then
    some (.submit (c.ret == VK_SUCCESS))
  else if c.fn == .vkWaitForFences && c.args.contains (some fence) then some .wait
  else if c.fn == .vkFreeCommandBuffers && c.args.contains (some b) then some .free
  else none

/-- The states of a command buffer. -/
inductive CbState
  | initial | allocated | recording | executable | pending | complete | failed | freed
  deriving DecidableEq, Repr

/-- The state machine allocate → begin → record → end → submit and wait →
free. A failure at begin, at end or at the submission (the fence cannot be
created, or `vkQueueSubmit` fails) leads to `failed`, from which only the free
is possible. A failed `vkCreateFence` met in any other state belongs to the
other submission and changes nothing. Nothing is possible after the free. -/
def CbState.step : CbState → CbEvent → Option CbState
  | .initial, .allocate => some .allocated
  | .allocated, .beginRecording true => some .recording
  | .allocated, .beginRecording false => some .failed
  | .recording, .record => some .recording
  | .recording, .endRecording true => some .executable
  | .recording, .endRecording false => some .failed
  | .executable, .fenceFailed => some .failed
  | .executable, .submit true => some .pending
  | .executable, .submit false => some .failed
  | .pending, .wait => some .complete
  | .complete, .free => some .freed
  | .failed, .free => some .freed
  | s, .fenceFailed => some s
  | _, _ => none

/-- The state the machine reaches from `s` along the events `l`, if every
event is possible where it comes. -/
def CbState.run : CbState → List CbEvent → Option CbState
  | s, [] => some s
  | s, e :: l => (s.step e).bind (fun s' => CbState.run s' l)

/-- The events of the command buffer `b` in the trace `t`, in order. -/
def cbEvents (b fence : Res) (t : List Call) : List CbEvent :=
  t.filterMap (Call.cbEvent b fence)

/-! ## `findMemoryTypeIndex` next to a scan from index 0 -/

/-- The loop of `naiveFindMemoryTypeIndex` from the index `index` on; the first
argument is the loop variant `memoryTypeCount - index`. -/
def naiveFindMemoryTypeIndex.loop (pMemoryProperties : VkPhysicalDeviceMemoryProperties)
    (memoryTypeIndexBits requestedProperties : Nat) : Nat → Nat → VkResult × Nat
  | 0, _ => (VK_ERROR_FEATURE_NOT_PRESENT, 0)
  | n + 1, index =>
      if IS_FLAG_SET memoryTypeIndexBits ((1 <<< index) % 2 ^ 32) &&
         hasMemoryProperties pMemoryProperties index requestedProperties then
        (VK_SUCCESS, index)
      else
        naiveFindMemoryTypeIndex.loop pMemoryProperties memoryTypeIndexBits requestedProperties
          n (index + 1)

/-- The naive scan the specification compares `findMemoryTypeIndex` with: it
tests every index from 0 up to `memoryTypeCount - 1`, each with the probe bit
`1 << index`, returns the first index whose bit is set in the mask and whose
memory type has the requested properties, and reports
`VK_ERROR_FEATURE_NOT_PRESENT` with index 0 when there is none. -/
def naiveFindMemoryTypeIndex (pMemoryProperties : VkPhysicalDeviceMemoryProperties)
    (memoryTypeIndexBits requestedProperties : Nat) : VkResult × Nat :=
  naiveFindMemoryTypeIndex.loop pMemoryProperties memoryTypeIndexBits requestedProperties
    pMemoryProperties.memoryTypeCount 0

/-- The indices of the memory types that the `for` loop of `findMemoryTypeIndex`
reads from the state `(index, indexBit)` on, in order: the condition
`IS_FLAG_SET(...) && hasMemoryProperties(...)` evaluates `hasMemoryProperties`,
which reads `memoryTypes[index]`, only when the probe bit is set in the mask. -/
def findMemoryTypeIndex.examinedFrom (pMemoryProperties : VkPhysicalDeviceMemoryProperties)
    (memoryTypeIndexBits requestedProperties : Nat) : Nat → Nat → Nat → List Nat
  | 0, _, _ => []
  | n + 1, index, indexBit =>
      if IS_FLAG_SET memoryTypeIndexBits indexBit then
        if hasMemoryProperties pMemoryProperties index requestedProperties then [index]
        else
          index :: findMemoryTypeIndex.examinedFrom pMemoryProperties memoryTypeIndexBits
            requestedProperties n (index + 1) ((indexBit <<< 1) % 2 ^ 32)
      else
        findMemoryTypeIndex.examinedFrom pMemoryProperties memoryTypeIndexBits
          requestedProperties n (index + 1) ((indexBit <<< 1) % 2 ^ 32)

/-- The indices of the memory types one call of `findMemoryTypeIndex` reads. -/
def findMemoryTypeIndex.examined (pMemoryProperties : VkPhysicalDeviceMemoryProperties)
    (memoryTypeIndexBits requestedProperties : Nat) : List Nat :=
  let index := stdc_trailing_zeros memoryTypeIndexBits
  findMemoryTypeIndex.examinedFrom pMemoryProperties memoryTypeIndexBits requestedProperties
    (pMemoryProperties.memoryTypeCount - index) index ((1 <<< index) % 2 ^ 32)

/-! ## The bytes `saveRGBATIFFFile` reads -/

/-- One `memcpy(scanlineBuffer, row, rowCopySize)` of `saveRGBATIFFFile`: the
offset of the pointer `row` from `imageData`, the number of bytes copied, and
the size the scanline buffer was allocated with. The call reads the bytes
`imageData[offset], ..., imageData[offset + size - 1]` and writes the first
`size` bytes of the scanline buffer. -/
structure RowCopy where
  offset : Nat
  size : Nat
  capacity : Nat
  deriving DecidableEq, Repr

/-- The `memcpy` calls of the `for` loop of `saveRGBATIFFFile` from the state
`(yy, row)` on, in order; the first argument is the loop variant
`height - yy`. -/
def saveRGBATIFFFile.copiesFrom (tiff : TiffDriver)
    (bytesPerRow scanlineSize rowCopySize : Nat) : Nat → Nat → Nat → List RowCopy
  | 0, _, _ => []
  | n + 1, yy, row =>
      { offset := row, size := rowCopySize, capacity := scanlineSize } ::
        (if tiff.TIFFWriteScanline yy < 0 then []
         else
           saveRGBATIFFFile.copiesFrom tiff bytesPerRow scanlineSize rowCopySize
             n (yy + 1) (row + bytesPerRow))

/-- The `memcpy` calls of one call of `saveRGBATIFFFile`, in order: none when
the file does not open or the scanline buffer is not allocated. -/
def saveRGBATIFFFile.copies (tiff : TiffDriver) (height bytesPerRow : Nat) : List RowCopy :=
  if tiff.TIFFOpen = false then [] else
  let preferredScanlineSize := tiff.TIFFScanlineSize
  let scanlineSize := if 0 < preferredScanlineSize then preferredScanlineSize else bytesPerRow
  if tiff._TIFFmalloc = true then
    let rowCopySize := if scanlineSize < bytesPerRow then scanlineSize else bytesPerRow
    saveRGBATIFFFile.copiesFrom tiff bytesPerRow scanlineSize rowCopySize height 0 0
  else []

/-- The calls of `saveRGBATIFFFile` up to the allocation of the scanline
buffer, when the file opens; `scanlineSize` is the size handed to
`_TIFFmalloc`. -/
def saveRGBATIFFFile.opening (tiff : TiffDriver) (filename : String)
    (width height scanlineSize : Nat) : List TiffCall :=
  [ .TIFFOpen filename "w",
    .TIFFSetField TIFFTAG_IMAGEWIDTH [width],
    .TIFFSetField TIFFTAG_IMAGELENGTH [height],
    .TIFFSetField TIFFTAG_SAMPLESPERPIXEL [4],
    .TIFFSetField TIFFTAG_BITSPERSAMPLE [8],
    .TIFFSetField TIFFTAG_ORIENTATION [ORIENTATION_TOPLEFT],
    .TIFFSetField TIFFTAG_PLANARCONFIG [PLANARCONFIG_CONTIG],
    .TIFFSetField TIFFTAG_PHOTOMETRIC [PHOTOMETRIC_RGB],
    .TIFFSetField TIFFTAG_EXTRASAMPLES [1, EXTRASAMPLE_ASSOCALPHA],
    .TIFFDefaultStripSize ((4 * width) % 2 ^ 32),
    .TIFFSetField TIFFTAG_ROWSPERSTRIP [tiff.TIFFDefaultStripSize],
    .TIFFScanlineSize,
    ._TIFFmalloc scanlineSize ]

/-- The size `saveRGBATIFFFile` allocates the scanline buffer with: the
scanline size the library reports when it is positive, `bytesPerRow`
otherwise. -/
def saveRGBATIFFFile.scanlineSize (tiff : TiffDriver) (bytesPerRow : Nat) : Nat :=
  if 0 < tiff.TIFFScanlineSize then tiff.TIFFScanlineSize else bytesPerRow

/-! ## The info structures of `renderImage`

`renderImage` describes its pipeline state, its images, its framebuffer and the
commands it records in structures that it hands to the driver. Of each
structure the model keeps the fields that hold a size, an offset, an image
layout or a handle; `width` and `height` are the two parameters of
`renderImage`. -/

def VK_IMAGE_LAYOUT_UNDEFINED : Nat := 0
def VK_IMAGE_LAYOUT_GENERAL : Nat := 1
def VK_IMAGE_LAYOUT_COLOR_ATTACHMENT_OPTIMAL : Nat := 2
def VK_IMAGE_LAYOUT_TRANSFER_SRC_OPTIMAL : Nat := 6
def VK_IMAGE_LAYOUT_TRANSFER_DST_OPTIMAL : Nat := 7

/-- The number of low bits of `n` that a `float` cannot keep: a `float`
(binary32) has 24 significant bits. `fuel` bounds the count; 8 is enough for
every `uint32_t`. -/
def floatOfUInt32.excess : Nat → Nat → Nat
  | 0, _ => 0
  | fuel + 1, n => if n < 2 ^ 24 then 0 else 1 + floatOfUInt32.excess fuel (n / 2)

/-- The conversion `(float)n` of a `uint32_t`, as the number the `float` holds:
`n` rounded to 24 significant bits, to the nearest such number, a tie going to
the one whose last kept bit is 0 (the rounding of IEEE 754 in its default
mode). The result is a whole number. -/
def floatOfUInt32 (n : Nat) : Nat :=
  let e := floatOfUInt32.excess 8 n
  let q := n / 2 ^ e
  let r := n % 2 ^ e
  if 2 ^ e < 2 * r ∨ (2 * r = 2 ^ e ∧ q % 2 = 1) then (q + 1) * 2 ^ e else q * 2 ^ e

/-- `VkOffset3D`. -/
structure VkOffset3D where
  x : Int
  y : Int
  z : Int
  deriving DecidableEq, Repr

/-- `VkExtent3D`. -/
structure VkExtent3D where
  width : Nat
  height : Nat
  depth : Nat
  deriving DecidableEq, Repr

/-- `VkAttachmentDescription`: the format and the two layouts. -/
structure VkAttachmentDescription where
  format : Nat
  initialLayout : Nat
  finalLayout : Nat
  deriving DecidableEq, Repr

/-- `VkAttachmentReference`. -/
structure VkAttachmentReference where
  attachment : Nat
  layout : Nat
  deriving DecidableEq, Repr

/-- `VkImageCreateInfo`: the format, the extent and the initial layout. -/
structure VkImageCreateInfo where
  format : Nat
  extent : VkExtent3D
  mipLevels : Nat
  arrayLayers : Nat
  initialLayout : Nat
  deriving DecidableEq, Repr

/-- `VkImageMemoryBarrier`: the two layouts and the image. -/
structure VkImageMemoryBarrier where
  oldLayout : Nat
  newLayout : Nat
  image : Handle
  deriving DecidableEq, Repr

/-- `VkImageCopy`: the two offsets and the extent. -/
structure VkImageCopy where
  srcOffset : VkOffset3D
  dstOffset : VkOffset3D
  extent : VkExtent3D
  deriving DecidableEq, Repr

/-- The arguments of `vkCmdCopyImage` next to the command buffer. -/
structure CopyImageArguments where
  srcImage : Handle
  srcImageLayout : Nat
  dstImage : Handle
  dstImageLayout : Nat
  pRegions : List VkImageCopy
  deriving DecidableEq, Repr

/-- The local `colorAttachment` of `renderImage`. -/
def renderImage.colorAttachment : VkAttachmentDescription :=
  { format := VK_FORMAT_R8G8B8A8_UNORM,
    initialLayout := VK_IMAGE_LAYOUT_UNDEFINED,
    finalLayout := VK_IMAGE_LAYOUT_TRANSFER_SRC_OPTIMAL }

/-- The local `colorAttachmentRef` of `renderImage`. -/
def renderImage.colorAttachmentRef : VkAttachmentReference :=
  { attachment := 0,
    layout := VK_IMAGE_LAYOUT_COLOR_ATTACHMENT_OPTIMAL }

/-- The local `imageInfo` of `renderImage`. -/
def renderImage.imageInfo (width height : Nat) : VkImageCreateInfo :=
  { format := renderImage.colorAttachment.format,
    extent := { width := width, height := height, depth := 1 },
    mipLevels := 1,
    arrayLayers := 1,
    initialLayout := VK_IMAGE_LAYOUT_UNDEFINED }

/-- The local `destImageInfo` of `renderImage`. -/
def renderImage.destImageInfo (width height : Nat) : VkImageCreateInfo :=
  { format := VK_FORMAT_R8G8B8A8_UNORM,
    extent := { width := width, height := height, depth := 1 },
    mipLevels := 1,
    arrayLayers := 1,
    initialLayout := VK_IMAGE_LAYOUT_UNDEFINED }

/-- The local `destLayoutBarrier` of `renderImage`. -/
def renderImage.destLayoutBarrier (destImage : Handle) : VkImageMemoryBarrier :=
  { oldLayout := VK_IMAGE_LAYOUT_UNDEFINED,
    newLayout := VK_IMAGE_LAYOUT_TRANSFER_DST_OPTIMAL,
    image := destImage }

/-- The local `imageCopy` of `renderImage`. -/
def renderImage.imageCopy (width height : Nat) : VkImageCopy :=
  { srcOffset := { x := 0, y := 0, z := 0 },
    dstOffset := { x := 0, y := 0, z := 0 },
    extent := { width := width, height := height, depth := 1 } }

/-- The arguments of the `vkCmdCopyImage` of `renderImage`. -/
def renderImage.copyImage (width height : Nat) (image destImage : Handle) :
    CopyImageArguments :=
  { srcImage := image,
    srcImageLayout := VK_IMAGE_LAYOUT_TRANSFER_SRC_OPTIMAL,
    dstImage := destImage,
    dstImageLayout := VK_IMAGE_LAYOUT_TRANSFER_DST_OPTIMAL,
    pRegions := [renderImage.imageCopy width height] }

/-- The local `generalLayoutBarrier` of `renderImage`. -/
def renderImage.generalLayoutBarrier (destImage : Handle) : VkImageMemoryBarrier :=
  { oldLayout := VK_IMAGE_LAYOUT_TRANSFER_DST_OPTIMAL,
    newLayout := VK_IMAGE_LAYOUT_GENERAL,
    image := destImage }

/-! ## The sizes that the calls are handed

Six calls of `renderImage` are handed a structure that holds a size. The trace
keeps of a call its entry point and its handles; which structure the call is
handed is read off the source at the place of the call. The two calls of
`vkCreateImage` are told apart by their order: the first one creates the
render target, the second one the staging image. -/

/-- What a call does to the layout of an image, with the layouts the program
declares at that call: the creation of an image in its initial layout; the
begin of the render pass, which takes the attachment from the initial layout
of the attachment description to the layout of the attachment reference; the
end of the render pass, which leaves it in the final layout; a pipeline
barrier with its old and its new layout; the image copy with the layouts it
names for its source and its destination; the host reading the mapped memory
of an image. -/
inductive LayoutOp
  | createImage (image : Handle) (initialLayout : Nat)
  | beginRenderPass (image : Handle) (initialLayout layout : Nat)
  | endRenderPass (image : Handle) (layout finalLayout : Nat)
  | barrier (image : Handle) (oldLayout newLayout : Nat)
  | copy (srcImage : Handle) (srcImageLayout : Nat) (dstImage : Handle) (dstImageLayout : Nat)
  | hostRead (image : Handle)
  deriving DecidableEq, Repr

/-- The layout operations of the calls `t` of `renderImage`, in order, each
with the layouts of the structure that the program hands to the call. The
framebuffer of the render pass has one attachment, the view of `image`. The
calls of the two `vkCmdPipelineBarrier` statements differ only in the barrier
they are handed: the first one recorded is handed `destLayoutBarrier`, the
second `generalLayoutBarrier`; the first argument counts the barriers recorded
so far. The memory that `vkMapMemory` maps is the memory of `destImage`. -/
def layoutOpsFrom (width height : Nat) : Nat → List Call → List LayoutOp
  | _, [] => []
  | barriers, c :: t =>
      match c.fn with
      | .vkCreateImage =>
          if c.out = some .image then
            .createImage c.out (renderImage.imageInfo width height).initialLayout ::
              layoutOpsFrom width height barriers t
          else if c.out = some .destImage then
            .createImage c.out (renderImage.destImageInfo width height).initialLayout ::
              layoutOpsFrom width height barriers t
          else layoutOpsFrom width height barriers t
      | .vkCmdBeginRenderPass =>
          .beginRenderPass (some .image) renderImage.colorAttachment.initialLayout
              renderImage.colorAttachmentRef.layout ::
            layoutOpsFrom width height barriers t
      | .vkCmdEndRenderPass =>
          .endRenderPass (some .image) renderImage.colorAttachmentRef.layout
              renderImage.colorAttachment.finalLayout ::
            layoutOpsFrom width height barriers t
      | .vkCmdPipelineBarrier =>
          let barrier :=
            if barriers = 0 then renderImage.destLayoutBarrier (c.args.getD 1 none)
            else renderImage.generalLayoutBarrier (c.args.getD 1 none)
          .barrier barrier.image barrier.oldLayout barrier.newLayout ::
            layoutOpsFrom width height (barriers + 1) t
      | .vkCmdCopyImage =>
          let copy := renderImage.copyImage width height (c.args.getD 1 none) (c.args.getD 2 none)
          .copy copy.srcImage copy.srcImageLayout copy.dstImage copy.dstImageLayout ::
            layoutOpsFrom width height barriers t
      | .vkMapMemory =>
          if c.ret = VK_SUCCESS then
            .hostRead (some .destImage) :: layoutOpsFrom width height barriers t
          else layoutOpsFrom width height barriers t
      | _ => layoutOpsFrom width height barriers t

/-- The layout operations of a trace of `renderImage`. -/
def layoutOps (width height : Nat) (t : List Call) : List LayoutOp :=
  layoutOpsFrom width height 0 t

/-- The tracked layout of the render target and of the staging image; `none`
for an image that is not created yet. -/
structure Layouts where
  image : Option Nat := none
  destImage : Option Nat := none
  deriving DecidableEq, Repr

/-- The tracked layout of the image behind a handle. -/
def Layouts.get (s : Layouts) : Handle → Option Nat
  | some .image => s.image
  | some .destImage => s.destImage
  | _ => none

/-- The tracked layouts with the image behind the handle in the layout `l`. -/
def Layouts.set (s : Layouts) (image : Handle) (l : Nat) : Layouts :=
  match image with
  | some .image => { s with image := some l }
  | some .destImage => { s with destImage := some l }
  | _ => s

/-- The layouts that the operation declares for the images as it finds them
are the tracked ones: an image is created once; a render pass and a barrier
find the image in the layout they start from; a copy finds both images in the
layouts it names; the host reads an image in the general layout. -/
def LayoutOp.agrees (s : Layouts) : LayoutOp → Bool
  | .createImage image _ => s.get image == none
  | .beginRenderPass image initialLayout _ => s.get image == some initialLayout
  | .endRenderPass image layout _ => s.get image == some layout
  | .barrier image oldLayout _ => s.get image == some oldLayout
  | .copy srcImage srcImageLayout dstImage dstImageLayout =>
      s.get srcImage == some srcImageLayout && s.get dstImage == some dstImageLayout
  | .hostRead image => s.get image == some VK_IMAGE_LAYOUT_GENERAL

/-- The tracked layouts after the operation. -/
def LayoutOp.apply (s : Layouts) : LayoutOp → Layouts
  | .createImage image initialLayout => s.set image initialLayout
  | .beginRenderPass image _ layout => s.set image layout
  | .endRenderPass image _ finalLayout => s.set image finalLayout
  | .barrier image _ newLayout => s.set image newLayout
  | .copy _ _ _ _ => s
  | .hostRead _ => s

/-- Tracking the layouts along the operations `l` from the layouts `s`:
the layouts at the end, or `none` when an operation declares a layout that is
not the tracked one. -/
def Layouts.run : Layouts → List LayoutOp → Option Layouts
  | s, [] => some s
  | s, op :: l => if op.agrees s then Layouts.run (op.apply s) l else none

/-! ## Reading what a call is handed -/

/-- The object a destroy or free call releases; `none` for any other call and
for a release of the null handle. -/
def Call.released (c : Call) : Option Res :=
  if c.fn.isDestroy then c.args.getLast?.join else none

/-- The call is handed the handle of the object `r`. -/
def Call.uses (c : Call) (r : Res) : Bool := c.args.contains (some r)

/-- The call creates the object `r` from the object `parent`: it is handed the
handle of `parent` and hands back the handle of `r`. -/
def Call.createsFrom (c : Call) (parent r : Res) : Bool := c.creates r && c.uses parent

/-- The handles that the calls naming an image or its view are handed, as the
source writes them: the view is made of `image`, the framebuffer of the render
pass and that view, the render pass begins on that framebuffer in the render
command buffer, and the copy goes from `image` to `destImage` in the copy
command buffer. Any other call passes. -/
def Call.handlesAsWritten (c : Call) : Bool :=
  match c.fn with
  | .vkCreateImageView => c.args == [some .device, some .image]
  | .vkCreateFramebuffer => c.args == [some .device, some .renderPass, some .imageView]
  | .vkCmdBeginRenderPass =>
      c.args == [some .renderCommandBuffer, some .renderPass, some .framebuffer]
  | .vkCmdCopyImage => c.args == [some .copyCommandBuffer, some .image, some .destImage]
  | _ => true

/-- What a call leaves behind for the calls after it: the object it released,
that a shader module was destroyed, that the device was destroyed, that the
staging memory was freed. -/
inductive Mark
  | released (r : Res)
  | shaderModuleDestroyed
  | deviceDestroyed
  | stagingMemoryFreed
  deriving DecidableEq, Repr

/-- The marks a call leaves behind. -/
def Call.marks (c : Call) : List Mark :=
  (match c.released with
   | some r => [.released r]
   | none => []) ++
  (if c.fn = .vkDestroyShaderModule then [.shaderModuleDestroyed] else []) ++
  (if c.fn = .vkDestroyDevice then [.deviceDestroyed] else []) ++
  (if c.releases .destImageMemory then [.stagingMemoryFreed] else [])

/-- What must not come after a mark: a call that is handed the released
object or creates it again; a `vkCreateGraphicsPipelines` after the destroy of
a shader module; any call but `vkDestroyInstance` after the destroy of the
device; a `vkMapMemory` or `vkUnmapMemory` after the free of the staging
memory. -/
def Mark.bars : Mark → Call → Bool
  | .released r, c => c.uses r || c.creates r
  | .shaderModuleDestroyed, c => c.fn == .vkCreateGraphicsPipelines
  | .deviceDestroyed, c => c.fn != .vkDestroyInstance
  | .stagingMemoryFreed, c => c.fn == .vkMapMemory || c.fn == .vkUnmapMemory

/-- No call of the list is barred by one of the marks `m` or by a mark that a
call of the list before it left behind. -/
def clearFrom {μ : Type} (marks : Call → List μ) (bars : μ → Call → Bool) :
    List Call → List μ → Bool
  | [], _ => true
  | c :: t, m => !(m.any (fun x => bars x c)) && clearFrom marks bars t (marks c ++ m)

/-- A `vkDestroyDevice` or `vkDestroyInstance` that releases something else
than the device or the instance, or a call that creates the device or the
instance from the device. -/
def Call.confusesDevice (c : Call) : Bool :=
  ((c.fn == .vkDestroyDevice || c.fn == .vkDestroyInstance) &&
    c.released.any (fun r => r != .device && r != .inst)) ||
  c.createsFrom .device .device || c.createsFrom .device .inst

/-! ## Lemmas on the helpers -/

theorem vk_ne (r : VkResult) : (VK_SUCCESS ≠ r) ↔ ¬ r = VK_SUCCESS := ne_comm

theorem vk_eq (r : VkResult) : (VK_SUCCESS = r) ↔ r = VK_SUCCESS := eq_comm

theorem created_success (fn : VkFn) (args : List Handle) (r : Res) :
    created fn args VK_SUCCESS r =
      { fn := fn, args := args, ret := VK_SUCCESS, out := some r } := by
  simp [created]

theorem created_failure (fn : VkFn) (args : List Handle) (ret : VkResult) (r : Res)
    (h : ¬ ret = VK_SUCCESS) :
    created fn args ret r = { fn := fn, args := args, ret := ret, out := none } := by
  simp [created, h]

theorem skeleton_nil : skeleton [] = [] := rfl

theorem skeleton_append (a b : List Call) : skeleton (a ++ b) = skeleton a ++ skeleton b := by
  simp [skeleton]

theorem skeleton_cons (c : Call) (l : List Call) :
    skeleton (c :: l) =
      (if c.fn = .vkGetPhysicalDeviceProperties then [] else [c.erase]) ++ skeleton l := by
  by_cases hc : c.fn = .vkGetPhysicalDeviceProperties <;> simp [skeleton, hc]

theorem skeleton_findFirstGPU_loop (pds : List PhysicalDevice) (n ii : Nat)
    (calls : List Call) :
    skeleton (findFirstGPU.loop pds n ii calls).calls = skeleton calls := by
  induction n generalizing ii calls with
  | zero => simp [findFirstGPU.loop]
  | succ n ih =>
    unfold findFirstGPU.loop
    split
    · rfl
    · dsimp only
      split
      · simp [skeleton, issued]
      · rw [ih]; simp [skeleton, issued]

theorem skeleton_findFirstGPU (inst : Handle) (pds : List PhysicalDevice) :
    skeleton (findFirstGPU inst pds).calls =
      [ checked .vkEnumeratePhysicalDevices [inst] VK_SUCCESS,
        checked .vkEnumeratePhysicalDevices [inst] VK_SUCCESS ] := by
  unfold findFirstGPU
  rw [skeleton_findFirstGPU_loop]
  simp [skeleton, checked, Call.erase]

/-- The entry of `shapes` at a given position is a member of `shapes`. -/
theorem mem_shapes (k : Nat) (x : List Call × List Call × List Handle)
    (h : shapes[k]? = some x) : x ∈ shapes :=
  List.mem_iff_getElem?.mpr ⟨k, h⟩

theorem queriesWithin_refl (G : List Call) : QueriesWithin G G :=
  ⟨[], (List.append_nil G).symm, fun _ h => absurd h (List.not_mem_nil _)⟩

theorem queriesWithin_append (G l X : List Call)
    (hX : ∀ c ∈ X, c.fn ≠ .vkGetPhysicalDeviceProperties) (h : QueriesWithin G l) :
    QueriesWithin G (l ++ X) := by
  obtain ⟨rest, rfl, hr⟩ := h
  refine ⟨rest ++ X, List.append_assoc _ _ _, ?_⟩
  intro c hc
  rcases List.mem_append.mp hc with h | h
  · exact hr c h
  · exact hX c h

set_option maxHeartbeats 4000000 in
set_option maxRecDepth 10000 in
/-- The case analysis of `renderImage`: one case for each place where a check
can fail, and one for the straight path. -/
theorem renderImage_facts (env : Env) (w h : Nat) : RunFacts env w h (renderImage env w h) := by
  unfold renderImage
  dsimp only
  generalize hcalls : ([created VkFn.vkCreateInstance [] env.vkCreateInstance Res.inst]) = calls
  repeat' (first
    | (split <;> rename_i hh <;> (try simp only [vk_ne, vk_eq, not_not] at hh) <;>
        (try simp only [hh, created_success, created_failure, not_false_eq_true,
          not_true_eq_false, ↓reduceIte, vk_ne, vk_eq] at hcalls ⊢))
    | (unfold renderImage.physicalDevice; dsimp only;
       generalize hcalls : (_ ++ _ : List Call) = calls)
    | (unfold renderImage.queueFamily; dsimp only;
       generalize hcalls : (_ ++ _ : List Call) = calls)
    | (unfold renderImage.logicalDevice; dsimp only;
       generalize hcalls : (_ ++ _ : List Call) = calls)
    | (unfold renderImage.commandPool; dsimp only;
       generalize hcalls : (_ ++ _ : List Call) = calls)
    | (unfold renderImage.pipelineCache; dsimp only;
       generalize hcalls : (_ ++ _ : List Call) = calls)
    | (unfold renderImage.shaders; dsimp only;
       generalize hcalls : (_ ++ _ : List Call) = calls)
    | (unfold renderImage.pipelineLayout; dsimp only;
       generalize hcalls : (_ ++ _ : List Call) = calls)
    | (unfold renderImage.renderPass; dsimp only;
       generalize hcalls : (_ ++ _ : List Call) = calls)
    | (unfold renderImage.pipeline; dsimp only;
       generalize hcalls : (_ ++ _ : List Call) = calls)
    | (unfold renderImage.image createImageAndMemory createImageAndMemory.finish; dsimp only)
    | (unfold renderImage.commandBuffer submitCommandBuffer; dsimp only;
       generalize hcalls : (_ ++ _ : List Call) = calls)
    | (unfold renderImage.destinationImage createImageAndMemory createImageAndMemory.finish;
       dsimp only)
    | (unfold renderImage.copyCommand submitCommandBuffer; dsimp only;
       generalize hcalls : (_ ++ _ : List Call) = calls)
    | (unfold renderImage.copyToHost; dsimp only;
       generalize hcalls : (_ ++ _ : List Call) = calls))
  all_goals (
    subst_vars
    unfold RunFacts
    refine ⟨?_, ?_, ?_⟩
    rotate_left
    · simp only [Run.imageContext, jump, post_copy_command, post_cleanup_copy_command_buffer,
        post_cleanup_dest_image, post_render_command, post_cleanup_render_command_buffer,
        post_cleanup_framebuffer, post_cleanup_image_view, post_cleanup_image,
        post_cleanup_graphics_pipeline, post_cleanup_render_pass, post_cleanup_pipeline_layout,
        post_cleanup_fragment_shader, post_cleanup_vertex_shader, post_cleanup_pipeline_cache,
        post_cleanup_command_pool, post_cleanup_device, post_cleanup_queue_family_index,
        post_cleanup_physical_device, post_cleanup_instance, ne_eq, reduceCtorEq,
        not_false_eq_true, not_true_eq_false, ↓reduceIte, Env.checksPass,
        Env.memoryProperties]
      simp [*]
    · intro h0
      first
        | exact absurd h0 (by assumption)
        | (simp only [jump, created_success]
           repeat (first
            | with_reducible exact queriesWithin_refl _
            | with_reducible apply queriesWithin_append _ _ _ (by
                simp only [findGraphicsAndComputeQueueFamily, List.mem_append, List.mem_cons,
                  List.mem_singleton, List.not_mem_nil, forall_eq_or_imp, or_imp, forall_and,
                  forall_eq, issued, checked, ne_eq, reduceCtorEq, not_false_eq_true,
                  and_self, and_true, true_and, implies_true, or_false, false_or,
                  false_implies, IsEmpty.forall_iff])))
    simp only [Run.shape, jump, post_copy_command, post_cleanup_copy_command_buffer,
        post_cleanup_dest_image, post_render_command, post_cleanup_render_command_buffer,
        post_cleanup_framebuffer, post_cleanup_image_view, post_cleanup_image,
        post_cleanup_graphics_pipeline, post_cleanup_render_pass, post_cleanup_pipeline_layout,
        post_cleanup_fragment_shader, post_cleanup_vertex_shader, post_cleanup_pipeline_cache,
        post_cleanup_command_pool, post_cleanup_device, post_cleanup_queue_family_index,
        post_cleanup_physical_device, post_cleanup_instance, ne_eq, reduceCtorEq,
        not_false_eq_true, not_true_eq_false, ↓reduceIte, List.nil_append, skeleton_append,
      skeleton_findFirstGPU, Locals.handles, findGraphicsAndComputeQueueFamily]
    simp only [skeleton_append, skeleton_cons, skeleton_nil, skeleton_findFirstGPU, Call.erase,
      VkFn.resultDiscarded, issued, checked, reduceCtorEq, ↓reduceIte, List.append_assoc,
      List.cons_append, List.nil_append, List.append_nil, or_true, true_or, or_false, false_or,
      not_false_eq_true, not_true_eq_false, *])
  · exact mem_shapes 0 _ (by decide!)
  · exact mem_shapes 1 _ (by decide!)
  · exact mem_shapes 2 _ (by decide!)
  · exact mem_shapes 3 _ (by decide!)
  · exact mem_shapes 4 _ (by decide!)
  · exact mem_shapes 5 _ (by decide!)
  · exact mem_shapes 6 _ (by decide!)
  · exact mem_shapes 7 _ (by decide!)
  · exact mem_shapes 8 _ (by decide!)
  · exact mem_shapes 9 _ (by decide!)
  · exact mem_shapes 10 _ (by decide!)
  · exact mem_shapes 11 _ (by decide!)
  · exact mem_shapes 12 _ (by decide!)
  · exact mem_shapes 13 _ (by decide!)
  · exact mem_shapes 14 _ (by decide!)
  · exact mem_shapes 15 _ (by decide!)
  · exact mem_shapes 16 _ (by decide!)
  · exact mem_shapes 17 _ (by decide!)
  · exact mem_shapes 18 _ (by decide!)
  · exact mem_shapes 19 _ (by decide!)
  · exact mem_shapes 21 _ (by decide!)
  · exact mem_shapes 22 _ (by decide!)
  · exact mem_shapes 23 _ (by decide!)
  · exact mem_shapes 24 _ (by decide!)
  · exact mem_shapes 25 _ (by decide!)
  · exact mem_shapes 26 _ (by decide!)
  · exact mem_shapes 27 _ (by decide!)
  · exact mem_shapes 28 _ (by decide!)
  · exact mem_shapes 30 _ (by decide!)
  · exact mem_shapes 31 _ (by decide!)
  · exact mem_shapes 33 _ (by decide!)
  · exact mem_shapes 32 _ (by decide!)
  · exact mem_shapes 29 _ (by decide!)
  · exact mem_shapes 20 _ (by decide!)

/-- Every run has the shape of the run in one of the environments of `exits`. -/
theorem renderImage_shape (env : Env) (w h : Nat) :
    (renderImage env w h).shape ∈ shapes :=
  (renderImage_facts env w h).1

/-- When the instance is created, the calls of a run before the cleanup section
are `vkCreateInstance`, the calls of `findFirstGPU`, and then calls among which
there is no `vkGetPhysicalDeviceProperties`. -/
theorem renderImage_queries (env : Env) (w h : Nat) (h0 : env.vkCreateInstance = VK_SUCCESS) :
    QueriesWithin
      ([created .vkCreateInstance [] VK_SUCCESS .inst] ++
        (findFirstGPU (some .inst) env.physicalDevices).calls)
      (renderImage env w h).calls :=
  (renderImage_facts env w h).2.2 h0

/-! ## From a run to its skeleton -/

theorem countP_skeleton (p : Call → Bool) (hp : Structural p false) (l : List Call) :
    (skeleton l).countP p = l.countP p := by
  induction l with
  | nil => rfl
  | cons c l ih =>
    rw [skeleton_cons, List.countP_append, ih, List.countP_cons]
    by_cases hc : c.fn = .vkGetPhysicalDeviceProperties
    · simp [hc, hp.2 c hc]
    · simp [hc, hp.1 c, List.countP_cons, add_comm]

theorem filterMap_skeleton {α : Type} (g : Call → Option α) (hg : Structural g none)
    (l : List Call) : (skeleton l).filterMap g = l.filterMap g := by
  induction l with
  | nil => rfl
  | cons c l ih =>
    rw [skeleton_cons, List.filterMap_append, ih, List.filterMap_cons]
    by_cases hc : c.fn = .vkGetPhysicalDeviceProperties
    · simp [hc, hg.2 c hc]
    · simp only [hc, ↓reduceIte, List.filterMap_cons, List.filterMap_nil, hg.1 c]
      cases g c <;> rfl

theorem any_skeleton (p : Call → Bool) (hp : Structural p false) (l : List Call) :
    (skeleton l).any p = l.any p := by
  induction l with
  | nil => rfl
  | cons c l ih =>
    rw [skeleton_cons, List.any_append, ih, List.any_cons]
    by_cases hc : c.fn = .vkGetPhysicalDeviceProperties
    · simp [hc, hp.2 c hc]
    · simp [hc, hp.1 c]

theorem structural_creates (r : Res) : Structural (fun c => c.creates r) false := by
  constructor
  · intro c; rfl
  · intro c hc; simp [Call.creates, hc, VkFn.isCreate]

theorem structural_releases (r : Res) : Structural (fun c => c.releases r) false := by
  constructor
  · intro c; rfl
  · intro c hc; simp [Call.releases, hc, VkFn.isDestroy]

theorem Res.mem_all (r : Res) : r ∈ Res.all := by
  cases r <;> decide

theorem structural_lifeline (r : Res) :
    Structural (fun c : Call => if c.creates r then some true else if c.releases r then some false
      else none) none := by
  constructor
  · intro c; rfl
  · intro c hc; simp [Call.creates, Call.releases, hc, VkFn.isCreate, VkFn.isDestroy]

theorem structural_mapline :
    Structural (fun c : Call => if c.fn = .vkMapMemory ∧ c.ret = VK_SUCCESS then some true
      else if c.fn = .vkUnmapMemory then some false else none) none := by
  constructor
  · intro c
    by_cases h1 : c.fn = .vkMapMemory
    · by_cases h2 : c.ret = VK_SUCCESS <;>
        simp [Call.erase, h1, h2, VkFn.resultDiscarded, VK_ERROR_OUT_OF_HOST_MEMORY, VK_SUCCESS]
    · simp [Call.erase, h1]
  · intro c hc; simp [hc]

theorem structural_acquired :
    Structural (fun c : Call => if c.fn.isCreate then c.out else none) none := by
  constructor
  · intro c; rfl
  · intro c hc; simp [hc, VkFn.isCreate]

theorem structural_releasesNull_other :
    Structural (fun c : Call => c.releasesNull && !(c.fn == .vkDestroyImage || c.fn == .vkFreeMemory))
      false := by
  constructor
  · intro c; rfl
  · intro c hc; simp [Call.releasesNull, hc, VkFn.isDestroy]

/-- Every run agrees with the run in one of the environments of `exits`: the
same cleanup calls, the same final handles, and up to `skeleton` the same calls
before the cleanup section and the same trace. -/
theorem renderImage_cases (env : Env) (w h : Nat) :
    ∃ e ∈ exits, skeleton (renderImage env w h).trace = skeleton (renderImage e 0 0).trace ∧
      skeleton (renderImage env w h).calls = skeleton (renderImage e 0 0).calls ∧
      (renderImage env w h).cleanup = (renderImage e 0 0).cleanup ∧
      (renderImage env w h).v.handles = (renderImage e 0 0).v.handles := by
  have hm := renderImage_shape env w h
  simp only [shapes, List.mem_map] at hm
  obtain ⟨e, he, hs⟩ := hm
  refine ⟨e, he, ?_⟩
  simp only [Run.shape, Prod.mk.injEq] at hs
  refine ⟨?_, hs.1.symm, hs.2.1.symm, hs.2.2.symm⟩
  simp only [Run.trace, skeleton_append, hs.1, hs.2.1]

/-! ## Creations and releases -/

theorem isDestroy_of_isCreate (fn : VkFn) (h : fn.isCreate = true) : fn.isDestroy = false := by
  cases fn <;> first | rfl | exact absurd h (by decide)

theorem lifeline_eq_lifeOf (r : Res) (t : List Call) :
    lifeline r t = lifeOf r (lifeEvents t) := by
  unfold lifeline lifeOf lifeEvents
  rw [List.filterMap_filterMap]
  congr 1
  funext c
  unfold Call.lifeEvent Call.creates Call.releases
  by_cases h1 : c.fn.isCreate = true
  · have h2 := isDestroy_of_isCreate _ h1
    cases hout : c.out with
    | none => simp [h1, h2]
    | some r' =>
      by_cases hr : r' = r
      · simp [h1, hr]
      · simp [h1, h2, hr]
  · by_cases h2 : c.fn.isDestroy = true
    · cases hlast : c.args.getLast? with
      | none => simp [h1, h2]
      | some x =>
        cases x with
        | none => simp [h1, h2]
        | some r' =>
          by_cases hr : r' = r
          · simp [h1, h2, hr]
          · simp [h1, h2, hr]
    · simp [h1, h2]

theorem lifeline_ne_nil_of_creates (r : Res) (t : List Call)
    (h : t.any (fun c => c.creates r) = true) : lifeline r t ≠ [] := by
  obtain ⟨c, hc, hcr⟩ := List.any_eq_true.mp h
  apply List.ne_nil_of_mem (a := true)
  unfold lifeline
  rw [List.mem_filterMap]
  exact ⟨c, hc, by simp [hcr]⟩

theorem creates_of_mem_lifeline (r : Res) (t : List Call) (h : true ∈ lifeline r t) :
    ∃ c ∈ t, c.creates r = true := by
  unfold lifeline at h
  rw [List.mem_filterMap] at h
  obtain ⟨c, hc, hf⟩ := h
  refine ⟨c, hc, ?_⟩
  by_cases h1 : c.creates r = true
  · exact h1
  · by_cases h2 : c.releases r = true <;> simp [h1, h2] at hf

theorem countP_releases_eq_count (r : Res) (t : List Call) :
    t.countP (fun c => c.releases r) = (lifeline r t).count false := by
  induction t with
  | nil => rfl
  | cons c t ih =>
    unfold lifeline at ih ⊢
    rw [List.countP_cons, List.filterMap_cons, ih]
    by_cases h1 : c.creates r = true
    · have h2 : c.releases r = false := by
        unfold Call.creates at h1
        unfold Call.releases
        rw [isDestroy_of_isCreate _ (Bool.and_eq_true _ _ ▸ h1).1, Bool.false_and]
      simp [h1, h2]
    · by_cases h2 : c.releases r = true
      · simp [h1, h2]
      · simp [h1, h2]

theorem structural_lifeEvent : Structural Call.lifeEvent none := by
  constructor
  · intro c; rfl
  · intro c hc; simp [Call.lifeEvent, hc, VkFn.isCreate, VkFn.isDestroy]

theorem lifeline_eq_commandBufferEvents (r : Res)
    (hr : r = .renderCommandBuffer ∨ r = .copyCommandBuffer) (t : List Call) :
    lifeline r t = lifeOf r (commandBufferEvents t) := by
  rw [lifeline_eq_lifeOf]
  unfold commandBufferEvents lifeOf
  generalize lifeEvents t = l
  induction l with
  | nil => rfl
  | cons e l ih =>
    by_cases hp : decide (e.2 = .renderCommandBuffer ∨ e.2 = .copyCommandBuffer) = true
    · simp only [List.filter_cons, hp, ↓reduceIte, List.filterMap_cons, ih]
    · have he : ¬ e.2 = r := by
        intro he
        apply hp
        rw [he]
        exact decide_eq_true hr
      simp only [List.filter_cons, hp, Bool.false_eq_true, ↓reduceIte, List.filterMap_cons, he,
        ih]

set_option maxRecDepth 100000 in
theorem exits_lives : ∀ e ∈ exits, ∀ r ∈ Res.all,
    lifeOf r (lifeEvents (skeleton (renderImage e 0 0).trace)) = [] ∨
    lifeOf r (lifeEvents (skeleton (renderImage e 0 0).trace)) = [true, false] := by
  decide!

/-! ## What holds in each environment of `exits` -/

theorem exits_lifecycle : ∀ e ∈ exits, ∀ r ∈ Res.all,
    (skeleton (renderImage e 0 0).trace).any (fun c => c.creates r) = true →
      (skeleton (renderImage e 0 0).trace).countP (fun c => c.releases r) = 1 ∧
      lifeline r (skeleton (renderImage e 0 0).trace) = [true, false] := by
  intro e he r hr hany
  have h := exits_lives e he r hr
  rw [← lifeline_eq_lifeOf] at h
  rcases h with h | h
  · exact absurd h (lifeline_ne_nil_of_creates r _ hany)
  · refine ⟨?_, h⟩
    rw [countP_releases_eq_count, h]
    rfl

set_option maxRecDepth 100000 in
theorem exits_mapline : ∀ e ∈ exits,
    mapline (skeleton (renderImage e 0 0).trace) = [] ∨
    mapline (skeleton (renderImage e 0 0).trace) = [true, false] := by
  decide!

set_option maxRecDepth 100000 in
theorem exits_acquired : ∀ e ∈ exits,
    acquired (skeleton (renderImage e 0 0).trace) <+: acquisitionOrder ∧
    (∀ r ∈ acquisitionOrder.drop (acquired (skeleton (renderImage e 0 0).trace)).length,
      ∀ c ∈ (renderImage e 0 0).cleanup, c.releases r = false) ∧
    (∀ c ∈ (renderImage e 0 0).cleanup,
      ∃ r ∈ acquired (skeleton (renderImage e 0 0).calls), c.releases r = true) := by
  decide!

set_option maxRecDepth 100000 in
theorem exits_categories : ∀ e ∈ exits,
    (∀ c ∈ (renderImage e 0 0).cleanup, c.category.isSome = true) ∧
    ((renderImage e 0 0).cleanup.filterMap Call.category).Pairwise (· ≤ ·) := by
  decide!

set_option maxRecDepth 100000 in
theorem exits_null : ∀ e ∈ exits,
    (∀ c ∈ (renderImage e 0 0).cleanup, c.releasesNull = false) ∧
    (skeleton (renderImage e 0 0).calls).any
      (fun c => c.releasesNull && !(c.fn == .vkDestroyImage || c.fn == .vkFreeMemory)) = false ∧
    (∀ x ∈ (renderImage e 0 0).v.handles, x = none) := by
  decide!

/-! ## The returned image -/

/-- Either every check passes and `renderImage` returns the copied image, or
some check fails and it returns the zero-initialised `ImageContext`. -/
theorem renderImage_imageContext (env : Env) (w h : Nat) :
    (env.checksPass ∧ (renderImage env w h).imageContext =
      { data := some ((List.range ((h * env.layoutRowPitch) % 2 ^ 64)).map
                  (fun i => env.mapped (env.layoutOffset + i))),
        width := w, height := h, colorPixelFormat := VK_FORMAT_R8G8B8A8_UNORM,
        bytesPerRow := env.layoutRowPitch }) ∨
    (¬ env.checksPass ∧ (renderImage env w h).imageContext = {}) :=
  (renderImage_facts env w h).2.1

/-! ## `findMemoryTypeIndex` and `findFirstGPU` -/

theorem IS_FLAG_SET_two_pow (bits i : Nat) : IS_FLAG_SET bits (2 ^ i) = bits.testBit i := by
  unfold IS_FLAG_SET
  cases hb : bits.testBit i
  · have : bits &&& 2 ^ i = 0 := by
      apply Nat.eq_of_testBit_eq
      intro j
      rw [Nat.testBit_and, Nat.testBit_two_pow, Nat.zero_testBit]
      by_cases hij : i = j
      · subst hij; simp [hb]
      · simp [hij]
    simp [this]
  · have : (bits &&& 2 ^ i).testBit i = true := by
      rw [Nat.testBit_and, Nat.testBit_two_pow_self, hb]; rfl
    have hne : bits &&& 2 ^ i ≠ 0 := by
      intro h0; rw [h0, Nat.zero_testBit] at this; exact Bool.noConfusion this
    simpa [bne_iff_ne] using hne.symm

theorem scan_spec (value : Nat) (n i : Nat) :
    i ≤ stdc_trailing_zeros.scan value n i ∧ stdc_trailing_zeros.scan value n i ≤ i + n ∧
    (∀ j, i ≤ j → j < stdc_trailing_zeros.scan value n i → value.testBit j = false) := by
  induction n generalizing i with
  | zero => exact ⟨le_refl _, le_refl _, fun j h1 h2 => absurd (lt_of_le_of_lt h1 h2) (lt_irrefl _)⟩
  | succ n ih =>
    unfold stdc_trailing_zeros.scan
    split
    · exact ⟨le_refl _, by omega, fun j h1 h2 => absurd (lt_of_le_of_lt h1 h2) (lt_irrefl _)⟩
    · rename_i hbit
      obtain ⟨h1, h2, h3⟩ := ih (i + 1)
      refine ⟨by omega, by omega, ?_⟩
      intro j hj1 hj2
      by_cases hji : j = i
      · subst hji; simpa using hbit
      · exact h3 j (by omega) hj2

theorem stdc_trailing_zeros_spec (value : Nat) :
    stdc_trailing_zeros value ≤ 32 ∧
    ∀ j, j < stdc_trailing_zeros value → value.testBit j = false := by
  obtain ⟨_, h2, h3⟩ := scan_spec value 32 0
  exact ⟨by simpa using h2, fun j hj => h3 j (Nat.zero_le _) hj⟩

theorem findMemoryTypeIndex_loop_spec (mp : VkPhysicalDeviceMemoryProperties)
    (bits req : Nat) (n index : Nat) (hn : index + n ≤ 32) :
    (∀ i, findMemoryTypeIndex.loop mp bits req n index (2 ^ index % 2 ^ 32) = (VK_SUCCESS, i) ↔
      (index ≤ i ∧ i < index + n ∧ suitable mp bits req i ∧
        ∀ j, index ≤ j → j < i → ¬ suitable mp bits req j)) ∧
    (findMemoryTypeIndex.loop mp bits req n index (2 ^ index % 2 ^ 32)
        = (VK_ERROR_FEATURE_NOT_PRESENT, 0) ↔
      ∀ j, index ≤ j → j < index + n → ¬ suitable mp bits req j) := by
  induction n generalizing index with
  | zero =>
    constructor
    · intro i
      simp only [findMemoryTypeIndex.loop, Prod.mk.injEq]
      constructor
      · intro h; simp [VK_SUCCESS, VK_ERROR_FEATURE_NOT_PRESENT] at h
      · intro h; omega
    · simp only [findMemoryTypeIndex.loop, true_iff]
      intro j h1 h2; omega
  | succ n ih =>
    have hidx : index < 32 := by omega
    have hpow : 2 ^ index % 2 ^ 32 = 2 ^ index :=
      Nat.mod_eq_of_lt (Nat.pow_lt_pow_right (by decide) hidx)
    have hnext : (2 ^ index % 2 ^ 32) <<< 1 % 2 ^ 32 = 2 ^ (index + 1) % 2 ^ 32 := by
      rw [hpow, Nat.shiftLeft_eq, pow_one, ← pow_succ]
    have hcond : (IS_FLAG_SET bits (2 ^ index % 2 ^ 32) &&
        hasMemoryProperties mp index req) = true ↔ suitable mp bits req index := by
      rw [hpow, IS_FLAG_SET_two_pow]
      unfold suitable hasMemoryProperties hasProperties
      simp only [Bool.and_eq_true, beq_iff_eq]
      exact ⟨fun h => ⟨h.1, h.2.symm⟩, fun h => ⟨h.1, h.2.symm⟩⟩
    obtain ⟨ih1, ih2⟩ := ih (index + 1) (by omega)
    unfold findMemoryTypeIndex.loop
    by_cases hs : suitable mp bits req index
    · rw [if_pos (hcond.mpr hs)]
      constructor
      · intro i
        simp only [Prod.mk.injEq, true_and]
        constructor
        · intro h; subst h
          exact ⟨le_refl _, by omega, hs, fun j h1 h2 => absurd (lt_of_le_of_lt h1 h2) (lt_irrefl _)⟩
        · rintro ⟨h1, _, _, h4⟩
          by_contra hne
          exact h4 index (le_refl _) (by omega) hs
      · constructor
        · intro h; simp [VK_SUCCESS, VK_ERROR_FEATURE_NOT_PRESENT] at h
        · intro h; exact absurd hs (h index (le_refl _) (by omega))
    · rw [if_neg (fun h => hs (hcond.mp h)), hnext]
      constructor
      · intro i
        rw [ih1 i]
        constructor
        · rintro ⟨h1, h2, h3, h4⟩
          refine ⟨by omega, by omega, h3, ?_⟩
          intro j hj1 hj2
          by_cases hji : j = index
          · subst hji; exact hs
          · exact h4 j (by omega) hj2
        · rintro ⟨h1, h2, h3, h4⟩
          have hne : i ≠ index := by rintro rfl; exact hs h3
          exact ⟨by omega, by omega, h3, fun j hj1 hj2 => h4 j (by omega) hj2⟩
      · rw [ih2]
        constructor
        · intro h j hj1 hj2
          by_cases hji : j = index
          · subst hji; exact hs
          · exact h j (by omega) (by omega)
        · intro h j hj1 hj2
          exact h j (by omega) (by omega)


theorem findMemoryTypeIndex_spec (mp : VkPhysicalDeviceMemoryProperties)
    (bits requested : Nat) (hcount : mp.memoryTypeCount ≤ 32) :
    (∀ i, findMemoryTypeIndex mp bits requested = (VK_SUCCESS, i) ↔
      (i < mp.memoryTypeCount ∧ suitable mp bits requested i ∧
        ∀ j, j < i → ¬ suitable mp bits requested j)) ∧
    (findMemoryTypeIndex mp bits requested = (VK_ERROR_FEATURE_NOT_PRESENT, 0) ↔
      ∀ i, i < mp.memoryTypeCount → ¬ suitable mp bits requested i) := by
  obtain ⟨hz32, hzero⟩ := stdc_trailing_zeros_spec bits
  have hlow : ∀ j, j < stdc_trailing_zeros bits → ¬ suitable mp bits requested j := by
    intro j hj hs
    have h1 := hs.1
    rw [hzero j hj] at h1
    exact Bool.noConfusion h1
  unfold findMemoryTypeIndex
  dsimp only
  rw [Nat.one_shiftLeft]
  by_cases hle : stdc_trailing_zeros bits ≤ mp.memoryTypeCount
  · obtain ⟨h1, h2⟩ := findMemoryTypeIndex_loop_spec mp bits requested
      (mp.memoryTypeCount - stdc_trailing_zeros bits) (stdc_trailing_zeros bits) (by omega)
    have hsum : stdc_trailing_zeros bits + (mp.memoryTypeCount - stdc_trailing_zeros bits)
        = mp.memoryTypeCount := by omega
    rw [hsum] at h1 h2
    constructor
    · intro i
      rw [h1 i]
      constructor
      · rintro ⟨_, h3, h4, h5⟩
        refine ⟨h3, h4, fun j hj => ?_⟩
        by_cases hjz : j < stdc_trailing_zeros bits
        · exact hlow j hjz
        · exact h5 j (by omega) hj
      · rintro ⟨h3, h4, h5⟩
        refine ⟨?_, h3, h4, fun j _ hj => h5 j hj⟩
        by_contra hlt
        exact hlow i (by omega) h4
    · rw [h2]
      constructor
      · intro h j hj
        by_cases hjz : j < stdc_trailing_zeros bits
        · exact hlow j hjz
        · exact h j (by omega) hj
      · intro h j _ hj
        exact h j hj
  · have hfuel : mp.memoryTypeCount - stdc_trailing_zeros bits = 0 := by omega
    rw [hfuel]
    simp only [findMemoryTypeIndex.loop]
    constructor
    · intro i
      constructor
      · intro h; simp [VK_SUCCESS, VK_ERROR_FEATURE_NOT_PRESENT] at h
      · rintro ⟨h3, h4, _⟩
        exact absurd h4 (hlow i (by omega))
    · simp only [true_iff]
      intro j hj
      exact hlow j (by omega)


theorem findFirstGPU_loop_spec (pds : List PhysicalDevice) (n ii : Nat) (calls : List Call)
    (hn : ii + n = pds.length) :
    (∃ i, ∃ hi : i < pds.length, ii ≤ i ∧ pds[i].isGPU ∧
      (∀ j, ∀ hj : j < pds.length, ii ≤ j → j < i → ¬ pds[j].isGPU) ∧
      (findFirstGPU.loop pds n ii calls).result = VK_SUCCESS ∧
      (findFirstGPU.loop pds n ii calls).physicalDevice = some pds[i]) ∨
    ((∀ j, ∀ hj : j < pds.length, ii ≤ j → ¬ pds[j].isGPU) ∧
      (findFirstGPU.loop pds n ii calls).result = VK_ERROR_FEATURE_NOT_PRESENT ∧
      (findFirstGPU.loop pds n ii calls).physicalDevice = none) := by
  induction n generalizing ii calls with
  | zero =>
    right
    refine ⟨fun j hj hle => by omega, rfl, rfl⟩
  | succ n ih =>
    have hii : ii < pds.length := by omega
    unfold findFirstGPU.loop
    rw [List.getElem?_eq_getElem hii]
    dsimp only
    by_cases hg : pds[ii].isGPU
    · left
      have hc : VK_PHYSICAL_DEVICE_TYPE_INTEGRATED_GPU = pds[ii].deviceType ∨
          VK_PHYSICAL_DEVICE_TYPE_DISCRETE_GPU = pds[ii].deviceType :=
        hg.elim (fun h => Or.inl h.symm) (fun h => Or.inr h.symm)
      rw [if_pos hc]
      exact ⟨ii, hii, le_refl _, hg, fun j hj h1 h2 => by omega, rfl, rfl⟩
    · have hc : ¬ (VK_PHYSICAL_DEVICE_TYPE_INTEGRATED_GPU = pds[ii].deviceType ∨
          VK_PHYSICAL_DEVICE_TYPE_DISCRETE_GPU = pds[ii].deviceType) :=
        fun h => hg (h.elim (fun h => Or.inl h.symm) (fun h => Or.inr h.symm))
      rw [if_neg hc]
      rcases ih (ii + 1) _ (by omega) with ⟨i, hi, h1, h2, h3, h4, h5⟩ | ⟨h1, h2, h3⟩
      · left
        refine ⟨i, hi, by omega, h2, ?_, h4, h5⟩
        intro j hj hj1 hj2
        by_cases hji : j = ii
        · subst hji; exact hg
        · exact h3 j hj (by omega) hj2
      · right
        refine ⟨?_, h2, h3⟩
        intro j hj hj1
        by_cases hji : j = ii
        · subst hji; exact hg
        · exact h1 j hj (by omega)

/-! ## The claims -/

/-- C1: in every run of `renderImage`, whatever the environment lets fail,
each object whose creation succeeded (instance, device, command pool, pipeline
cache, both shader modules, pipeline layout, render pass, graphics pipeline,
both images and their memories, image view, framebuffer, both command buffers,
both fences) is released by exactly one destroy or free call of the trace, and
that call comes after the creation: its life in the trace is one creation
followed by one release. A `vkMapMemory` that succeeded is followed by exactly
one `vkUnmapMemory`, and there is no `vkUnmapMemory` otherwise. -/
theorem renderImage_releases_each_created_object_once (env : Env) (width height : Nat) :
    (∀ r : Res, (∃ c ∈ (renderImage env width height).trace, c.creates r = true) →
      (renderImage env width height).trace.countP (fun c => c.releases r) = 1 ∧
      lifeline r (renderImage env width height).trace = [true, false]) ∧
    (mapline (renderImage env width height).trace = [] ∨
     mapline (renderImage env width height).trace = [true, false]) := by
  obtain ⟨e, he, ht, _⟩ := renderImage_cases env width height
  constructor
  · intro r hr
    have key := exits_lifecycle e he r (Res.mem_all r)
    rw [← ht, any_skeleton _ (structural_creates r), countP_skeleton _ (structural_releases r),
      lifeline, filterMap_skeleton _ (structural_lifeline r)] at key
    exact key (List.any_eq_true.mpr hr)
  · have key := exits_mapline e he
    rw [← ht, mapline, filterMap_skeleton _ structural_mapline] at key
    exact key

/-- C2: in every run of `renderImage` the objects acquired are the first ones
of the acquisition order, up to the place of the failure; the cleanup section
releases none of the others (the one whose creation failed and those that
would have come after it), and every call it issues releases an object that
was acquired before it. When `vkCreateInstance` fails that call is the whole
trace. -/
theorem renderImage_teardown_skips_what_was_not_acquired (env : Env) (width height : Nat) :
    acquired (renderImage env width height).trace <+: acquisitionOrder ∧
    (∀ r ∈ acquisitionOrder.drop (acquired (renderImage env width height).trace).length,
      ∀ c ∈ (renderImage env width height).cleanup, c.releases r = false) ∧
    (∀ c ∈ (renderImage env width height).cleanup,
      ∃ r ∈ acquired (renderImage env width height).calls, c.releases r = true) ∧
    (env.vkCreateInstance ≠ VK_SUCCESS →
      (renderImage env width height).trace =
        [created .vkCreateInstance [] env.vkCreateInstance .inst]) := by
  obtain ⟨e, he, ht, hk, hc, _⟩ := renderImage_cases env width height
  have key := exits_acquired e he
  rw [← ht, ← hk, ← hc, acquired, acquired, filterMap_skeleton _ structural_acquired,
    filterMap_skeleton _ structural_acquired] at key
  refine ⟨key.1, key.2.1, key.2.2, ?_⟩
  intro hfail
  have hfail' : ¬ env.vkCreateInstance = VK_SUCCESS := hfail
  simp [renderImage, vk_ne, hfail', jump, post_cleanup_instance, Run.trace]

/-- C3: in every run of `renderImage` each call of the cleanup section
releases an object of one of the thirteen categories of the teardown order
(command buffers, staging image and memory, framebuffer, image view, render
target and memory, graphics pipeline, render pass, pipeline layout, shader
modules, pipeline cache, command pool, device, instance), and the categories
never go back along the cleanup: no call of a later category precedes a call
of an earlier one. -/
theorem renderImage_teardown_order (env : Env) (width height : Nat) :
    (∀ c ∈ (renderImage env width height).cleanup, c.category.isSome = true) ∧
    ((renderImage env width height).cleanup.filterMap Call.category).Pairwise (· ≤ ·) := by
  obtain ⟨e, he, _, _, hc, _⟩ := renderImage_cases env width height
  rw [hc]
  exact exits_categories e he

/-- C4, counterexample: when creating the render target image fails, the
failure cleanup of `createImageAndMemory` calls `vkDestroyImage` and
`vkFreeMemory` on null handles, so the trace of `renderImage` does hold
releases of the null handle. -/
theorem renderImage_releases_null_handle :
    ¬ (∀ c ∈ (renderImage envImageCreationFails 4 4).trace, c.releasesNull = false) := by
  decide!

/-! The local `physicalDevice` of `renderImage` at the `return`: every label
from `post_cleanup_queue_family_index` upwards passes through the statement
`physicalDevice = nullptr`. -/

theorem post_cleanup_queue_family_index_physicalDevice (u : Unwinding) :
    (post_cleanup_queue_family_index u).v.physicalDevice = none := rfl

theorem post_cleanup_device_physicalDevice (u : Unwinding) :
    (post_cleanup_device u).v.physicalDevice = none :=
  post_cleanup_queue_family_index_physicalDevice _

theorem post_cleanup_command_pool_physicalDevice (u : Unwinding) :
    (post_cleanup_command_pool u).v.physicalDevice = none :=
  post_cleanup_device_physicalDevice _

theorem post_cleanup_pipeline_cache_physicalDevice (u : Unwinding) :
    (post_cleanup_pipeline_cache u).v.physicalDevice = none :=
  post_cleanup_command_pool_physicalDevice _

theorem post_cleanup_vertex_shader_physicalDevice (u : Unwinding) :
    (post_cleanup_vertex_shader u).v.physicalDevice = none :=
  post_cleanup_pipeline_cache_physicalDevice _

theorem post_cleanup_fragment_shader_physicalDevice (u : Unwinding) :
    (post_cleanup_fragment_shader u).v.physicalDevice = none :=
  post_cleanup_vertex_shader_physicalDevice _

theorem post_cleanup_pipeline_layout_physicalDevice (u : Unwinding) :
    (post_cleanup_pipeline_layout u).v.physicalDevice = none :=
  post_cleanup_fragment_shader_physicalDevice _

theorem post_cleanup_render_pass_physicalDevice (u : Unwinding) :
    (post_cleanup_render_pass u).v.physicalDevice = none :=
  post_cleanup_pipeline_layout_physicalDevice _

theorem post_cleanup_graphics_pipeline_physicalDevice (u : Unwinding) :
    (post_cleanup_graphics_pipeline u).v.physicalDevice = none :=
  post_cleanup_render_pass_physicalDevice _

theorem post_cleanup_image_physicalDevice (u : Unwinding) :
    (post_cleanup_image u).v.physicalDevice = none :=
  post_cleanup_graphics_pipeline_physicalDevice _

theorem post_cleanup_image_view_physicalDevice (u : Unwinding) :
    (post_cleanup_image_view u).v.physicalDevice = none :=
  post_cleanup_image_physicalDevice _

theorem post_cleanup_framebuffer_physicalDevice (u : Unwinding) :
    (post_cleanup_framebuffer u).v.physicalDevice = none :=
  post_cleanup_image_view_physicalDevice _

theorem post_cleanup_render_command_buffer_physicalDevice (u : Unwinding) :
    (post_cleanup_render_command_buffer u).v.physicalDevice = none :=
  post_cleanup_framebuffer_physicalDevice _

theorem post_render_command_physicalDevice (u : Unwinding) :
    (post_render_command u).v.physicalDevice = none :=
  post_cleanup_render_command_buffer_physicalDevice _

theorem post_cleanup_dest_image_physicalDevice (u : Unwinding) :
    (post_cleanup_dest_image u).v.physicalDevice = none :=
  post_render_command_physicalDevice _

theorem post_cleanup_copy_command_buffer_physicalDevice (u : Unwinding) :
    (post_cleanup_copy_command_buffer u).v.physicalDevice = none :=
  post_cleanup_dest_image_physicalDevice _

theorem post_copy_command_physicalDevice (u : Unwinding) :
    (post_copy_command u).v.physicalDevice = none :=
  post_cleanup_copy_command_buffer_physicalDevice _

/-- A `goto` to a label that resets `physicalDevice` ends with it reset. -/
theorem jump_physicalDevice {target : Unwinding → Unwinding}
    (h : ∀ u, (target u).v.physicalDevice = none) (v : Locals) (calls : List Call) :
    (jump target v calls).v.physicalDevice = none :=
  h _

theorem renderImage_copyToHost_physicalDevice (env : Env) (w h : Nat) (v : Locals)
    (calls : List Call) :
    (renderImage.copyToHost env w h v calls).v.physicalDevice = none := by
  unfold renderImage.copyToHost
  dsimp only
  split <;> with_reducible exact jump_physicalDevice post_copy_command_physicalDevice _ _

theorem renderImage_copyCommand_physicalDevice (env : Env) (w h : Nat) (v : Locals)
    (calls : List Call) :
    (renderImage.copyCommand env w h v calls).v.physicalDevice = none := by
  unfold renderImage.copyCommand
  dsimp only
  repeat' split
  all_goals first
    | with_reducible exact renderImage_copyToHost_physicalDevice _ _ _ _ _
    | with_reducible exact jump_physicalDevice post_copy_command_physicalDevice _ _
    | with_reducible exact jump_physicalDevice post_cleanup_copy_command_buffer_physicalDevice _ _

theorem renderImage_destinationImage_physicalDevice (env : Env) (w h : Nat) (v : Locals)
    (calls : List Call) :
    (renderImage.destinationImage env w h v calls).v.physicalDevice = none := by
  unfold renderImage.destinationImage
  dsimp only
  split
  · with_reducible exact jump_physicalDevice post_cleanup_dest_image_physicalDevice _ _
  · with_reducible exact renderImage_copyCommand_physicalDevice _ _ _ _ _

theorem renderImage_commandBuffer_physicalDevice (env : Env) (w h : Nat) (v : Locals)
    (calls : List Call) :
    (renderImage.commandBuffer env w h v calls).v.physicalDevice = none := by
  unfold renderImage.commandBuffer
  dsimp only
  repeat' split
  all_goals first
    | with_reducible exact renderImage_destinationImage_physicalDevice _ _ _ _ _
    | with_reducible exact jump_physicalDevice post_render_command_physicalDevice _ _
    | with_reducible exact jump_physicalDevice post_cleanup_render_command_buffer_physicalDevice _ _

theorem renderImage_image_physicalDevice (env : Env) (w h : Nat) (v : Locals)
    (calls : List Call) :
    (renderImage.image env w h v calls).v.physicalDevice = none := by
  unfold renderImage.image
  dsimp only
  repeat' split
  all_goals first
    | with_reducible exact renderImage_commandBuffer_physicalDevice _ _ _ _ _
    | with_reducible exact jump_physicalDevice post_cleanup_image_physicalDevice _ _
    | with_reducible exact jump_physicalDevice post_cleanup_image_view_physicalDevice _ _
    | with_reducible exact jump_physicalDevice post_cleanup_framebuffer_physicalDevice _ _

theorem renderImage_pipeline_physicalDevice (env : Env) (w h : Nat) (v : Locals)
    (calls : List Call) :
    (renderImage.pipeline env w h v calls).v.physicalDevice = none := by
  unfold renderImage.pipeline
  dsimp only
  split
  · with_reducible exact jump_physicalDevice post_cleanup_graphics_pipeline_physicalDevice _ _
  · with_reducible exact renderImage_image_physicalDevice _ _ _ _ _

theorem renderImage_renderPass_physicalDevice (env : Env) (w h : Nat) (v : Locals)
    (calls : List Call) :
    (renderImage.renderPass env w h v calls).v.physicalDevice = none := by
  unfold renderImage.renderPass
  dsimp only
  split
  · with_reducible exact jump_physicalDevice post_cleanup_render_pass_physicalDevice _ _
  · with_reducible exact renderImage_pipeline_physicalDevice _ _ _ _ _

theorem renderImage_pipelineLayout_physicalDevice (env : Env) (w h : Nat) (v : Locals)
    (calls : List Call) :
    (renderImage.pipelineLayout env w h v calls).v.physicalDevice = none := by
  unfold renderImage.pipelineLayout
  dsimp only
  split
  · with_reducible exact jump_physicalDevice post_cleanup_pipeline_layout_physicalDevice _ _
  · with_reducible exact renderImage_renderPass_physicalDevice _ _ _ _ _

theorem renderImage_shaders_physicalDevice (env : Env) (w h : Nat) (v : Locals)
    (calls : List Call) :
    (renderImage.shaders env w h v calls).v.physicalDevice = none := by
  unfold renderImage.shaders
  dsimp only
  repeat' split
  all_goals first
    | with_reducible exact renderImage_pipelineLayout_physicalDevice _ _ _ _ _
    | with_reducible exact jump_physicalDevice post_cleanup_vertex_shader_physicalDevice _ _
    | with_reducible exact jump_physicalDevice post_cleanup_fragment_shader_physicalDevice _ _

theorem renderImage_pipelineCache_physicalDevice (env : Env) (w h : Nat) (v : Locals)
    (calls : List Call) :
    (renderImage.pipelineCache env w h v calls).v.physicalDevice = none := by
  unfold renderImage.pipelineCache
  dsimp only
  split
  · with_reducible exact jump_physicalDevice post_cleanup_pipeline_cache_physicalDevice _ _
  · with_reducible exact renderImage_shaders_physicalDevice _ _ _ _ _

theorem renderImage_commandPool_physicalDevice (env : Env) (w h : Nat) (v : Locals)
    (calls : List Call) :
    (renderImage.commandPool env w h v calls).v.physicalDevice = none := by
  unfold renderImage.commandPool
  dsimp only
  split
  · with_reducible exact jump_physicalDevice post_cleanup_command_pool_physicalDevice _ _
  · with_reducible exact renderImage_pipelineCache_physicalDevice _ _ _ _ _

theorem renderImage_logicalDevice_physicalDevice (env : Env) (w h : Nat) (v : Locals)
    (calls : List Call) :
    (renderImage.logicalDevice env w h v calls).v.physicalDevice = none := by
  unfold renderImage.logicalDevice
  dsimp only
  split
  · with_reducible exact jump_physicalDevice post_cleanup_device_physicalDevice _ _
  · with_reducible exact renderImage_commandPool_physicalDevice _ _ _ _ _

theorem renderImage_queueFamily_physicalDevice (env : Env) (w h : Nat) (v : Locals)
    (calls : List Call) :
    (renderImage.queueFamily env w h v calls).v.physicalDevice = none := by
  unfold renderImage.queueFamily
  dsimp only
  split
  · with_reducible exact jump_physicalDevice post_cleanup_queue_family_index_physicalDevice _ _
  · with_reducible exact renderImage_logicalDevice_physicalDevice _ _ _ _ _

/-- When `findFirstGPU` fails it has written `nullptr` to `*pPhysicalDevice`. -/
theorem findFirstGPU_failed_null (inst : Handle) (pds : List PhysicalDevice)
    (hfail : VK_SUCCESS ≠ (findFirstGPU inst pds).result) :
    (findFirstGPU inst pds).physicalDevice = none := by
  unfold findFirstGPU at hfail ⊢
  rcases findFirstGPU_loop_spec pds pds.length 0
      [ checked .vkEnumeratePhysicalDevices [inst] VK_SUCCESS,
        checked .vkEnumeratePhysicalDevices [inst] VK_SUCCESS ] (Nat.zero_add _) with
    ⟨i, hi, _, _, _, hr, _⟩ | ⟨_, _, hn⟩
  · exact absurd hr.symm hfail
  · exact hn

theorem renderImage_physicalDevice_physicalDevice (env : Env) (w h : Nat) (v : Locals)
    (calls : List Call) :
    (renderImage.physicalDevice env w h v calls).v.physicalDevice = none := by
  unfold renderImage.physicalDevice
  dsimp only
  split
  · rename_i hfail
    exact findFirstGPU_failed_null _ _ hfail
  · exact renderImage_queueFamily_physicalDevice _ _ _ _ _

/-- At the `return` of `renderImage` the local `physicalDevice` holds
`nullptr`: it is reset at the label `post_cleanup_queue_family_index`, and the
two paths that do not pass that label are the failure of `vkCreateInstance`,
which leaves it as initialised, and the failure of `findFirstGPU`, which has
written `nullptr` to it. -/
theorem renderImage_physicalDevice_null (env : Env) (w h : Nat) :
    (renderImage env w h).v.physicalDevice = none := by
  unfold renderImage
  dsimp only
  split
  · rfl
  · exact renderImage_physicalDevice_physicalDevice _ _ _ _ _

/-- The local `fence` of `submitCommandBuffer` holds `nullptr` when the
function returns. -/
theorem submitCommandBuffer_fence_null (device : Handle) (drv : SubmitDriver)
    (fenceRes : Res) : submitCommandBuffer.fence device drv fenceRes = none := by
  unfold submitCommandBuffer.fence created
  dsimp only
  split
  · rfl
  · rename_i h
    rw [if_neg (fun h' => h h'.symm)]

/-- A failed `createImageAndMemory` hands back two null handles. -/
theorem createImageAndMemory_failed_null (device : Handle)
    (pMemoryProperties : VkPhysicalDeviceMemoryProperties) (requested : Nat)
    (drv : ImageDriver) (imageRes memoryRes : Res)
    (hfail : (createImageAndMemory device pMemoryProperties requested drv imageRes
      memoryRes).result ≠ VK_SUCCESS) :
    (createImageAndMemory device pMemoryProperties requested drv imageRes memoryRes).image
      = none ∧
    (createImageAndMemory device pMemoryProperties requested drv imageRes memoryRes).imageMemory
      = none := by
  revert hfail
  unfold createImageAndMemory createImageAndMemory.finish
  dsimp only
  repeat' split
  all_goals first
    | exact fun _ => ⟨rfl, rfl⟩
    | (intro hfail; rename_i hok; exact absurd (not_not.mp hok).symm hfail)

/-- C4, amended: in every run of `renderImage` no call of the cleanup section
releases a null handle; before the cleanup section the only releases of a null
handle are `vkDestroyImage` and `vkFreeMemory`, the unconditional failure
cleanup of `createImageAndMemory`. After each destruction the handle variable
is reset: at the `return` of `renderImage` each of its handle locals holds the
null handle, `physicalDevice` included (a local whose declaration a `goto`
jumped over is never read, the model shows it as null); the local `fence` of
`submitCommandBuffer` holds the null handle when that function returns; and a
failed `createImageAndMemory` hands back two null handles. -/
theorem renderImage_null_releases (env : Env) (width height : Nat) :
    (∀ c ∈ (renderImage env width height).cleanup, c.releasesNull = false) ∧
    (∀ c ∈ (renderImage env width height).calls, c.releasesNull = true →
      c.fn = .vkDestroyImage ∨ c.fn = .vkFreeMemory) ∧
    (∀ x ∈ (renderImage env width height).v.handles, x = none) ∧
    (renderImage env width height).v.physicalDevice = none ∧
    (∀ device drv fenceRes, submitCommandBuffer.fence device drv fenceRes = none) ∧
    (∀ device pMemoryProperties requested drv imageRes memoryRes,
      (createImageAndMemory device pMemoryProperties requested drv imageRes memoryRes).result
        ≠ VK_SUCCESS →
      (createImageAndMemory device pMemoryProperties requested drv imageRes memoryRes).image
        = none ∧
      (createImageAndMemory device pMemoryProperties requested drv imageRes
        memoryRes).imageMemory = none) := by
  obtain ⟨e, he, _, hk, hc, hv⟩ := renderImage_cases env width height
  have key := exits_null e he
  rw [← hk, ← hc, ← hv, any_skeleton _ structural_releasesNull_other] at key
  refine ⟨key.1, ?_, key.2.2, renderImage_physicalDevice_null env width height,
    submitCommandBuffer_fence_null, createImageAndMemory_failed_null⟩
  intro c hmem hnull
  have h := key.2.1
  rw [List.any_eq_false] at h
  have := h c hmem
  simp only [hnull, Bool.true_and, Bool.not_eq_true, Bool.not_eq_false', Bool.or_eq_true,
    beq_iff_eq] at this
  simpa using this

/-- C5, counterexample: when the `vkQueueWaitIdle` after the copy reports a
lost device, `renderImage` discards that result and still returns a buffer:
the data pointer is non-null although a GPU call failed. -/
theorem renderImage_data_despite_failed_call :
    ¬ ((renderImage envWaitFails 4 4).imageContext.data ≠ none ↔
        ((∀ c ∈ (renderImage envWaitFails 4 4).trace, c.ret = VK_SUCCESS) ∧
          envWaitFails.mallocSucceeds = true)) := by
  decide!

/-- C5, amended: `renderImage` returns a non-null data pointer if and only if
every check it makes passes (`Env.checksPass`: the Vulkan calls whose result it
tests, the search for a GPU, for a queue family and for a memory type of each
image, and `malloc`); the results of `vkWaitForFences` and `vkQueueWaitIdle`
play no part. Whenever the data pointer is null, width, height, bytesPerRow
and colorPixelFormat are zero. -/
theorem renderImage_data_iff_checks_pass (env : Env) (width height : Nat) :
    ((renderImage env width height).imageContext.data ≠ none ↔ env.checksPass) ∧
    ((renderImage env width height).imageContext.data = none →
      (renderImage env width height).imageContext.width = 0 ∧
      (renderImage env width height).imageContext.height = 0 ∧
      (renderImage env width height).imageContext.bytesPerRow = 0 ∧
      (renderImage env width height).imageContext.colorPixelFormat = 0) := by
  rcases renderImage_imageContext env width height with ⟨hp, hc⟩ | ⟨hp, hc⟩
  · rw [hc]; simp [hp]
  · rw [hc]; simp [hp]

/-- C7: on a successful `renderImage(width, height)`, with the device
reporting `(layoutOffset, layoutRowPitch)` for the staging image and `mapped`
the bytes behind the mapped pointer, the returned context has the width and
height of the call, `bytesPerRow` equal to the reported row pitch, the colour
format `VK_FORMAT_R8G8B8A8_UNORM`, and a buffer of `height × rowPitch` bytes
with `data[i] = mapped[offset + i]` for every `i < height × rowPitch`. The
byte count is taken to fit `size_t`, as it does for every image that fits in
memory. -/
theorem renderImage_copies_mapped_rows (env : Env) (width height : Nat)
    (hok : (renderImage env width height).imageContext.data ≠ none)
    (hfit : height * env.layoutRowPitch < 2 ^ 64) :
    (renderImage env width height).imageContext.width = width ∧
    (renderImage env width height).imageContext.height = height ∧
    (renderImage env width height).imageContext.bytesPerRow = env.layoutRowPitch ∧
    (renderImage env width height).imageContext.colorPixelFormat = VK_FORMAT_R8G8B8A8_UNORM ∧
    ∃ data, (renderImage env width height).imageContext.data = some data ∧
      data.length = height * env.layoutRowPitch ∧
      ∀ i, i < height * env.layoutRowPitch →
        data[i]? = some (env.mapped (env.layoutOffset + i)) := by
  rcases renderImage_imageContext env width height with ⟨_, hc⟩ | ⟨_, hc⟩
  · rw [hc]
    have hm : height * env.layoutRowPitch % 2 ^ 64 = height * env.layoutRowPitch :=
      Nat.mod_eq_of_lt hfit
    refine ⟨rfl, rfl, rfl, rfl, _, rfl, ?_, ?_⟩
    · rw [hm, List.length_map, List.length_range]
    · intro i hi
      rw [hm, List.getElem?_map, List.getElem?_range hi]
      rfl
  · rw [hc] at hok
    exact absurd rfl hok

/-- C7, witness: `envOk`, width 4, height 2. -/
theorem renderImage_copies_mapped_rows_witness :
    (renderImage envOk 4 2).imageContext.data ≠ none ∧ 2 * envOk.layoutRowPitch < 2 ^ 64 ∧
    (renderImage envOk 4 2).imageContext.width = 4 ∧
    (renderImage envOk 4 2).imageContext.height = 2 ∧
    (renderImage envOk 4 2).imageContext.bytesPerRow = 16 ∧
    (renderImage envOk 4 2).imageContext.colorPixelFormat = 37 := by
  have hok : (renderImage envOk 4 2).imageContext.data ≠ none := by decide!
  have hfit : 2 * envOk.layoutRowPitch < 2 ^ 64 := by decide
  have h := renderImage_copies_mapped_rows envOk 4 2 hok hfit
  exact ⟨hok, hfit, h.1, h.2.1, h.2.2.1, h.2.2.2.1⟩

/-- C8: for a table with `memoryTypeCount ≤ 32`, any mask and any requested
properties, `findMemoryTypeIndex` returns `VK_SUCCESS` with index `i` if and
only if `i` is the smallest index below `memoryTypeCount` whose bit is set in
the mask and whose `propertyFlags & requested` equals `requested`; it returns
`VK_ERROR_FEATURE_NOT_PRESENT` with index 0 if and only if no index below
`memoryTypeCount` is such. -/
theorem findMemoryTypeIndex_first_suitable (mp : VkPhysicalDeviceMemoryProperties)
    (bits requested : Nat) (hcount : mp.memoryTypeCount ≤ 32) :
    (∀ i, findMemoryTypeIndex mp bits requested = (VK_SUCCESS, i) ↔
      (i < mp.memoryTypeCount ∧ suitable mp bits requested i ∧
        ∀ j, j < i → ¬ suitable mp bits requested j)) ∧
    (findMemoryTypeIndex mp bits requested = (VK_ERROR_FEATURE_NOT_PRESENT, 0) ↔
      ∀ i, i < mp.memoryTypeCount → ¬ suitable mp bits requested i) :=
  findMemoryTypeIndex_spec mp bits requested hcount

/-- C8, witness: the table of `gpu0`, mask 3, host-visible and host-coherent. -/
theorem findMemoryTypeIndex_first_suitable_witness :
    gpu0.memoryProperties.memoryTypeCount ≤ 32 ∧
    (∀ i, findMemoryTypeIndex gpu0.memoryProperties 3 6 = (VK_SUCCESS, i) ↔
      (i < gpu0.memoryProperties.memoryTypeCount ∧ suitable gpu0.memoryProperties 3 6 i ∧
        ∀ j, j < i → ¬ suitable gpu0.memoryProperties 3 6 j)) ∧
    (findMemoryTypeIndex gpu0.memoryProperties 3 6 = (VK_ERROR_FEATURE_NOT_PRESENT, 0) ↔
      ∀ i, i < gpu0.memoryProperties.memoryTypeCount → ¬ suitable gpu0.memoryProperties 3 6 i) :=
  ⟨by decide, findMemoryTypeIndex_first_suitable gpu0.memoryProperties 3 6 (by decide)⟩

/-- C9, counterexample: asked for the host-visible property on a table whose
only type has exactly that property, `findMemoryTypeIndex` succeeds with index
0, whose flags equal the requested set: they are no strict superset of it. -/
theorem findMemoryTypeIndex_selects_equal_flags :
    ¬ (∀ i, findMemoryTypeIndex hostVisibleOnly 1 VK_MEMORY_PROPERTY_HOST_VISIBLE_BIT
          = (VK_SUCCESS, i) →
        ((hostVisibleOnly.memoryTypes.getD i default).propertyFlags
            &&& VK_MEMORY_PROPERTY_HOST_VISIBLE_BIT = VK_MEMORY_PROPERTY_HOST_VISIBLE_BIT ∧
         (hostVisibleOnly.memoryTypes.getD i default).propertyFlags
            ≠ VK_MEMORY_PROPERTY_HOST_VISIBLE_BIT)) := by
  intro h
  exact (h 0 (by decide)).2 (by decide)

/-- C9, amended: for a table with `memoryTypeCount ≤ 32`, whenever
`findMemoryTypeIndex` succeeds the selected index is the lowest-numbered bit
set in the mask, below `memoryTypeCount`, whose type has flags that contain
every requested flag; the flags may equal the requested set: a type whose bit
is set and whose flags are exactly the requested ones is selected unless a
lower index already is. -/
theorem findMemoryTypeIndex_selects_lowest_superset (mp : VkPhysicalDeviceMemoryProperties)
    (bits requested : Nat) (hcount : mp.memoryTypeCount ≤ 32) :
    (∀ i, findMemoryTypeIndex mp bits requested = (VK_SUCCESS, i) →
      i < mp.memoryTypeCount ∧ bits.testBit i = true ∧
      (mp.memoryTypes.getD i default).propertyFlags &&& requested = requested ∧
      ∀ j, j < i → ¬ (bits.testBit j = true ∧
        (mp.memoryTypes.getD j default).propertyFlags &&& requested = requested)) ∧
    (∀ i, i < mp.memoryTypeCount → bits.testBit i = true →
      (mp.memoryTypes.getD i default).propertyFlags = requested →
      ∃ j, j ≤ i ∧ findMemoryTypeIndex mp bits requested = (VK_SUCCESS, j)) := by
  obtain ⟨h1, h2⟩ := findMemoryTypeIndex_spec mp bits requested hcount
  constructor
  · intro i hi
    obtain ⟨a, b, c⟩ := (h1 i).mp hi
    exact ⟨a, b.1, b.2, c⟩
  · intro i hi hbit hflags
    have hs : suitable mp bits requested i := ⟨hbit, by rw [hflags, Nat.and_self]⟩
    have hex : ∃ k, k < mp.memoryTypeCount ∧ suitable mp bits requested k := ⟨i, hi, hs⟩
    classical
    refine ⟨Nat.find hex, Nat.find_min' hex ⟨hi, hs⟩, ?_⟩
    rw [h1]
    refine ⟨(Nat.find_spec hex).1, (Nat.find_spec hex).2, ?_⟩
    intro j hj hsj
    exact Nat.find_min hex hj ⟨lt_trans hj (Nat.find_spec hex).1, hsj⟩

/-- C9, witness: the table `hostVisibleOnly`, mask 1, host-visible. -/
theorem findMemoryTypeIndex_selects_lowest_superset_witness :
    hostVisibleOnly.memoryTypeCount ≤ 32 ∧
    findMemoryTypeIndex hostVisibleOnly 1 VK_MEMORY_PROPERTY_HOST_VISIBLE_BIT
      = (VK_SUCCESS, 0) ∧
    (hostVisibleOnly.memoryTypes.getD 0 default).propertyFlags
      = VK_MEMORY_PROPERTY_HOST_VISIBLE_BIT := by
  refine ⟨by decide, ?_, by decide⟩
  obtain ⟨j, hj, hf⟩ := (findMemoryTypeIndex_selects_lowest_superset hostVisibleOnly 1
    VK_MEMORY_PROPERTY_HOST_VISIBLE_BIT (by decide)).2 0 (by decide) (by decide) (by decide)
  have : j = 0 := by omega
  rw [this] at hf
  exact hf

/-- C10: for every list of enumerated physical devices, `findFirstGPU`
returns `VK_SUCCESS` and the device at the smallest index whose type is
integrated GPU or discrete GPU, when there is one; it returns
`VK_ERROR_FEATURE_NOT_PRESENT` and the null device if and only if no device of
the list has one of the two types (so also for the empty list). -/
theorem findFirstGPU_first_match (inst : Handle) (physicalDevices : List PhysicalDevice) :
    (∀ i, ∀ hi : i < physicalDevices.length, physicalDevices[i].isGPU →
      (∀ j, ∀ hj : j < physicalDevices.length, j < i → ¬ physicalDevices[j].isGPU) →
      (findFirstGPU inst physicalDevices).result = VK_SUCCESS ∧
      (findFirstGPU inst physicalDevices).physicalDevice = some physicalDevices[i]) ∧
    (((findFirstGPU inst physicalDevices).result = VK_ERROR_FEATURE_NOT_PRESENT ∧
      (findFirstGPU inst physicalDevices).physicalDevice = none) ↔
      ∀ d ∈ physicalDevices, ¬ d.isGPU) := by
  unfold findFirstGPU
  rcases findFirstGPU_loop_spec physicalDevices physicalDevices.length 0 _ (by omega) with
    ⟨i, hi, _, h2, h3, h4, h5⟩ | ⟨h1, h2, h3⟩
  · constructor
    · intro k hk hgk hmin
      have hik : i = k := by
        rcases Nat.lt_trichotomy i k with h | h | h
        · exact absurd h2 (hmin i hi h)
        · exact h
        · exact absurd hgk (h3 k hk (Nat.zero_le _) h)
      subst hik
      exact ⟨h4, h5⟩
    · constructor
      · rintro ⟨hr, _⟩
        rw [h4] at hr
        simp [VK_SUCCESS, VK_ERROR_FEATURE_NOT_PRESENT] at hr
      · intro hall
        exact absurd h2 (hall _ (List.getElem_mem hi))
  · constructor
    · intro k hk hgk _
      exact absurd hgk (h1 k hk (Nat.zero_le _))
    · constructor
      · intro _ d hd
        obtain ⟨k, hk, rfl⟩ := List.getElem_of_mem hd
        exact h1 k hk (Nat.zero_le _)
      · intro _
        exact ⟨h2, h3⟩

/-! ## `findGraphicsAndComputeQueueFamily` -/

theorem IS_FLAG_SET_iff (val flag : Nat) : IS_FLAG_SET val flag = true ↔ val &&& flag ≠ 0 := by
  unfold IS_FLAG_SET
  simp only [bne_iff_ne, ne_eq]
  exact ⟨fun h h1 => h h1.symm, fun h h1 => h h1.symm⟩

/-- The loop of `findGraphicsAndComputeQueueFamily` from index `ii` on, with
enough fuel to reach the end of the list: either it stops at the first family
at or after `ii` with both capabilities, or there is none and it fails. -/
theorem findGraphicsAndComputeQueueFamily_loop_spec (fl : List Nat) (n ii : Nat)
    (hn : ii + n = fl.length) :
    (∃ i, ∃ hi : i < fl.length, ii ≤ i ∧ graphicsAndCompute fl[i] ∧
        (∀ j, ∀ hj : j < fl.length, ii ≤ j → j < i → ¬ graphicsAndCompute fl[j]) ∧
        findGraphicsAndComputeQueueFamily.loop fl n ii = (VK_SUCCESS, i)) ∨
    ((∀ j, ∀ hj : j < fl.length, ii ≤ j → ¬ graphicsAndCompute fl[j]) ∧
        findGraphicsAndComputeQueueFamily.loop fl n ii = (VK_ERROR_FEATURE_NOT_PRESENT, 0)) := by
  induction n generalizing ii with
  | zero =>
    right
    refine ⟨fun j hj hij => absurd hj (by omega), rfl⟩
  | succ n ih =>
    have hii : ii < fl.length := by omega
    unfold findGraphicsAndComputeQueueFamily.loop
    rw [List.getElem?_eq_getElem hii]
    dsimp only
    by_cases hg : graphicsAndCompute fl[ii]
    · left
      refine ⟨ii, hii, le_refl _, hg, fun j hj h1 h2 => absurd h1 (by omega), ?_⟩
      have h1 := (IS_FLAG_SET_iff _ _).mpr hg.1
      have h2 := (IS_FLAG_SET_iff _ _).mpr hg.2
      simp [h1, h2]
    · have hc : ¬ ((IS_FLAG_SET fl[ii] VK_QUEUE_GRAPHICS_BIT &&
          IS_FLAG_SET fl[ii] VK_QUEUE_COMPUTE_BIT) = true) := by
        rw [Bool.and_eq_true, IS_FLAG_SET_iff, IS_FLAG_SET_iff]
        exact hg
      rw [if_neg hc]
      rcases ih (ii + 1) (by omega) with ⟨i, hi, h1, h2, h3, h4⟩ | ⟨h1, h2⟩
      · left
        refine ⟨i, hi, by omega, h2, ?_, h4⟩
        intro j hj hj1 hj2
        by_cases hji : j = ii
        · subst hji; exact hg
        · exact h3 j hj (by omega) hj2
      · right
        refine ⟨?_, h2⟩
        intro j hj hj1
        by_cases hji : j = ii
        · subst hji; exact hg
        · exact h1 j hj (by omega)

/-- C11: for every list of queue family properties the device reports,
`findGraphicsAndComputeQueueFamily` returns `VK_SUCCESS` with index `i` if and
only if `i` is the smallest index whose `queueFlags` contain both the graphics
bit and the compute bit; it returns `VK_ERROR_FEATURE_NOT_PRESENT` with index 0
if and only if no family has both bits; so the family it selects always has
the compute bit next to the graphics bit. -/
theorem findGraphicsAndComputeQueueFamily_first_match (device : Option PhysicalDevice) :
    (∀ i, ((findGraphicsAndComputeQueueFamily device).result = VK_SUCCESS ∧
          (findGraphicsAndComputeQueueFamily device).queueFamilyIndex = i) ↔
        ∃ hi : i < (vkGetPhysicalDeviceQueueFamilyProperties device).length,
          graphicsAndCompute (vkGetPhysicalDeviceQueueFamilyProperties device)[i] ∧
          ∀ j, ∀ hj : j < (vkGetPhysicalDeviceQueueFamilyProperties device).length, j < i →
            ¬ graphicsAndCompute (vkGetPhysicalDeviceQueueFamilyProperties device)[j]) ∧
    (((findGraphicsAndComputeQueueFamily device).result = VK_ERROR_FEATURE_NOT_PRESENT ∧
        (findGraphicsAndComputeQueueFamily device).queueFamilyIndex = 0) ↔
      ∀ flags ∈ vkGetPhysicalDeviceQueueFamilyProperties device, ¬ graphicsAndCompute flags) ∧
    ((findGraphicsAndComputeQueueFamily device).result = VK_SUCCESS →
      ∀ flags, (vkGetPhysicalDeviceQueueFamilyProperties device)[
          (findGraphicsAndComputeQueueFamily device).queueFamilyIndex]? = some flags →
        flags &&& VK_QUEUE_COMPUTE_BIT ≠ 0) := by
  unfold findGraphicsAndComputeQueueFamily
  dsimp only
  generalize vkGetPhysicalDeviceQueueFamilyProperties device = fl
  rcases findGraphicsAndComputeQueueFamily_loop_spec fl fl.length 0 (by omega) with
    ⟨i, hi, _, h2, h3, h4⟩ | ⟨h1, h2⟩
  · rw [h4]
    refine ⟨?_, ?_, ?_⟩
    · intro k
      constructor
      · rintro ⟨_, hk⟩
        dsimp only at hk
        subst hk
        exact ⟨hi, h2, fun j hj hji => h3 j hj (Nat.zero_le _) hji⟩
      · rintro ⟨hk, hgk, hmin⟩
        refine ⟨rfl, ?_⟩
        rcases Nat.lt_trichotomy i k with h | h | h
        · exact absurd h2 (hmin i hi h)
        · exact h
        · exact absurd hgk (h3 k hk (Nat.zero_le _) h)
    · constructor
      · rintro ⟨hr, _⟩
        simp [VK_SUCCESS, VK_ERROR_FEATURE_NOT_PRESENT] at hr
      · intro hall
        exact absurd h2 (hall _ (List.getElem_mem hi))
    · intro _ flags hf
      dsimp only at hf
      rw [List.getElem?_eq_getElem hi] at hf
      cases hf
      exact h2.2
  · rw [h2]
    refine ⟨?_, ?_, ?_⟩
    · intro k
      constructor
      · rintro ⟨hr, _⟩
        simp [VK_SUCCESS, VK_ERROR_FEATURE_NOT_PRESENT] at hr
      · rintro ⟨hk, hgk, _⟩
        exact absurd hgk (h1 k hk (Nat.zero_le _))
    · constructor
      · intro _ flags hf
        obtain ⟨k, hk, rfl⟩ := List.getElem_of_mem hf
        exact h1 k hk (Nat.zero_le _)
      · intro _
        exact ⟨rfl, rfl⟩
    · intro hr
      simp [VK_SUCCESS, VK_ERROR_FEATURE_NOT_PRESENT] at hr

/-! ## `createImageAndMemory` and `submitCommandBuffer` -/

/-- C12: `createImageAndMemory` is atomic. It returns `VK_SUCCESS` exactly when
`vkCreateImage`, `findMemoryTypeIndex`, `vkAllocateMemory` and
`vkBindImageMemory` all succeed, and then it hands back the created image and
the allocated memory and has issued no destroy or free call. When a step fails
it returns the code of that step and writes the null handle to `*pImage` and
`*pImageMemory`; the image, if it was created, has been destroyed, and the
memory, if it was allocated, has been freed: the life of each of the two
objects in the calls of the function is empty or one creation followed by one
release. -/
theorem createImageAndMemory_atomic (device : Handle)
    (pMemoryProperties : VkPhysicalDeviceMemoryProperties) (requested : Nat)
    (drv : ImageDriver) (imageRes memoryRes : Res) (hne : imageRes ≠ memoryRes) :
    ((createImageAndMemory device pMemoryProperties requested drv imageRes memoryRes).result
        = VK_SUCCESS ↔
      (drv.vkCreateImage = VK_SUCCESS ∧
       (findMemoryTypeIndex pMemoryProperties drv.memoryTypeBits requested).1 = VK_SUCCESS ∧
       drv.vkAllocateMemory = VK_SUCCESS ∧ drv.vkBindImageMemory = VK_SUCCESS)) ∧
    ((createImageAndMemory device pMemoryProperties requested drv imageRes memoryRes).result
        = VK_SUCCESS →
      (createImageAndMemory device pMemoryProperties requested drv imageRes memoryRes).image
        = some imageRes ∧
      (createImageAndMemory device pMemoryProperties requested drv imageRes memoryRes).imageMemory
        = some memoryRes ∧
      lifeline imageRes
        (createImageAndMemory device pMemoryProperties requested drv imageRes memoryRes).calls
        = [true] ∧
      lifeline memoryRes
        (createImageAndMemory device pMemoryProperties requested drv imageRes memoryRes).calls
        = [true] ∧
      ∀ c ∈ (createImageAndMemory device pMemoryProperties requested drv imageRes
          memoryRes).calls, c.fn.isDestroy = false) ∧
    ((createImageAndMemory device pMemoryProperties requested drv imageRes memoryRes).result
        ≠ VK_SUCCESS →
      (createImageAndMemory device pMemoryProperties requested drv imageRes memoryRes).image
        = none ∧
      (createImageAndMemory device pMemoryProperties requested drv imageRes memoryRes).imageMemory
        = none ∧
      (lifeline imageRes
          (createImageAndMemory device pMemoryProperties requested drv imageRes memoryRes).calls
          = [true, false] ∨
        (drv.vkCreateImage ≠ VK_SUCCESS ∧ lifeline imageRes
          (createImageAndMemory device pMemoryProperties requested drv imageRes memoryRes).calls
          = [])) ∧
      (lifeline memoryRes
          (createImageAndMemory device pMemoryProperties requested drv imageRes memoryRes).calls
          = [true, false] ∨
        (¬ (drv.vkCreateImage = VK_SUCCESS ∧
            (findMemoryTypeIndex pMemoryProperties drv.memoryTypeBits requested).1 = VK_SUCCESS ∧
            drv.vkAllocateMemory = VK_SUCCESS) ∧
          lifeline memoryRes
            (createImageAndMemory device pMemoryProperties requested drv imageRes
              memoryRes).calls = []))) ∧
    (drv.vkCreateImage ≠ VK_SUCCESS →
      (createImageAndMemory device pMemoryProperties requested drv imageRes memoryRes).result
        = drv.vkCreateImage) ∧
    (drv.vkCreateImage = VK_SUCCESS →
      (findMemoryTypeIndex pMemoryProperties drv.memoryTypeBits requested).1 ≠ VK_SUCCESS →
      (createImageAndMemory device pMemoryProperties requested drv imageRes memoryRes).result
        = (findMemoryTypeIndex pMemoryProperties drv.memoryTypeBits requested).1) ∧
    (drv.vkCreateImage = VK_SUCCESS →
      (findMemoryTypeIndex pMemoryProperties drv.memoryTypeBits requested).1 = VK_SUCCESS →
      drv.vkAllocateMemory ≠ VK_SUCCESS →
      (createImageAndMemory device pMemoryProperties requested drv imageRes memoryRes).result
        = drv.vkAllocateMemory) ∧
    (drv.vkCreateImage = VK_SUCCESS →
      (findMemoryTypeIndex pMemoryProperties drv.memoryTypeBits requested).1 = VK_SUCCESS →
      drv.vkAllocateMemory = VK_SUCCESS → drv.vkBindImageMemory ≠ VK_SUCCESS →
      (createImageAndMemory device pMemoryProperties requested drv imageRes memoryRes).result
        = drv.vkBindImageMemory) := by
  have hne' : memoryRes ≠ imageRes := fun h => hne h.symm
  unfold createImageAndMemory createImageAndMemory.finish
  dsimp only
  generalize (findMemoryTypeIndex pMemoryProperties drv.memoryTypeBits requested).1 = found
  by_cases h1 : drv.vkCreateImage = VK_SUCCESS
  · by_cases h2 : found = VK_SUCCESS
    · by_cases h3 : drv.vkAllocateMemory = VK_SUCCESS
      · by_cases h4 : drv.vkBindImageMemory = VK_SUCCESS
        · simp [h1, h2, h3, h4, vk_ne, created, issued, checked, lifeline, Call.creates,
            Call.releases, VkFn.isCreate, VkFn.isDestroy, hne, hne']
        · simp [h1, h2, h3, h4, vk_ne, created, issued, checked, lifeline, Call.creates,
            Call.releases, VkFn.isCreate, VkFn.isDestroy, hne, hne']
      · simp [h1, h2, h3, vk_ne, created, issued, checked, lifeline, Call.creates,
          Call.releases, VkFn.isCreate, VkFn.isDestroy, hne, hne']
    · simp [h1, h2, vk_ne, created, issued, checked, lifeline, Call.creates,
        Call.releases, VkFn.isCreate, VkFn.isDestroy, hne, hne']
  · simp [h1, vk_ne, created, issued, checked, lifeline, Call.creates,
      Call.releases, VkFn.isCreate, VkFn.isDestroy, hne, hne']

/-- C12, witness: the render target of `renderImage` on the device `gpu0`,
with a driver for which every step succeeds. -/
theorem createImageAndMemory_atomic_witness :
    Res.image ≠ Res.imageMemory ∧
    (createImageAndMemory (some .device) gpu0.memoryProperties
      VK_MEMORY_PROPERTY_DEVICE_LOCAL_BIT { memoryTypeBits := 3 } .image .imageMemory).image
      = some .image ∧
    (createImageAndMemory (some .device) gpu0.memoryProperties
      VK_MEMORY_PROPERTY_DEVICE_LOCAL_BIT { memoryTypeBits := 3 } .image .imageMemory).imageMemory
      = some .imageMemory :=
  have h := createImageAndMemory_atomic (some .device) gpu0.memoryProperties
    VK_MEMORY_PROPERTY_DEVICE_LOCAL_BIT { memoryTypeBits := 3 } .image .imageMemory (by decide)
  have hs := h.2.1 (h.1.mpr ⟨rfl, by decide, rfl, rfl⟩)
  ⟨by decide, hs.1, hs.2.1⟩

/-- C15: `submitCommandBuffer`. When `vkCreateFence` fails it returns that
code and its only call is the failed `vkCreateFence`: nothing is submitted.
Otherwise it submits the command buffer with the fence, calls
`vkWaitForFences` on the fence, with the timeout `UINT64_MAX`, if and only if
`vkQueueSubmit` succeeded, destroys the fence once, as its last call, and
returns the result of `vkQueueSubmit`. The result of `vkWaitForFences` has no
part in the returned code. -/
theorem submitCommandBuffer_spec (device queue commandBuffer : Handle) (drv : SubmitDriver)
    (fenceRes : Res) :
    (drv.vkCreateFence ≠ VK_SUCCESS →
      (submitCommandBuffer device queue commandBuffer drv fenceRes).result = drv.vkCreateFence ∧
      (submitCommandBuffer device queue commandBuffer drv fenceRes).calls =
        [created .vkCreateFence [device] drv.vkCreateFence fenceRes] ∧
      submitCommandBuffer.wait drv = none) ∧
    (drv.vkCreateFence = VK_SUCCESS →
      (submitCommandBuffer device queue commandBuffer drv fenceRes).result = drv.vkQueueSubmit ∧
      (submitCommandBuffer device queue commandBuffer drv fenceRes).calls =
        [ created .vkCreateFence [device] VK_SUCCESS fenceRes,
          checked .vkQueueSubmit [queue, commandBuffer, some fenceRes] drv.vkQueueSubmit ] ++
        (if drv.vkQueueSubmit = VK_SUCCESS then
          [checked .vkWaitForFences [device, some fenceRes] drv.vkWaitForFences] else []) ++
        [ issued .vkDestroyFence [device, some fenceRes] ] ∧
      ((∃ c ∈ (submitCommandBuffer device queue commandBuffer drv fenceRes).calls,
          c.fn = .vkWaitForFences) ↔ drv.vkQueueSubmit = VK_SUCCESS) ∧
      (submitCommandBuffer.wait drv =
          some { fenceCount := 1, waitAll := true, timeout := 2 ^ 64 - 1 } ↔
        drv.vkQueueSubmit = VK_SUCCESS) ∧
      (submitCommandBuffer.wait drv = none ↔ drv.vkQueueSubmit ≠ VK_SUCCESS) ∧
      lifeline fenceRes (submitCommandBuffer device queue commandBuffer drv fenceRes).calls
        = [true, false] ∧
      (submitCommandBuffer device queue commandBuffer drv fenceRes).calls.getLast?
        = some (issued .vkDestroyFence [device, some fenceRes])) ∧
    (∀ waitResult : VkResult,
      (submitCommandBuffer device queue commandBuffer
        { drv with vkWaitForFences := waitResult } fenceRes).result =
      (submitCommandBuffer device queue commandBuffer drv fenceRes).result) := by
  refine ⟨?_, ?_, ?_⟩
  · intro h
    simp [submitCommandBuffer, submitCommandBuffer.wait, vk_eq, h]
  · intro h
    by_cases hs : drv.vkQueueSubmit = VK_SUCCESS
    · simp [submitCommandBuffer, submitCommandBuffer.wait, vk_eq, h, hs, created, checked,
        issued, lifeline, Call.creates, Call.releases, VkFn.isCreate, VkFn.isDestroy,
        UINT64_MAX]
    · simp [submitCommandBuffer, submitCommandBuffer.wait, vk_eq, h, hs, created, checked,
        issued, lifeline, Call.creates, Call.releases, VkFn.isCreate, VkFn.isDestroy]
  · intro w
    simp only [submitCommandBuffer]
    split <;> rfl

/-! ## `disposeImageContext` -/

/-- C13: for every `ImageContext` `c`, `disposeImageContext` leaves width,
height, bytesPerRow and colorPixelFormat zero and data null, and releases the
buffer of `c` once (nothing when `c` has none); applied to the context it
leaves, it releases no buffer and leaves the context as it is, so disposing
twice gives the same context as disposing once. -/
theorem disposeImageContext_idempotent (c : ImageContext) :
    (disposeImageContext c).ctx.width = 0 ∧
    (disposeImageContext c).ctx.height = 0 ∧
    (disposeImageContext c).ctx.bytesPerRow = 0 ∧
    (disposeImageContext c).ctx.colorPixelFormat = 0 ∧
    (disposeImageContext c).ctx.data = none ∧
    (∀ buf, c.data = some buf → released (disposeImageContext c).freeCalls = [buf]) ∧
    (c.data = none → released (disposeImageContext c).freeCalls = []) ∧
    released (disposeImageContext (disposeImageContext c).ctx).freeCalls = [] ∧
    (disposeImageContext (disposeImageContext c).ctx).ctx = (disposeImageContext c).ctx := by
  refine ⟨rfl, rfl, rfl, rfl, rfl, ?_, ?_, rfl, rfl⟩
  · intro buf h
    simp [disposeImageContext, released, h]
  · intro h
    simp [disposeImageContext, released, h]

/-! ## `saveRGBATIFFFile` and `main` -/

/-- The `for` loop of `saveRGBATIFFFile`, started at row `yy` with the pointer
`row` at `yy * bytesPerRow`: it writes the rows `yy, yy + 1, ...` one after the
other, each as `scanlineAt` gives it, and stops after the first row whose write
fails or after the last row. -/
theorem saveRGBATIFFFile_loop_spec (tiff : TiffDriver) (imageData : Nat → Nat)
    (bytesPerRow scanlineSize rowCopySize : Nat) (n yy : Nat) (scanlineBuffer : Nat → Nat)
    (writeResult : Int) (calls : List TiffCall)
    (hbuf : ∀ j, rowCopySize ≤ j → scanlineBuffer j = tiff.uninitialised j) :
    ∃ m, m ≤ n ∧
      (saveRGBATIFFFile.loop tiff imageData bytesPerRow scanlineSize rowCopySize
        n yy (yy * bytesPerRow) scanlineBuffer writeResult calls).2 =
        calls ++ (List.range m).map (fun k => TiffCall.TIFFWriteScanline
          (scanlineAt tiff imageData bytesPerRow scanlineSize rowCopySize (yy + k)) (yy + k) 0) ∧
      (∀ k, k + 1 < m → 0 ≤ tiff.TIFFWriteScanline (yy + k)) ∧
      (m < n → 0 < m ∧ tiff.TIFFWriteScanline (yy + (m - 1)) < 0) ∧
      (saveRGBATIFFFile.loop tiff imageData bytesPerRow scanlineSize rowCopySize
        n yy (yy * bytesPerRow) scanlineBuffer writeResult calls).1 =
        (if m = 0 then writeResult else tiff.TIFFWriteScanline (yy + (m - 1))) := by
  induction n generalizing yy scanlineBuffer writeResult calls with
  | zero => exact ⟨0, le_refl _, by simp [saveRGBATIFFFile.loop], by simp, by simp,
      by simp [saveRGBATIFFFile.loop]⟩
  | succ n ih =>
    unfold saveRGBATIFFFile.loop
    dsimp only
    have hline : (List.range scanlineSize).map (fun j =>
        if j < rowCopySize then imageData (yy * bytesPerRow + j) else scanlineBuffer j) =
        scanlineAt tiff imageData bytesPerRow scanlineSize rowCopySize yy := by
      unfold scanlineAt
      apply List.map_congr_left
      intro j _
      by_cases hj : j < rowCopySize
      · simp [hj]
      · simp [hj, hbuf j (by omega)]
    rw [hline]
    by_cases hw : tiff.TIFFWriteScanline yy < 0
    · rw [if_pos hw]
      refine ⟨1, by omega, by simp [List.range_succ], by simp, fun _ => ⟨by omega, by simpa using hw⟩,
        by simp⟩
    · rw [if_neg hw]
      have hrow : yy * bytesPerRow + bytesPerRow = (yy + 1) * bytesPerRow := by ring
      rw [hrow]
      obtain ⟨m, hm, h1, h2, h3, h4⟩ := ih (yy + 1)
        (fun j => if j < rowCopySize then imageData (yy * bytesPerRow + j) else scanlineBuffer j)
        (tiff.TIFFWriteScanline yy)
        (calls ++ [TiffCall.TIFFWriteScanline
          (scanlineAt tiff imageData bytesPerRow scanlineSize rowCopySize yy) yy 0])
        (fun j hj => by simp [Nat.not_lt.mpr hj, hbuf j hj])
      refine ⟨m + 1, by omega, ?_, ?_, ?_, ?_⟩
      · rw [h1, List.range_succ_eq_map, List.map_cons, List.map_map, List.append_assoc]
        simp [Function.comp_def, Nat.add_assoc, Nat.add_comm 1]
      · intro k hk
        cases k with
        | zero => simpa using Int.not_lt.mp hw
        | succ k =>
          have := h2 k (by omega)
          simpa [Nat.add_assoc, Nat.add_comm 1] using this
      · intro hlt
        refine ⟨by omega, ?_⟩
        have := (h3 (by omega)).2
        have e : yy + (m + 1 - 1) = yy + 1 + (m - 1) := by omega
        rw [e]; exact this
      · rw [h4]
        by_cases hm0 : m = 0
        · simp [hm0]
        · have e : yy + 1 + (m - 1) = yy + m := by omega
          simp [hm0, e]

theorem scanlines_append (a b : List TiffCall) : scanlines (a ++ b) = scanlines a ++ scanlines b := by
  simp [scanlines]

/-- When the file opens and the scanline buffer is allocated, `saveRGBATIFFFile`
writes the rows `0, 1, ..., m - 1` for some `m ≤ height`, each as `scanlineAt`
gives it; every write but the last succeeded, and when `m < height` the last
one failed. The returned flag tells whether the last write succeeded. -/
theorem saveRGBATIFFFile_scanlines (tiff : TiffDriver) (filename : String)
    (imageData : Nat → Nat) (width height bytesPerRow : Nat)
    (hopen : tiff.TIFFOpen = true) (hbuf : tiff._TIFFmalloc = true) :
    ∃ m, m ≤ height ∧
      scanlines (saveRGBATIFFFile tiff filename imageData width height bytesPerRow).calls =
        (List.range m).map (fun k => (k, scanlineAt tiff imageData bytesPerRow
          (if 0 < tiff.TIFFScanlineSize then tiff.TIFFScanlineSize else bytesPerRow)
          (min (if 0 < tiff.TIFFScanlineSize then tiff.TIFFScanlineSize else bytesPerRow)
            bytesPerRow) k)) ∧
      (∀ k, k + 1 < m → 0 ≤ tiff.TIFFWriteScanline k) ∧
      (m < height → 0 < m ∧ tiff.TIFFWriteScanline (m - 1) < 0) ∧
      ((saveRGBATIFFFile tiff filename imageData width height bytesPerRow).result = true ↔
        0 < m ∧ 0 ≤ tiff.TIFFWriteScanline (m - 1)) := by
  have hmin : ∀ a b : Nat, (if a < b then a else b) = min a b := by
    intro a b
    by_cases h : a < b
    · simp [h, Nat.min_eq_left (Nat.le_of_lt h)]
    · simp [h, Nat.min_eq_right (Nat.not_lt.mp h)]
  unfold saveRGBATIFFFile
  simp only [hopen, hbuf, Bool.true_eq_false, ↓reduceIte, hmin]
  generalize (if 0 < tiff.TIFFScanlineSize then tiff.TIFFScanlineSize else bytesPerRow) = size
  obtain ⟨m, hm, h1, h2, h3, h4⟩ := saveRGBATIFFFile_loop_spec tiff imageData bytesPerRow size
    (min size bytesPerRow) height 0 tiff.uninitialised (-1)
    ([TiffCall.TIFFOpen filename "w"] ++
      [ .TIFFSetField TIFFTAG_IMAGEWIDTH [width],
        .TIFFSetField TIFFTAG_IMAGELENGTH [height],
        .TIFFSetField TIFFTAG_SAMPLESPERPIXEL [4],
        .TIFFSetField TIFFTAG_BITSPERSAMPLE [8],
        .TIFFSetField TIFFTAG_ORIENTATION [ORIENTATION_TOPLEFT],
        .TIFFSetField TIFFTAG_PLANARCONFIG [PLANARCONFIG_CONTIG],
        .TIFFSetField TIFFTAG_PHOTOMETRIC [PHOTOMETRIC_RGB],
        .TIFFSetField TIFFTAG_EXTRASAMPLES [1, EXTRASAMPLE_ASSOCALPHA],
        .TIFFDefaultStripSize ((4 * width) % 2 ^ 32),
        .TIFFSetField TIFFTAG_ROWSPERSTRIP [tiff.TIFFDefaultStripSize] ] ++
      [.TIFFScanlineSize] ++ [._TIFFmalloc size])
    (fun _ _ => rfl)
  rw [Nat.zero_mul] at h1 h4
  refine ⟨m, hm, ?_, ?_, ?_, ?_⟩
  · rw [h1]
    simp only [scanlines_append, List.filterMap_map]
    have hmap : ∀ (g : Nat → Nat × List Nat) (l : List Nat),
        l.filterMap (fun x => some (g x)) = l.map g := by
      intro g l
      induction l with
      | nil => rfl
      | cons a l ih => simp [List.filterMap_cons, ih]
    simp [scanlines, Function.comp_def, hmap]
  · intro k hk
    simpa using h2 k hk
  · intro hlt
    simpa using h3 hlt
  · rw [h4]
    by_cases hm0 : m = 0
    · simp [hm0]
    · simp [hm0, Nat.pos_of_ne_zero hm0]

/-- C18: when the file opens, the scanline buffer is allocated and the library
reports a positive scanline size `s`, `saveRGBATIFFFile` writes, for each row
`yy < height` that it reaches (the writes of the rows before it succeeded), a
scanline of `s` bytes at row `yy` whose first `min s bytesPerRow` bytes are the
bytes of the image from offset `yy * bytesPerRow` on. Every scanline it writes
is of this kind: the `i`-th write is for row `i` and starts at offset
`i * bytesPerRow`, whatever `bytesPerRow` is next to `width * 4`. -/
theorem saveRGBATIFFFile_rows (tiff : TiffDriver) (filename : String)
    (imageData : Nat → Nat) (width height bytesPerRow : Nat)
    (hopen : tiff.TIFFOpen = true) (hbuf : tiff._TIFFmalloc = true)
    (hs : 0 < tiff.TIFFScanlineSize) :
    (∀ yy, yy < height → (∀ k, k < yy → 0 ≤ tiff.TIFFWriteScanline k) →
      ∃ buf, (scanlines (saveRGBATIFFFile tiff filename imageData width height
          bytesPerRow).calls)[yy]? = some (yy, buf)) ∧
    (∀ i row buf, (scanlines (saveRGBATIFFFile tiff filename imageData width height
          bytesPerRow).calls)[i]? = some (row, buf) →
      row = i ∧ i < height ∧ buf.length = tiff.TIFFScanlineSize ∧
      ∀ j, j < min tiff.TIFFScanlineSize bytesPerRow →
        buf[j]? = some (imageData (i * bytesPerRow + j))) := by
  obtain ⟨m, hm, h1, h2, h3, _⟩ := saveRGBATIFFFile_scanlines tiff filename imageData width
    height bytesPerRow hopen hbuf
  rw [h1]
  simp only [hs, ↓reduceIte]
  constructor
  · intro yy hyy hprev
    have hlt : yy < m := by
      by_contra hge
      have hm' : m < height := by omega
      obtain ⟨hpos, hfail⟩ := h3 hm'
      have := hprev (m - 1) (by omega)
      omega
    exact ⟨_, by rw [List.getElem?_map, List.getElem?_range hlt]; rfl⟩
  · intro i row buf hget
    rw [List.getElem?_map] at hget
    have hi : i < m := by
      by_contra hge
      rw [List.getElem?_eq_none (by simpa using Nat.not_lt.mp hge)] at hget
      simp at hget
    rw [List.getElem?_range hi] at hget
    simp only [Option.map_some', Option.some.injEq, Prod.mk.injEq] at hget
    obtain ⟨hrow, hb⟩ := hget
    subst hb
    refine ⟨hrow.symm, by omega, by simp [scanlineAt], ?_⟩
    intro j hj
    have hjs : j < tiff.TIFFScanlineSize := lt_of_lt_of_le hj (Nat.min_le_left _ _)
    unfold scanlineAt
    have hjb : j < bytesPerRow := lt_of_lt_of_le hj (Nat.min_le_right _ _)
    rw [List.getElem?_map, List.getElem?_range hjs]
    simp [hjs, hjb]

/-- C18, witness: width 250, stride 1024, a scanline size of 1000 bytes and
three rows. -/
theorem saveRGBATIFFFile_rows_witness :
    (0 : Nat) < 1000 ∧
    ∀ i row buf, (scanlines (saveRGBATIFFFile { TIFFScanlineSize := 1000 } "output.tiff"
        (fun i => i % 256) 250 3 1024).calls)[i]? = some (row, buf) →
      row = i ∧ i < 3 ∧ buf.length = 1000 ∧
      ∀ j, j < min 1000 1024 → buf[j]? = some ((i * 1024 + j) % 256) :=
  ⟨by decide,
   (saveRGBATIFFFile_rows { TIFFScanlineSize := 1000 } "output.tiff" (fun i => i % 256) 250 3
    1024 rfl rfl (by decide)).2⟩

/-- C16: `main` returns 0 if and only if `renderImage` returned a context with
non-null data and `saveRGBATIFFFile` returned true. Otherwise it returns
`EXIT_FAILURE`, which is not 0, and prints exactly one line: "Failed to render
image" when the render gave no data, "Failed to save image file" when the save
failed; the two lines differ, and a run that returns 0 prints nothing. Whenever
the render gave data, `disposeImageContext` is called exactly once, whatever
the save returned, and never before the save. -/
theorem main_exit_code (env : Env) (tiff : TiffDriver) :
    ((main env tiff).exitCode = 0 ↔
      ∃ data, (renderImage env 1080 1080).imageContext.data = some data ∧
        (saveRGBATIFFFile tiff "output.tiff" (fun i => data.getD i 0)
          (renderImage env 1080 1080).imageContext.width
          (renderImage env 1080 1080).imageContext.height
          (renderImage env 1080 1080).imageContext.bytesPerRow).result = true) ∧
    ((main env tiff).exitCode = 0 ∨ (main env tiff).exitCode = EXIT_FAILURE) ∧
    EXIT_FAILURE ≠ 0 ∧
    ((main env tiff).exitCode = 0 → (main env tiff).stdout = []) ∧
    ((renderImage env 1080 1080).imageContext.data = none →
      (main env tiff).exitCode = EXIT_FAILURE ∧
      (main env tiff).stdout = ["Failed to render image"]) ∧
    (∀ data, (renderImage env 1080 1080).imageContext.data = some data →
      (saveRGBATIFFFile tiff "output.tiff" (fun i => data.getD i 0)
          (renderImage env 1080 1080).imageContext.width
          (renderImage env 1080 1080).imageContext.height
          (renderImage env 1080 1080).imageContext.bytesPerRow).result = false →
      (main env tiff).exitCode = EXIT_FAILURE ∧
      (main env tiff).stdout = ["Failed to save image file"]) ∧
    "Failed to render image" ≠ "Failed to save image file" ∧
    ((renderImage env 1080 1080).imageContext.data ≠ none →
      (main env tiff).events.count .disposeImageContext = 1 ∧
      (main env tiff).events.take 3 =
        [ .renderImage 1080 1080,
          .saveRGBATIFFFile "output.tiff" (renderImage env 1080 1080).imageContext.width
            (renderImage env 1080 1080).imageContext.height
            (renderImage env 1080 1080).imageContext.bytesPerRow,
          .disposeImageContext ]) := by
  unfold main
  dsimp only
  cases hd : (renderImage env 1080 1080).imageContext.data with
  | none =>
    simp [MainRun.stdout, EXIT_FAILURE, EXIT_SUCCESS]
  | some data =>
    dsimp only
    cases hsave : (saveRGBATIFFFile tiff "output.tiff" (fun i => data.getD i 0)
          (renderImage env 1080 1080).imageContext.width
          (renderImage env 1080 1080).imageContext.height
          (renderImage env 1080 1080).imageContext.bytesPerRow).result with
    | false => simpa [MainRun.stdout, EXIT_FAILURE, EXIT_SUCCESS] using hsave
    | true => simpa [MainRun.stdout, EXIT_FAILURE, EXIT_SUCCESS] using hsave

/-- C17: in a run of `main` in which `renderImage` returns a context with null
data, `saveRGBATIFFFile` is not invoked and no call of the TIFF library is
made: the output file is never opened. -/
theorem main_no_save_without_image (env : Env) (tiff : TiffDriver)
    (hnull : (renderImage env 1080 1080).imageContext.data = none) :
    (∀ e ∈ (main env tiff).events, ∀ filename width height bytesPerRow,
      e ≠ .saveRGBATIFFFile filename width height bytesPerRow) ∧
    (main env tiff).tiff = [] ∧
    (main env tiff).events = [.renderImage 1080 1080, .puts "Failed to render image"] := by
  unfold main
  dsimp only
  rw [hnull]
  simp

/-- C17, witness: no physical device is enumerated. -/
theorem main_no_save_without_image_witness :
    (renderImage {} 1080 1080).imageContext.data = none ∧
    (main {} {}).tiff = [] ∧
    (main {} {}).events = [.renderImage 1080 1080, .puts "Failed to render image"] :=
  have hnull : (renderImage {} 1080 1080).imageContext.data = none := by decide
  ⟨hnull, (main_no_save_without_image {} {} hnull).2⟩

/-! ## Cutting a trace -/

theorem mem_splitsFrom {α : Type} (l pre a post : List α) (c : α) :
    (a, c, post) ∈ splitsFrom pre l ↔ ∃ a', a = pre ++ a' ∧ l = a' ++ c :: post := by
  induction l generalizing pre with
  | nil => simp [splitsFrom]
  | cons x l ih =>
    simp only [splitsFrom, List.mem_cons, Prod.mk.injEq, ih]
    constructor
    · rintro (⟨rfl, rfl, rfl⟩ | ⟨a', rfl, rfl⟩)
      · exact ⟨[], (List.append_nil _).symm, rfl⟩
      · exact ⟨x :: a', by simp, rfl⟩
    · rintro ⟨a', rfl, h⟩
      cases a' with
      | nil =>
        left
        simp only [List.nil_append, List.cons.injEq] at h
        exact ⟨List.append_nil _, h.1.symm, h.2.symm⟩
      | cons y a' =>
        right
        simp only [List.cons_append, List.cons.injEq] at h
        exact ⟨a', by rw [h.1]; simp, h.2⟩

theorem mem_splits {α : Type} (l pre post : List α) (c : α) :
    (pre, c, post) ∈ splits l ↔ l = pre ++ c :: post := by
  unfold splits
  rw [mem_splitsFrom]
  constructor
  · rintro ⟨a', rfl, h⟩
    exact h
  · intro h
    exact ⟨pre, (List.nil_append _).symm, h⟩

/-- A cut of a trace at a call that `skeleton` keeps is a cut of its skeleton. -/
theorem skeleton_split_push (t pre post : List Call) (c : Call) (h : t = pre ++ c :: post)
    (hc : c.fn ≠ .vkGetPhysicalDeviceProperties) :
    skeleton t = skeleton pre ++ c.erase :: skeleton post := by
  rw [h, skeleton_append, skeleton_cons, if_neg hc]
  rfl

/-- A cut of the skeleton of a trace comes from a cut of the trace. -/
theorem skeleton_split_pull (t : List Call) (a' d' : List Call) (w' : Call)
    (h : skeleton t = a' ++ w' :: d') :
    ∃ a w d, t = a ++ w :: d ∧ w.fn ≠ .vkGetPhysicalDeviceProperties ∧ skeleton a = a' ∧
      w.erase = w' ∧ skeleton d = d' := by
  induction t generalizing a' with
  | nil => simp [skeleton] at h
  | cons c l ih =>
    rw [skeleton_cons] at h
    by_cases hc : c.fn = .vkGetPhysicalDeviceProperties
    · rw [if_pos hc, List.nil_append] at h
      obtain ⟨a, w, d, h1, h2, h3, h4, h5⟩ := ih a' h
      refine ⟨c :: a, w, d, by rw [h1]; rfl, h2, ?_, h4, h5⟩
      rw [skeleton_cons, if_pos hc, List.nil_append, h3]
    · rw [if_neg hc] at h
      cases a' with
      | nil =>
        simp only [List.singleton_append, List.nil_append, List.cons.injEq] at h
        exact ⟨[], c, l, rfl, hc, rfl, h.1, h.2⟩
      | cons x a' =>
        simp only [List.singleton_append, List.cons_append, List.cons.injEq] at h
        obtain ⟨a, w, d, h1, h2, h3, h4, h5⟩ := ih a' h.2
        refine ⟨c :: a, w, d, by rw [h1]; rfl, h2, ?_, h4, h5⟩
        rw [skeleton_cons, if_neg hc, h3, h.1]
        rfl

theorem erase_fn (c : Call) : c.erase.fn = c.fn := rfl

theorem erase_args (c : Call) : c.erase.args = c.args := rfl

theorem erase_out (c : Call) : c.erase.out = c.out := rfl

/-- `Call.erase` keeps whether a result that the program tests is a success. -/
theorem erase_ret_success (c : Call) (h : c.fn.resultDiscarded = false) :
    (c.erase.ret = VK_SUCCESS) ↔ (c.ret = VK_SUCCESS) := by
  by_cases h2 : c.ret = VK_SUCCESS <;>
    simp [Call.erase, h, h2, VK_ERROR_OUT_OF_HOST_MEMORY, VK_SUCCESS]

theorem structural_isEventOf (b : Res) : Structural (fun c => c.isEventOf b) false := by
  constructor
  · intro c; rfl
  · intro c hc; simp [Call.isEventOf, hc, VkFn.onCommandBuffer]

theorem erase_ret_beq (c : Call) (h : c.fn.resultDiscarded = false) :
    (c.erase.ret == VK_SUCCESS) = (c.ret == VK_SUCCESS) := by
  by_cases h2 : c.ret = VK_SUCCESS <;>
    simp [Call.erase, h, h2, VK_ERROR_OUT_OF_HOST_MEMORY, VK_SUCCESS]

theorem structural_isRenderSubmitted : Structural Call.isRenderSubmitted false := by
  constructor
  · intro c
    unfold Call.isRenderSubmitted
    rw [erase_fn, erase_args]
    by_cases h1 : c.fn = .vkQueueSubmit
    · rw [erase_ret_beq c (by rw [h1]; rfl)]
    · have hf : (c.fn == VkFn.vkQueueSubmit) = false := by simpa using h1
      simp only [hf, Bool.false_and]
  · intro c hc; simp [Call.isRenderSubmitted, hc]

theorem structural_isRenderWaited : Structural Call.isRenderWaited false := by
  constructor
  · intro c; rfl
  · intro c hc; simp [Call.isRenderWaited, hc]

theorem structural_isRenderFailure : Structural Call.isRenderFailure false := by
  constructor
  · intro c
    unfold Call.isRenderFailure Call.isEventOf bne
    rw [erase_fn, erase_args, erase_out]
    by_cases h1 : c.fn.resultDiscarded = false
    · rw [erase_ret_beq c h1]
    · have h3 : c.fn.onCommandBuffer = false := by
        revert h1
        cases c.fn <;> simp [VkFn.resultDiscarded, VkFn.onCommandBuffer]
      simp only [h3, Bool.false_and]
  · intro c hc; simp [Call.isRenderFailure, Call.isEventOf, hc, VkFn.onCommandBuffer]

theorem structural_startsCopy : Structural Call.startsCopy false := by
  constructor
  · intro c; rfl
  · intro c hc
    simp [Call.startsCopy, Call.creates, Call.isEventOf, hc, VkFn.isCreate, VkFn.onCommandBuffer]

theorem structural_fn (fn : VkFn) (h : fn ≠ .vkGetPhysicalDeviceProperties) :
    Structural (fun c : Call => c.fn == fn) false := by
  constructor
  · intro c; rfl
  · intro c hc; simp [hc, Ne.symm h]

/-! ## What holds in each environment of `exits`, on the order of the calls -/

set_option maxRecDepth 100000 in
theorem exits_copy_after_render : ∀ e ∈ exits,
    (∀ s ∈ splits (skeleton (renderImage e 0 0).trace),
      s.2.1.isEventOf .copyCommandBuffer = true →
      ∃ t ∈ splits s.1, t.2.1.isRenderWaited = true ∧
        ∃ x ∈ t.1, x.isRenderSubmitted = true) ∧
    (((skeleton (renderImage e 0 0).trace).any Call.isRenderFailure = true ∨
      (skeleton (renderImage e 0 0).trace).any (fun c => c.creates .renderFence) = false) →
      (skeleton (renderImage e 0 0).trace).any Call.isRenderSubmitted = false) ∧
    ((skeleton (renderImage e 0 0).trace).any Call.isRenderSubmitted = false →
      (skeleton (renderImage e 0 0).trace).any Call.startsCopy = false ∧
      (skeleton (renderImage e 0 0).trace).countP (fun c => c.fn == .vkCreateImage) ≤ 1 ∧
      (skeleton (renderImage e 0 0).trace).countP
        (fun c => c.fn == .vkAllocateCommandBuffers) ≤ 1) := by
  decide!

/-! ## The claims on the order of the calls -/

/-- C14: in every run of `renderImage`, each event of the copy command buffer
(its allocation, begin, barriers, copy, end, submission, free) comes after a
`vkQueueSubmit` of the render command buffer that returned `VK_SUCCESS` and
after the `vkWaitForFences` on the fence of that submission, which itself comes
after the submission. When a begin, an end or the queue submission of the
render command buffer fails, or the fence of its submission is not created, no
render submission succeeds in the run; and in a run without a successful
render submission no staging image or staging memory is created, no copy
command buffer is allocated, and `vkCreateImage` and `vkAllocateCommandBuffers`
are called at most once (for the render target and the render command
buffer). -/
theorem renderImage_copy_after_render (env : Env) (width height : Nat) :
    (∀ pre c post, (renderImage env width height).trace = pre ++ c :: post →
      c.isEventOf .copyCommandBuffer = true →
      ∃ a s b w d, pre = a ++ s :: (b ++ w :: d) ∧
        s.isRenderSubmitted = true ∧ w.isRenderWaited = true) ∧
    (((∃ c ∈ (renderImage env width height).trace, c.isRenderFailure = true) ∨
      (∀ c ∈ (renderImage env width height).trace, c.creates .renderFence = false)) →
      ∀ s ∈ (renderImage env width height).trace, s.isRenderSubmitted = false) ∧
    ((∀ s ∈ (renderImage env width height).trace, s.isRenderSubmitted = false) →
      (∀ c ∈ (renderImage env width height).trace, c.startsCopy = false) ∧
      (renderImage env width height).trace.countP (fun c => c.fn == .vkCreateImage) ≤ 1 ∧
      (renderImage env width height).trace.countP
        (fun c => c.fn == .vkAllocateCommandBuffers) ≤ 1) := by
  obtain ⟨e, he, ht, _⟩ := renderImage_cases env width height
  refine ⟨?_, ?_, ?_⟩
  · intro pre c post hsplit hev
    have hq : c.fn ≠ .vkGetPhysicalDeviceProperties := by
      intro hq
      have := (structural_isEventOf .copyCommandBuffer).2 c hq
      simp [hev] at this
    have hpush := skeleton_split_push _ pre post c hsplit hq
    rw [ht] at hpush
    have hev' : (c.erase).isEventOf .copyCommandBuffer = true := hev
    obtain ⟨⟨a', w', d'⟩, htmem, hw, x, hx, hs⟩ :=
      (exits_copy_after_render e he).1 (skeleton pre, c.erase, skeleton post)
        ((mem_splits _ _ _ _).mpr hpush) hev'
    obtain ⟨a1, w, d, h1, _, h3, h4, _⟩ :=
      skeleton_split_pull pre a' d' w' ((mem_splits _ _ _ _).mp htmem)
    have hany : a1.any Call.isRenderSubmitted = true := by
      rw [← any_skeleton _ structural_isRenderSubmitted, h3]
      exact List.any_eq_true.mpr ⟨x, hx, hs⟩
    obtain ⟨s, hsmem, hss⟩ := List.any_eq_true.mp hany
    obtain ⟨a, b, hab⟩ := List.append_of_mem hsmem
    refine ⟨a, s, b, w, d, ?_, hss, ?_⟩
    · rw [h1, hab, List.append_assoc, List.cons_append]
    · have := structural_isRenderWaited.1 w
      rw [h4] at this
      rw [← this]; exact hw
  · intro hfail s hs
    have key := (exits_copy_after_render e he).2.1
    rw [← ht, any_skeleton _ structural_isRenderFailure,
      any_skeleton _ (structural_creates .renderFence),
      any_skeleton _ structural_isRenderSubmitted] at key
    have := key (hfail.imp List.any_eq_true.mpr
      (fun h => List.any_eq_false.mpr (fun c hc => by simp [h c hc])))
    rw [List.any_eq_false] at this
    simpa using this s hs
  · intro hnone
    have key := (exits_copy_after_render e he).2.2
    rw [← ht, any_skeleton _ structural_isRenderSubmitted, any_skeleton _ structural_startsCopy,
      countP_skeleton _ (structural_fn _ (by decide)),
      countP_skeleton _ (structural_fn _ (by decide))] at key
    have := key (List.any_eq_false.mpr (fun c hc => by simp [hnone c hc]))
    refine ⟨?_, this.2⟩
    intro c hc
    have h := this.1
    rw [List.any_eq_false] at h
    simpa using h c hc

/-! ## Where the device queries are -/

theorem findFirstGPU_loop_fns (pds : List PhysicalDevice) (n ii : Nat) (calls : List Call)
    (h : ∀ x ∈ calls, x.fn = .vkEnumeratePhysicalDevices ∨ x.fn = .vkGetPhysicalDeviceProperties) :
    ∀ x ∈ (findFirstGPU.loop pds n ii calls).calls,
      x.fn = .vkEnumeratePhysicalDevices ∨ x.fn = .vkGetPhysicalDeviceProperties := by
  induction n generalizing ii calls with
  | zero => simpa [findFirstGPU.loop] using h
  | succ n ih =>
    unfold findFirstGPU.loop
    have h' : ∀ x ∈ calls ++ [issued .vkGetPhysicalDeviceProperties [some .physicalDevice]],
        x.fn = .vkEnumeratePhysicalDevices ∨ x.fn = .vkGetPhysicalDeviceProperties := by
      intro x hx
      rcases List.mem_append.mp hx with hx | hx
      · exact h x hx
      · right; simp only [List.mem_singleton] at hx; rw [hx]; rfl
    split
    · exact h
    · dsimp only
      split
      · exact h'
      · exact ih _ _ h'

theorem findFirstGPU_fns (inst : Handle) (pds : List PhysicalDevice) :
    ∀ x ∈ (findFirstGPU inst pds).calls,
      x.fn = .vkEnumeratePhysicalDevices ∨ x.fn = .vkGetPhysicalDeviceProperties := by
  unfold findFirstGPU
  apply findFirstGPU_loop_fns
  intro x hx
  simp only [List.mem_cons, List.mem_singleton, List.not_mem_nil, or_false] at hx
  rcases hx with hx | hx <;> (left; rw [hx]; rfl)

set_option maxRecDepth 100000 in
theorem exits_shader_modules : ∀ e ∈ exits,
    (∀ c ∈ (renderImage e 0 0).cleanup, c.fn ≠ .vkGetPhysicalDeviceProperties) ∧
    (∀ s ∈ splits (skeleton (renderImage e 0 0).trace), s.2.1.creates .graphicsPipeline = true →
      s.2.1.fn = .vkCreateGraphicsPipelines ∧
      s.2.2.take 2 =
        [ issued .vkDestroyShaderModule [some .device, some .fragmentShader],
          issued .vkDestroyShaderModule [some .device, some .vertexShader] ] ∧
      s.1.any (fun c => c.fn == .vkCreateImage) = false ∧
      shaderModuleDestroys (renderImage e 0 0).cleanup = []) ∧
    ((skeleton (renderImage e 0 0).trace).any Call.isPipelineStepFailure = true →
      shaderModuleDestroys (renderImage e 0 0).cleanup =
        [ issued .vkDestroyShaderModule [some .device, some .fragmentShader],
          issued .vkDestroyShaderModule [some .device, some .vertexShader] ] ∧
      (skeleton (renderImage e 0 0).calls).any (fun c => c.fn == .vkDestroyShaderModule)
        = false) ∧
    (((skeleton (renderImage e 0 0).trace).any (fun c => c.creates .vertexShader) = true ∧
      (skeleton (renderImage e 0 0).trace).any Call.isShaderModuleFailure = true) →
      shaderModuleDestroys (renderImage e 0 0).cleanup =
        [ issued .vkDestroyShaderModule [some .device, some .vertexShader] ] ∧
      (skeleton (renderImage e 0 0).calls).any (fun c => c.fn == .vkDestroyShaderModule)
        = false) := by
  decide!

/-- In a run, every `vkGetPhysicalDeviceProperties` comes before the first call
that is not a `vkCreateInstance`, a `vkEnumeratePhysicalDevices` or a
`vkGetPhysicalDeviceProperties`. -/
theorem renderImage_no_query_after (env : Env) (w h : Nat) (pre post : List Call) (c : Call)
    (hsplit : (renderImage env w h).trace = pre ++ c :: post)
    (h1 : c.fn ≠ .vkCreateInstance) (h2 : c.fn ≠ .vkEnumeratePhysicalDevices)
    (h3 : c.fn ≠ .vkGetPhysicalDeviceProperties) :
    ∀ x ∈ post, x.fn ≠ .vkGetPhysicalDeviceProperties := by
  by_cases h0 : env.vkCreateInstance = VK_SUCCESS
  · obtain ⟨rest, hrest, hnq⟩ := renderImage_queries env w h h0
    obtain ⟨e, he, _, _, hc, _⟩ := renderImage_cases env w h
    have hclean := (exits_shader_modules e he).1
    rw [← hc] at hclean
    have htail : ∀ x ∈ rest ++ (renderImage env w h).cleanup,
        x.fn ≠ .vkGetPhysicalDeviceProperties := by
      intro x hx
      rcases List.mem_append.mp hx with hx | hx
      · exact hnq x hx
      · exact hclean x hx
    have hhead : ∀ x ∈ [created .vkCreateInstance [] VK_SUCCESS .inst] ++
        (findFirstGPU (some .inst) env.physicalDevices).calls,
        x.fn = .vkCreateInstance ∨ x.fn = .vkEnumeratePhysicalDevices ∨
          x.fn = .vkGetPhysicalDeviceProperties := by
      intro x hx
      rcases List.mem_append.mp hx with hx | hx
      · left; simp only [List.mem_singleton] at hx; rw [hx]; rfl
      · right; exact findFirstGPU_fns _ _ x hx
    unfold Run.trace at hsplit
    rw [hrest, List.append_assoc] at hsplit
    rcases List.append_eq_append_iff.mp hsplit with ⟨a', _, h5⟩ | ⟨c', h4, h5⟩
    · intro x hx
      exact htail x (by rw [h5]; exact List.mem_append_right _ (List.mem_cons_of_mem _ hx))
    · cases c' with
      | nil =>
        rw [List.nil_append] at h5
        intro x hx
        exact htail x (by rw [← h5]; exact List.mem_cons_of_mem _ hx)
      | cons y c' =>
        rw [List.cons_append, List.cons.injEq] at h5
        have hy := hhead y (by rw [h4]; exact List.mem_append_right _ (List.mem_cons_self _ _))
        rw [← h5.1] at hy
        rcases hy with hy | hy | hy
        · exact absurd hy h1
        · exact absurd hy h2
        · exact absurd hy h3
  · have ht : (renderImage env w h).trace =
        [created .vkCreateInstance [] env.vkCreateInstance .inst] := by
      simp [renderImage, vk_ne, h0, jump, post_cleanup_instance, Run.trace]
    rw [ht] at hsplit
    cases pre with
    | nil =>
      simp only [List.nil_append, List.cons.injEq] at hsplit
      rw [← hsplit.2]
      intro x hx
      exact absurd hx (List.not_mem_nil _)
    | cons y pre =>
      simp only [List.cons_append, List.cons.injEq] at hsplit
      have := hsplit.2
      cases pre <;> simp at this

theorem skeleton_eq_map (l : List Call) (h : ∀ x ∈ l, x.fn ≠ .vkGetPhysicalDeviceProperties) :
    skeleton l = l.map Call.erase := by
  unfold skeleton
  rw [List.filter_eq_self.mpr]
  intro x hx
  simpa using h x hx

/-- A call whose erased form is a call of a `void` entry point is that call. -/
theorem eq_issued_of_erase (c : Call) (fn : VkFn) (args : List Handle)
    (hfn : fn.resultDiscarded = false) (h : c.erase = issued fn args) : c = issued fn args := by
  obtain ⟨cfn, cargs, cret, cout⟩ := c
  simp only [Call.erase, issued, Call.mk.injEq] at h ⊢
  obtain ⟨h1, h2, h3, h4⟩ := h
  subst h1
  refine ⟨rfl, h2, ?_, h4⟩
  simp [hfn, VK_ERROR_OUT_OF_HOST_MEMORY, VK_SUCCESS] at h3
  exact h3

theorem structural_isPipelineStepFailure : Structural Call.isPipelineStepFailure false := by
  constructor
  · intro c
    unfold Call.isPipelineStepFailure bne
    rw [erase_fn]
    by_cases h1 : c.fn.resultDiscarded = false
    · rw [erase_ret_beq c h1]
    · have h3 : (c.fn == .vkCreatePipelineLayout || c.fn == .vkCreateRenderPass ||
          c.fn == .vkCreateGraphicsPipelines) = false := by
        revert h1
        cases c.fn <;> simp [VkFn.resultDiscarded]
      simp only [h3, Bool.false_and]
  · intro c hc; simp [Call.isPipelineStepFailure, hc]

theorem structural_isShaderModuleFailure : Structural Call.isShaderModuleFailure false := by
  constructor
  · intro c
    unfold Call.isShaderModuleFailure bne
    rw [erase_fn]
    by_cases h1 : c.fn.resultDiscarded = false
    · rw [erase_ret_beq c h1]
    · have h3 : (c.fn == .vkCreateShaderModule) = false := by
        revert h1
        cases c.fn <;> simp [VkFn.resultDiscarded]
      simp only [h3, Bool.false_and]
  · intro c hc; simp [Call.isShaderModuleFailure, hc]

/-- C19: in every run of `renderImage` in which `vkCreateGraphicsPipelines`
creates the pipeline, the two calls that follow it are the destroy of the
fragment shader module and the destroy of the vertex shader module, no
`vkCreateImage` has been called before, and the cleanup section destroys no
shader module. In every run in which `vkCreatePipelineLayout`,
`vkCreateRenderPass` or `vkCreateGraphicsPipelines` fails, the cleanup section
destroys the fragment module and then the vertex module, and these are the
only shader module destroys of the run. In every run in which the vertex
module is created and a `vkCreateShaderModule` fails (the one of the fragment
module), the destroy of the vertex module, in the cleanup section, is the only
shader module destroy of the run. -/
theorem renderImage_shader_modules (env : Env) (width height : Nat) :
    (∀ pre c post, (renderImage env width height).trace = pre ++ c :: post →
      c.creates .graphicsPipeline = true →
      (∃ rest, post =
        issued .vkDestroyShaderModule [some .device, some .fragmentShader] ::
        issued .vkDestroyShaderModule [some .device, some .vertexShader] :: rest) ∧
      (∀ x ∈ pre, x.fn ≠ .vkCreateImage) ∧
      shaderModuleDestroys (renderImage env width height).cleanup = []) ∧
    ((∃ c ∈ (renderImage env width height).trace, c.isPipelineStepFailure = true) →
      shaderModuleDestroys (renderImage env width height).cleanup =
        [ issued .vkDestroyShaderModule [some .device, some .fragmentShader],
          issued .vkDestroyShaderModule [some .device, some .vertexShader] ] ∧
      shaderModuleDestroys (renderImage env width height).calls = []) ∧
    (((∃ c ∈ (renderImage env width height).trace, c.creates .vertexShader = true) ∧
      (∃ c ∈ (renderImage env width height).trace, c.isShaderModuleFailure = true)) →
      shaderModuleDestroys (renderImage env width height).cleanup =
        [ issued .vkDestroyShaderModule [some .device, some .vertexShader] ] ∧
      shaderModuleDestroys (renderImage env width height).calls = []) := by
  obtain ⟨e, he, ht, hk, hc, _⟩ := renderImage_cases env width height
  have hnone : ∀ l : List Call, l.any (fun c => c.fn == .vkDestroyShaderModule) = false →
      shaderModuleDestroys l = [] := by
    intro l hl
    unfold shaderModuleDestroys
    rw [List.filter_eq_nil_iff]
    intro x hx
    rw [List.any_eq_false] at hl
    exact hl x hx
  refine ⟨?_, ?_, ?_⟩
  · intro pre c post hsplit hcr
    have hq : c.fn ≠ .vkGetPhysicalDeviceProperties := by
      intro hq
      have := (structural_creates .graphicsPipeline).2 c hq
      simp [hcr] at this
    have hpush := skeleton_split_push _ pre post c hsplit hq
    rw [ht] at hpush
    obtain ⟨hfn, h1, h2, h3⟩ := (exits_shader_modules e he).2.1
      (skeleton pre, c.erase, skeleton post) ((mem_splits _ _ _ _).mpr hpush) hcr
    dsimp only at hfn h1 h2 h3
    rw [erase_fn] at hfn
    have hpost := renderImage_no_query_after env width height pre post c hsplit
      (by rw [hfn]; decide) (by rw [hfn]; decide) hq
    rw [skeleton_eq_map post hpost] at h1
    rw [any_skeleton _ (structural_fn _ (by decide))] at h2
    rw [← hc] at h3
    refine ⟨?_, ?_, h3⟩
    · match post, h1 with
      | f :: v :: rest, h1 =>
        simp only [List.map_cons, List.take_succ_cons, List.take_zero, List.cons.injEq,
          and_true] at h1
        rw [eq_issued_of_erase f .vkDestroyShaderModule _ rfl h1.1,
          eq_issued_of_erase v .vkDestroyShaderModule _ rfl h1.2]
        exact ⟨rest, rfl⟩
      | [f], h1 => simp at h1
      | [], h1 => simp at h1
    · intro x hx hfx
      rw [List.any_eq_false] at h2
      exact h2 x hx (by simp [hfx])
  · intro hfail
    have key := (exits_shader_modules e he).2.2.1
    rw [← ht, ← hk, ← hc, any_skeleton _ structural_isPipelineStepFailure,
      any_skeleton _ (structural_fn _ (by decide))] at key
    have := key (List.any_eq_true.mpr hfail)
    exact ⟨this.1, hnone _ this.2⟩
  · intro hfail
    have key := (exits_shader_modules e he).2.2.2
    rw [← ht, ← hk, ← hc, any_skeleton _ (structural_creates .vertexShader),
      any_skeleton _ structural_isShaderModuleFailure,
      any_skeleton _ (structural_fn _ (by decide))] at key
    have := key ⟨List.any_eq_true.mpr hfail.1, List.any_eq_true.mpr hfail.2⟩
    exact ⟨this.1, hnone _ this.2⟩

theorem structural_cbEvent (b fence : Res) : Structural (Call.cbEvent b fence) none := by
  constructor
  · intro c
    unfold Call.cbEvent
    rw [erase_fn, erase_args, erase_out]
    by_cases h1 : c.fn.resultDiscarded = false
    · rw [erase_ret_beq c h1]
    · have h3 : c.fn = .vkEnumeratePhysicalDevices ∨ c.fn = .vkWaitForFences ∨
          c.fn = .vkQueueWaitIdle := by
        revert h1
        cases c.fn <;> simp [VkFn.resultDiscarded]
      rcases h3 with h | h | h <;> simp [h, VkFn.isRecorded]
  · intro c hc; simp [Call.cbEvent, hc, VkFn.isRecorded]

set_option maxRecDepth 100000 in
theorem exits_command_buffers : ∀ e ∈ exits,
    (∀ bf ∈ [(Res.renderCommandBuffer, Res.renderFence),
        (Res.copyCommandBuffer, Res.copyFence)],
      (lifeOf bf.1 (lifeEvents (skeleton (renderImage e 0 0).trace)) = [true, false] ∧
        CbState.run .initial (cbEvents bf.1 bf.2 (skeleton (renderImage e 0 0).trace))
          = some .freed) ∨
      (lifeOf bf.1 (lifeEvents (skeleton (renderImage e 0 0).trace)) = [] ∧
        CbState.run .initial (cbEvents bf.1 bf.2 (skeleton (renderImage e 0 0).trace))
          = some .initial)) ∧
    (∀ q ∈ (commandBufferEvents (skeleton (renderImage e 0 0).trace)).inits,
      ¬ (lifeOf .renderCommandBuffer q = [true] ∧ lifeOf .copyCommandBuffer q = [true])) := by
  decide!

/-- C20: in every run of `renderImage` the events of each of the two command
buffers, in the order of the trace, are a path of the state machine allocate →
begin → record → end → submit and wait → free: when the buffer is allocated the
path leads from `initial` to `freed`, a failure at begin, end or submission
being followed by the free and by nothing else, and the buffer is freed exactly
once; when it is not, the buffer has no event. At every point of the run at
most one of the two command buffers is allocated and not yet freed. -/
theorem renderImage_command_buffers (env : Env) (width height : Nat) :
    (∀ bf ∈ [(Res.renderCommandBuffer, Res.renderFence),
        (Res.copyCommandBuffer, Res.copyFence)],
      ((∃ c ∈ (renderImage env width height).trace, c.creates bf.1 = true) →
        CbState.run .initial (cbEvents bf.1 bf.2 (renderImage env width height).trace)
          = some .freed ∧
        (renderImage env width height).trace.countP (fun c => c.releases bf.1) = 1) ∧
      ((∀ c ∈ (renderImage env width height).trace, c.creates bf.1 = false) →
        CbState.run .initial (cbEvents bf.1 bf.2 (renderImage env width height).trace)
          = some .initial ∧
        (renderImage env width height).trace.countP (fun c => c.releases bf.1) = 0)) ∧
    (∀ pre, pre <+: (renderImage env width height).trace →
      ¬ (lifeline .renderCommandBuffer pre = [true] ∧
         lifeline .copyCommandBuffer pre = [true])) := by
  obtain ⟨e, he, ht, _⟩ := renderImage_cases env width height
  constructor
  · intro bf hbf
    have key := (exits_command_buffers e he).1 bf hbf
    rw [← lifeline_eq_lifeOf, ← ht, lifeline, filterMap_skeleton _ (structural_lifeline bf.1),
      cbEvents, filterMap_skeleton _ (structural_cbEvent bf.1 bf.2)] at key
    constructor
    · intro h
      rcases key with ⟨h1, h2⟩ | ⟨h1, _⟩
      · refine ⟨h2, ?_⟩
        rw [countP_releases_eq_count]
        unfold lifeline
        rw [h1]
        rfl
      · exact absurd h1 (lifeline_ne_nil_of_creates bf.1 _ (List.any_eq_true.mpr h))
    · intro h
      rcases key with ⟨h1, _⟩ | ⟨h1, h2⟩
      · have hmem : true ∈ lifeline bf.1 (renderImage env width height).trace := by
          unfold lifeline; rw [h1]; simp
        obtain ⟨c, hc, hcr⟩ := creates_of_mem_lifeline bf.1 _ hmem
        rw [h c hc] at hcr
        exact absurd hcr (by decide)
      · refine ⟨h2, ?_⟩
        rw [countP_releases_eq_count]
        unfold lifeline
        rw [h1]
        rfl
  · intro pre hpre
    have hmem : commandBufferEvents pre ∈
        (commandBufferEvents (skeleton (renderImage e 0 0).trace)).inits := by
      rw [List.mem_inits, ← ht]
      unfold commandBufferEvents lifeEvents
      rw [filterMap_skeleton _ structural_lifeEvent]
      exact (hpre.filterMap _).filter _
    have key := (exits_command_buffers e he).2 _ hmem
    rw [← lifeline_eq_commandBufferEvents _ (Or.inl rfl),
      ← lifeline_eq_commandBufferEvents _ (Or.inr rfl)] at key
    exact key

/-! ## The info structures and the layouts -/

theorem all_skeleton (p : Call → Bool) (hp : Structural p true) (l : List Call) :
    (skeleton l).all p = l.all p := by
  induction l with
  | nil => rfl
  | cons c l ih =>
    rw [skeleton_cons, List.all_append, ih, List.all_cons]
    by_cases hc : c.fn = .vkGetPhysicalDeviceProperties
    · simp [hc, hp.2 c hc]
    · simp [hc, hp.1 c]

theorem structural_handlesAsWritten : Structural Call.handlesAsWritten true := by
  constructor
  · intro c; rfl
  · intro c hc; simp [Call.handlesAsWritten, hc]

/-- The layouts of the operations do not depend on the size of the image. -/
theorem layoutOpsFrom_size (width height : Nat) (barriers : Nat) (t : List Call) :
    layoutOpsFrom width height barriers t = layoutOpsFrom 0 0 barriers t := by
  induction t generalizing barriers with
  | nil => rfl
  | cons c t ih =>
    cases hfn : c.fn <;>
      simp only [layoutOpsFrom, hfn, ih barriers, ih (barriers + 1)] <;> rfl

/-- The layout operations of a trace can be read off its skeleton. -/
theorem layoutOpsFrom_skeleton (width height : Nat) (barriers : Nat) (t : List Call) :
    layoutOpsFrom width height barriers (skeleton t) = layoutOpsFrom width height barriers t := by
  induction t generalizing barriers with
  | nil => rfl
  | cons c t ih =>
    rw [skeleton_cons]
    by_cases hc : c.fn = .vkGetPhysicalDeviceProperties
    · rw [if_pos hc, List.nil_append, ih]
      simp only [layoutOpsFrom, hc]
    · rw [if_neg hc, List.singleton_append]
      by_cases hm : c.fn = .vkMapMemory
      · have hret : (c.erase.ret = VK_SUCCESS) ↔ (c.ret = VK_SUCCESS) :=
          erase_ret_success c (by rw [hm]; rfl)
        simp only [layoutOpsFrom, erase_fn, hm, hret, ih]
      · cases hfn : c.fn <;>
          first
          | exact absurd hfn hm
          | simp only [layoutOpsFrom, erase_fn, erase_args, erase_out, hfn, ih]

set_option maxRecDepth 100000 in
theorem exits_layouts : ∀ e ∈ exits,
    layoutOps 0 0 (skeleton (renderImage e 0 0).trace) <+:
      [ .createImage (some .image) VK_IMAGE_LAYOUT_UNDEFINED,
        .beginRenderPass (some .image) VK_IMAGE_LAYOUT_UNDEFINED
          VK_IMAGE_LAYOUT_COLOR_ATTACHMENT_OPTIMAL,
        .endRenderPass (some .image) VK_IMAGE_LAYOUT_COLOR_ATTACHMENT_OPTIMAL
          VK_IMAGE_LAYOUT_TRANSFER_SRC_OPTIMAL,
        .createImage (some .destImage) VK_IMAGE_LAYOUT_UNDEFINED,
        .barrier (some .destImage) VK_IMAGE_LAYOUT_UNDEFINED
          VK_IMAGE_LAYOUT_TRANSFER_DST_OPTIMAL,
        .copy (some .image) VK_IMAGE_LAYOUT_TRANSFER_SRC_OPTIMAL (some .destImage)
          VK_IMAGE_LAYOUT_TRANSFER_DST_OPTIMAL,
        .barrier (some .destImage) VK_IMAGE_LAYOUT_TRANSFER_DST_OPTIMAL
          VK_IMAGE_LAYOUT_GENERAL,
        .hostRead (some .destImage) ] ∧
    (skeleton (renderImage e 0 0).trace).all Call.handlesAsWritten = true := by
  decide!

/-- Along the layout operations of a run in which nothing fails, each
operation finds the images in the layouts it declares. -/
theorem script_layouts :
    (∀ s ∈ splits
      [ LayoutOp.createImage (some .image) VK_IMAGE_LAYOUT_UNDEFINED,
        .beginRenderPass (some .image) VK_IMAGE_LAYOUT_UNDEFINED
          VK_IMAGE_LAYOUT_COLOR_ATTACHMENT_OPTIMAL,
        .endRenderPass (some .image) VK_IMAGE_LAYOUT_COLOR_ATTACHMENT_OPTIMAL
          VK_IMAGE_LAYOUT_TRANSFER_SRC_OPTIMAL,
        .createImage (some .destImage) VK_IMAGE_LAYOUT_UNDEFINED,
        .barrier (some .destImage) VK_IMAGE_LAYOUT_UNDEFINED
          VK_IMAGE_LAYOUT_TRANSFER_DST_OPTIMAL,
        .copy (some .image) VK_IMAGE_LAYOUT_TRANSFER_SRC_OPTIMAL (some .destImage)
          VK_IMAGE_LAYOUT_TRANSFER_DST_OPTIMAL,
        .barrier (some .destImage) VK_IMAGE_LAYOUT_TRANSFER_DST_OPTIMAL
          VK_IMAGE_LAYOUT_GENERAL,
        .hostRead (some .destImage) ],
      (Layouts.run {} s.1).any (fun st => s.2.1.agrees st) = true) ∧
    (∀ q ∈ List.inits
      [ LayoutOp.createImage (some .image) VK_IMAGE_LAYOUT_UNDEFINED,
        .beginRenderPass (some .image) VK_IMAGE_LAYOUT_UNDEFINED
          VK_IMAGE_LAYOUT_COLOR_ATTACHMENT_OPTIMAL,
        .endRenderPass (some .image) VK_IMAGE_LAYOUT_COLOR_ATTACHMENT_OPTIMAL
          VK_IMAGE_LAYOUT_TRANSFER_SRC_OPTIMAL,
        .createImage (some .destImage) VK_IMAGE_LAYOUT_UNDEFINED,
        .barrier (some .destImage) VK_IMAGE_LAYOUT_UNDEFINED
          VK_IMAGE_LAYOUT_TRANSFER_DST_OPTIMAL,
        .copy (some .image) VK_IMAGE_LAYOUT_TRANSFER_SRC_OPTIMAL (some .destImage)
          VK_IMAGE_LAYOUT_TRANSFER_DST_OPTIMAL,
        .barrier (some .destImage) VK_IMAGE_LAYOUT_TRANSFER_DST_OPTIMAL
          VK_IMAGE_LAYOUT_GENERAL,
        .hostRead (some .destImage) ],
      (Layouts.run {} q).isSome = true) := by
  decide

/-- The layout operations of a run are those of the run of one of the
environments of `exits`. -/
theorem layoutOps_cases (env : Env) (width height : Nat) :
    ∃ e ∈ exits, layoutOps width height (renderImage env width height).trace =
      layoutOps 0 0 (skeleton (renderImage e 0 0).trace) ∧
      (renderImage env width height).trace.all Call.handlesAsWritten =
        (skeleton (renderImage e 0 0).trace).all Call.handlesAsWritten := by
  obtain ⟨e, he, ht, _⟩ := renderImage_cases env width height
  refine ⟨e, he, ?_, ?_⟩
  · unfold layoutOps
    rw [← ht, layoutOpsFrom_skeleton, layoutOpsFrom_size]
  · rw [← ht, all_skeleton _ structural_handlesAsWritten]

/-- C21: in every run of `renderImage` the layout operations of the calls, in
the order of the trace, are the first operations of this list: the render
target is created undefined, the render pass takes it from undefined to the
colour attachment layout and leaves it in its final layout, transfer source;
the staging image is created undefined; the first barrier takes the staging
image from undefined to transfer destination; the copy names the render target
in the transfer source layout and the staging image in the transfer
destination layout; the second barrier takes the staging image from transfer
destination to general; the host reads the mapped staging image. Tracking the
layout of each image from its creation on, every operation of a run finds the
images in the layouts it declares, so that the tracking never fails; in
particular the staging image is in the general layout when the host maps and
reads it, and the final layout of the render pass is the layout the copy names
for its source. -/
theorem renderImage_layouts (env : Env) (width height : Nat) :
    layoutOps width height (renderImage env width height).trace <+:
      [ .createImage (some .image) VK_IMAGE_LAYOUT_UNDEFINED,
        .beginRenderPass (some .image) VK_IMAGE_LAYOUT_UNDEFINED
          VK_IMAGE_LAYOUT_COLOR_ATTACHMENT_OPTIMAL,
        .endRenderPass (some .image) VK_IMAGE_LAYOUT_COLOR_ATTACHMENT_OPTIMAL
          VK_IMAGE_LAYOUT_TRANSFER_SRC_OPTIMAL,
        .createImage (some .destImage) VK_IMAGE_LAYOUT_UNDEFINED,
        .barrier (some .destImage) VK_IMAGE_LAYOUT_UNDEFINED
          VK_IMAGE_LAYOUT_TRANSFER_DST_OPTIMAL,
        .copy (some .image) VK_IMAGE_LAYOUT_TRANSFER_SRC_OPTIMAL (some .destImage)
          VK_IMAGE_LAYOUT_TRANSFER_DST_OPTIMAL,
        .barrier (some .destImage) VK_IMAGE_LAYOUT_TRANSFER_DST_OPTIMAL
          VK_IMAGE_LAYOUT_GENERAL,
        .hostRead (some .destImage) ] ∧
    (∀ pre op post,
      layoutOps width height (renderImage env width height).trace = pre ++ op :: post →
      ∃ s, Layouts.run {} pre = some s ∧ op.agrees s = true) ∧
    (∃ s, Layouts.run {} (layoutOps width height (renderImage env width height).trace)
      = some s) ∧
    (∀ pre post image,
      layoutOps width height (renderImage env width height).trace =
        pre ++ LayoutOp.hostRead image :: post →
      image = some .destImage ∧
      ∃ s, Layouts.run {} pre = some s ∧ s.destImage = some VK_IMAGE_LAYOUT_GENERAL) ∧
    renderImage.colorAttachment.finalLayout =
      (renderImage.copyImage width height (some .image) (some .destImage)).srcImageLayout := by
  obtain ⟨e, he, hops, _⟩ := layoutOps_cases env width height
  have hpre := (exits_layouts e he).1
  rw [← hops] at hpre
  have hsplit : ∀ pre op post,
      layoutOps width height (renderImage env width height).trace = pre ++ op :: post →
      ∃ s, Layouts.run {} pre = some s ∧ op.agrees s = true := by
    intro pre op post h
    obtain ⟨rest, hrest⟩ := hpre
    rw [h, List.append_assoc, List.cons_append] at hrest
    have key := script_layouts.1 (pre, op, post ++ rest) ((mem_splits _ _ _ _).mpr hrest.symm)
    dsimp only at key
    cases hrun : Layouts.run {} pre with
    | none => rw [hrun] at key; exact absurd key (by simp)
    | some s => rw [hrun] at key; exact ⟨s, rfl, key⟩
  refine ⟨hpre, hsplit, ?_, ?_, rfl⟩
  · have key := script_layouts.2 _ ((List.mem_inits _ _).mpr hpre)
    cases hrun : Layouts.run {} (layoutOps width height (renderImage env width height).trace) with
    | none => rw [hrun] at key; exact absurd key (by decide)
    | some s => exact ⟨s, rfl⟩
  · intro pre post image h
    obtain ⟨s, hs, hag⟩ := hsplit pre _ post h
    obtain ⟨rest, hrest⟩ := hpre
    rw [h, List.append_assoc, List.cons_append] at hrest
    have himg : image = some .destImage := by
      have hmem : LayoutOp.hostRead image ∈ pre ++ LayoutOp.hostRead image :: (post ++ rest) :=
        List.mem_append_right _ (List.mem_cons_self _ _)
      rw [hrest] at hmem
      simp only [List.mem_cons, reduceCtorEq, LayoutOp.hostRead.injEq, List.mem_singleton,
        List.not_mem_nil, false_or, or_false] at hmem
      exact hmem
    refine ⟨himg, s, hs, ?_⟩
    subst himg
    simpa [LayoutOp.agrees, Layouts.get] using hag

/-- Where a loop that stops at the first failed write stops is determined by
the results of the writes. -/
theorem rows_written_unique (W : Nat → Int) (n m₁ m₂ : Nat)
    (a₁ : ∀ k, k + 1 < m₁ → 0 ≤ W k) (b₁ : m₁ < n → 0 < m₁ ∧ W (m₁ - 1) < 0)
    (a₂ : ∀ k, k + 1 < m₂ → 0 ≤ W k) (b₂ : m₂ < n → 0 < m₂ ∧ W (m₂ - 1) < 0)
    (h₁ : m₁ ≤ n) (h₂ : m₂ ≤ n) : m₁ = m₂ := by
  rcases Nat.lt_trichotomy m₁ m₂ with h | h | h
  · obtain ⟨hpos, hneg⟩ := b₁ (by omega)
    exact absurd (a₂ (m₁ - 1) (by omega)) (not_le.mpr hneg)
  · exact h
  · obtain ⟨hpos, hneg⟩ := b₂ (by omega)
    exact absurd (a₁ (m₂ - 1) (by omega)) (not_le.mpr hneg)

/-- The `memcpy` calls of the loop started at row `yy` with `row` at
`yy * bytesPerRow`: one for each of the rows `yy, yy + 1, ...` up to the first
row whose write fails or the last row, from the offset `row * bytesPerRow`. -/
theorem saveRGBATIFFFile_copiesFrom_spec (tiff : TiffDriver)
    (bytesPerRow scanlineSize rowCopySize : Nat) (n yy : Nat) :
    ∃ m, m ≤ n ∧
      saveRGBATIFFFile.copiesFrom tiff bytesPerRow scanlineSize rowCopySize n yy
          (yy * bytesPerRow) =
        (List.range m).map (fun k =>
          ({ offset := (yy + k) * bytesPerRow, size := rowCopySize,
             capacity := scanlineSize } : RowCopy)) ∧
      (∀ k, k + 1 < m → 0 ≤ tiff.TIFFWriteScanline (yy + k)) ∧
      (m < n → 0 < m ∧ tiff.TIFFWriteScanline (yy + (m - 1)) < 0) := by
  induction n generalizing yy with
  | zero => exact ⟨0, le_refl _, by simp [saveRGBATIFFFile.copiesFrom], by simp, by simp⟩
  | succ n ih =>
    unfold saveRGBATIFFFile.copiesFrom
    by_cases hw : tiff.TIFFWriteScanline yy < 0
    · rw [if_pos hw]
      exact ⟨1, by omega, by simp [List.range_succ], by simp,
        fun _ => ⟨by omega, by simpa using hw⟩⟩
    · rw [if_neg hw]
      have hrow : yy * bytesPerRow + bytesPerRow = (yy + 1) * bytesPerRow := by ring
      rw [hrow]
      obtain ⟨m, hm, h1, h2, h3⟩ := ih (yy + 1)
      refine ⟨m + 1, by omega, ?_, ?_, ?_⟩
      · rw [h1, List.range_succ_eq_map, List.map_cons, List.map_map]
        simp [Function.comp_def, Nat.add_assoc, Nat.add_comm 1]
      · intro k hk
        cases k with
        | zero => simpa using Int.not_lt.mp hw
        | succ k =>
          have := h2 k (by omega)
          simpa [Nat.add_assoc, Nat.add_comm 1] using this
      · intro hlt
        refine ⟨by omega, ?_⟩
        have := (h3 (by omega)).2
        have e : yy + (m + 1 - 1) = yy + 1 + (m - 1) := by omega
        rw [e]; exact this

/-- When the file opens and the scanline buffer is allocated, the calls of
`saveRGBATIFFFile` are the opening calls, the writes of the rows
`0, ..., m - 1` for some `m ≤ height`, `_TIFFfree` and `TIFFClose`; there is
one `memcpy` for each of these rows, from the offset `row * bytesPerRow`; every
write but the last succeeded, and when `m < height` the last one failed. The
returned flag tells whether there is a last write and it succeeded. -/
theorem saveRGBATIFFFile_calls (tiff : TiffDriver) (filename : String)
    (imageData : Nat → Nat) (width height bytesPerRow : Nat)
    (hopen : tiff.TIFFOpen = true) (hbuf : tiff._TIFFmalloc = true) :
    ∃ m, m ≤ height ∧
      (saveRGBATIFFFile tiff filename imageData width height bytesPerRow).calls =
        saveRGBATIFFFile.opening tiff filename width height
            (saveRGBATIFFFile.scanlineSize tiff bytesPerRow) ++
          (List.range m).map (fun k => TiffCall.TIFFWriteScanline
            (scanlineAt tiff imageData bytesPerRow
              (saveRGBATIFFFile.scanlineSize tiff bytesPerRow)
              (min (saveRGBATIFFFile.scanlineSize tiff bytesPerRow) bytesPerRow) k) k 0) ++
          [._TIFFfree, .TIFFClose] ∧
      saveRGBATIFFFile.copies tiff height bytesPerRow =
        (List.range m).map (fun k =>
          ({ offset := k * bytesPerRow,
             size := min (saveRGBATIFFFile.scanlineSize tiff bytesPerRow) bytesPerRow,
             capacity := saveRGBATIFFFile.scanlineSize tiff bytesPerRow } : RowCopy)) ∧
      (∀ k, k + 1 < m → 0 ≤ tiff.TIFFWriteScanline k) ∧
      (m < height → 0 < m ∧ tiff.TIFFWriteScanline (m - 1) < 0) ∧
      ((saveRGBATIFFFile tiff filename imageData width height bytesPerRow).result = true ↔
        0 < m ∧ 0 ≤ tiff.TIFFWriteScanline (m - 1)) := by
  have hmin : ∀ a b : Nat, (if a < b then a else b) = min a b := by
    intro a b
    by_cases h : a < b
    · simp [h, Nat.min_eq_left (Nat.le_of_lt h)]
    · simp [h, Nat.min_eq_right (Nat.not_lt.mp h)]
  unfold saveRGBATIFFFile saveRGBATIFFFile.copies saveRGBATIFFFile.scanlineSize
  simp only [hopen, hbuf, Bool.true_eq_false, ↓reduceIte, hmin]
  generalize (if 0 < tiff.TIFFScanlineSize then tiff.TIFFScanlineSize else bytesPerRow) = size
  obtain ⟨m, hm, h1, h2, h3, h4⟩ := saveRGBATIFFFile_loop_spec tiff imageData bytesPerRow size
    (min size bytesPerRow) height 0 tiff.uninitialised (-1)
    (saveRGBATIFFFile.opening tiff filename width height size)
    (fun _ _ => rfl)
  obtain ⟨m', hm', g1, g2, g3⟩ := saveRGBATIFFFile_copiesFrom_spec tiff bytesPerRow size
    (min size bytesPerRow) height 0
  rw [Nat.zero_mul] at h1 h4 g1
  have h2' : ∀ k, k + 1 < m → 0 ≤ tiff.TIFFWriteScanline k := by
    intro k hk; simpa using h2 k hk
  have h3' : m < height → 0 < m ∧ tiff.TIFFWriteScanline (m - 1) < 0 := by
    intro hlt; simpa using h3 hlt
  have g2' : ∀ k, k + 1 < m' → 0 ≤ tiff.TIFFWriteScanline k := by
    intro k hk; simpa using g2 k hk
  have g3' : m' < height → 0 < m' ∧ tiff.TIFFWriteScanline (m' - 1) < 0 := by
    intro hlt; simpa using g3 hlt
  have hmm : m' = m := rows_written_unique tiff.TIFFWriteScanline height m' m g2' g3' h2' h3'
    hm' hm
  subst hmm
  have hcalls : ([TiffCall.TIFFOpen filename "w"] ++
      [ .TIFFSetField TIFFTAG_IMAGEWIDTH [width],
        .TIFFSetField TIFFTAG_IMAGELENGTH [height],
        .TIFFSetField TIFFTAG_SAMPLESPERPIXEL [4],
        .TIFFSetField TIFFTAG_BITSPERSAMPLE [8],
        .TIFFSetField TIFFTAG_ORIENTATION [ORIENTATION_TOPLEFT],
        .TIFFSetField TIFFTAG_PLANARCONFIG [PLANARCONFIG_CONTIG],
        .TIFFSetField TIFFTAG_PHOTOMETRIC [PHOTOMETRIC_RGB],
        .TIFFSetField TIFFTAG_EXTRASAMPLES [1, EXTRASAMPLE_ASSOCALPHA],
        .TIFFDefaultStripSize ((4 * width) % 2 ^ 32),
        .TIFFSetField TIFFTAG_ROWSPERSTRIP [tiff.TIFFDefaultStripSize] ] ++
      [.TIFFScanlineSize] ++ [._TIFFmalloc size]) =
      saveRGBATIFFFile.opening tiff filename width height size := rfl
  rw [hcalls, h1, g1, h4]
  refine ⟨m', hm, ?_, ?_, h2', h3', ?_⟩
  · simp
  · simp
  · by_cases hm0 : m' = 0
    · simp [hm0]
    · simp [hm0, Nat.pos_of_ne_zero hm0]

theorem scanlines_opening (tiff : TiffDriver) (filename : String) (width height size : Nat) :
    scanlines (saveRGBATIFFFile.opening tiff filename width height size) = [] := rfl

theorem scanlines_writes (f : Nat → List Nat) (m : Nat) :
    scanlines ((List.range m).map (fun k => TiffCall.TIFFWriteScanline (f k) k 0)) =
      (List.range m).map (fun k => (k, f k)) := by
  unfold scanlines
  rw [List.filterMap_map]
  induction (List.range m) with
  | nil => rfl
  | cons a l ih => simp [List.filterMap_cons, ih]

theorem scanlines_close : scanlines [TiffCall.TIFFClose] = [] := rfl

theorem scanlines_free_close : scanlines [TiffCall._TIFFfree, TiffCall.TIFFClose] = [] := rfl

theorem opening_count (tiff : TiffDriver) (filename : String) (width height size : Nat) :
    (saveRGBATIFFFile.opening tiff filename width height size).count .TIFFClose = 0 ∧
    (saveRGBATIFFFile.opening tiff filename width height size).count ._TIFFfree = 0 := by
  constructor <;> rfl

theorem writes_count (f : Nat → List Nat) (m : Nat) :
    ((List.range m).map (fun k => TiffCall.TIFFWriteScanline (f k) k 0)).count .TIFFClose = 0 ∧
    ((List.range m).map (fun k => TiffCall.TIFFWriteScanline (f k) k 0)).count ._TIFFfree = 0 := by
  constructor <;>
  · rw [List.count_eq_zero]
    intro h
    rw [List.mem_map] at h
    obtain ⟨k, _, hk⟩ := h
    exact TiffCall.noConfusion hk

/-- When the file does not open, the failed `TIFFOpen` is the only call. -/
theorem saveRGBATIFFFile_unopened (tiff : TiffDriver) (filename : String)
    (imageData : Nat → Nat) (width height bytesPerRow : Nat) (hopen : tiff.TIFFOpen = false) :
    saveRGBATIFFFile tiff filename imageData width height bytesPerRow =
      { result := false, calls := [.TIFFOpen filename "w"] } ∧
    saveRGBATIFFFile.copies tiff height bytesPerRow = [] := by
  constructor
  · unfold saveRGBATIFFFile
    simp only [hopen, ↓reduceIte]
  · unfold saveRGBATIFFFile.copies
    simp only [hopen, ↓reduceIte]

/-- When the file opens and the scanline buffer is not allocated, the file is
closed and no row is written. -/
theorem saveRGBATIFFFile_unallocated (tiff : TiffDriver) (filename : String)
    (imageData : Nat → Nat) (width height bytesPerRow : Nat) (hopen : tiff.TIFFOpen = true)
    (hbuf : tiff._TIFFmalloc = false) :
    saveRGBATIFFFile tiff filename imageData width height bytesPerRow =
      { result := false,
        calls := saveRGBATIFFFile.opening tiff filename width height
          (saveRGBATIFFFile.scanlineSize tiff bytesPerRow) ++ [.TIFFClose] } ∧
    saveRGBATIFFFile.copies tiff height bytesPerRow = [] := by
  constructor
  · unfold saveRGBATIFFFile
    simp only [hopen, hbuf, Bool.true_eq_false, Bool.false_eq_true, ↓reduceIte]
    rfl
  · unfold saveRGBATIFFFile.copies
    simp only [hopen, hbuf, Bool.true_eq_false, Bool.false_eq_true, ↓reduceIte]

/-- C23: `saveRGBATIFFFile` returns true if and only if the file opens, the
scanline buffer is allocated, `height > 0` and the write of every row
`yy < height` succeeds (returns a value that is not negative); then it has
written the rows `0, ..., height - 1`. When the write of a row fails after the
writes of the rows before it succeeded, that row is the last one written. With
`height = 0` it returns false and writes no row, also when the file opens and
the buffer is allocated. When the file does not open it returns false and the
failed `TIFFOpen` is its only call. Whenever the file opens, `TIFFClose` is
called exactly once, as the last call, and `_TIFFfree` exactly once if the
buffer was allocated and not at all otherwise. -/
theorem saveRGBATIFFFile_result (tiff : TiffDriver) (filename : String)
    (imageData : Nat → Nat) (width height bytesPerRow : Nat) :
    ((saveRGBATIFFFile tiff filename imageData width height bytesPerRow).result = true ↔
      tiff.TIFFOpen = true ∧ tiff._TIFFmalloc = true ∧ 0 < height ∧
        ∀ yy, yy < height → 0 ≤ tiff.TIFFWriteScanline yy) ∧
    ((saveRGBATIFFFile tiff filename imageData width height bytesPerRow).result = true →
      (scanlines (saveRGBATIFFFile tiff filename imageData width height
        bytesPerRow).calls).map Prod.fst = List.range height) ∧
    (tiff.TIFFOpen = true → tiff._TIFFmalloc = true →
      ∀ yy, yy < height → tiff.TIFFWriteScanline yy < 0 →
        (∀ k, k < yy → 0 ≤ tiff.TIFFWriteScanline k) →
        (scanlines (saveRGBATIFFFile tiff filename imageData width height
          bytesPerRow).calls).map Prod.fst = List.range (yy + 1)) ∧
    (height = 0 →
      (saveRGBATIFFFile tiff filename imageData width height bytesPerRow).result = false ∧
      scanlines (saveRGBATIFFFile tiff filename imageData width height bytesPerRow).calls
        = []) ∧
    (tiff.TIFFOpen = false →
      (saveRGBATIFFFile tiff filename imageData width height bytesPerRow).result = false ∧
      (saveRGBATIFFFile tiff filename imageData width height bytesPerRow).calls =
        [.TIFFOpen filename "w"]) ∧
    (tiff.TIFFOpen = true →
      (saveRGBATIFFFile tiff filename imageData width height bytesPerRow).calls.count
        .TIFFClose = 1 ∧
      (saveRGBATIFFFile tiff filename imageData width height bytesPerRow).calls.getLast?
        = some .TIFFClose ∧
      (saveRGBATIFFFile tiff filename imageData width height bytesPerRow).calls.count
        ._TIFFfree = (if tiff._TIFFmalloc = true then 1 else 0)) := by
  by_cases hopen : tiff.TIFFOpen = true
  swap
  · have hopen' : tiff.TIFFOpen = false := by simpa using hopen
    rw [(saveRGBATIFFFile_unopened tiff filename imageData width height bytesPerRow hopen').1]
    simp [hopen', scanlines]
  by_cases hbuf : tiff._TIFFmalloc = true
  swap
  · have hbuf' : tiff._TIFFmalloc = false := by simpa using hbuf
    rw [(saveRGBATIFFFile_unallocated tiff filename imageData width height bytesPerRow hopen
      hbuf').1]
    have hc := opening_count tiff filename width height
      (saveRGBATIFFFile.scanlineSize tiff bytesPerRow)
    simp [hopen, hbuf', scanlines_append, scanlines_opening, scanlines_close, List.count_append,
      hc.1, hc.2]
  obtain ⟨m, hm, hcalls, _, h2, h3, h4⟩ := saveRGBATIFFFile_calls tiff filename imageData width
    height bytesPerRow hopen hbuf
  have hrows : (scanlines (saveRGBATIFFFile tiff filename imageData width height
      bytesPerRow).calls).map Prod.fst = List.range m := by
    rw [hcalls, scanlines_append, scanlines_append, scanlines_opening, scanlines_writes]
    simp [scanlines, Function.comp_def]
  have hall : (saveRGBATIFFFile tiff filename imageData width height bytesPerRow).result = true →
      m = height ∧ 0 < height ∧ ∀ yy, yy < height → 0 ≤ tiff.TIFFWriteScanline yy := by
    intro hres
    obtain ⟨hpos, hlast⟩ := h4.mp hres
    have hmh : m = height := by
      by_contra hne
      exact absurd hlast (not_le.mpr (h3 (by omega)).2)
    refine ⟨hmh, by omega, ?_⟩
    intro yy hyy
    by_cases hy : yy + 1 < m
    · exact h2 yy hy
    · have e : yy = m - 1 := by omega
      rw [e]; exact hlast
  refine ⟨?_, ?_, ?_, ?_, ?_, ?_⟩
  · constructor
    · intro hres
      exact ⟨hopen, hbuf, (hall hres).2⟩
    · rintro ⟨_, _, hpos, hw⟩
      have hmh : m = height := by
        by_contra hne
        obtain ⟨hmpos, hfail⟩ := h3 (by omega)
        exact absurd (hw (m - 1) (by omega)) (not_le.mpr hfail)
      exact h4.mpr ⟨by omega, hw (m - 1) (by omega)⟩
  · intro hres
    rw [hrows, (hall hres).1]
  · intro _ _ yy hyy hfail hprev
    rw [hrows]
    congr 1
    by_contra hne
    rcases Nat.lt_or_gt_of_ne hne with hlt | hgt
    · obtain ⟨hmpos, hmfail⟩ := h3 (by omega)
      exact absurd (hprev (m - 1) (by omega)) (not_le.mpr hmfail)
    · exact absurd (h2 yy (by omega)) (not_le.mpr hfail)
  · intro h0
    have hm0 : m = 0 := by omega
    constructor
    · cases hres : (saveRGBATIFFFile tiff filename imageData width height bytesPerRow).result
      · rfl
      · have := (h4.mp hres).1
        omega
    · have hnil := hrows
      rw [hm0] at hnil
      simpa using hnil
  · intro hclosed
    rw [hopen] at hclosed
    exact absurd hclosed (by decide)
  · intro _
    rw [hcalls]
    have hc := opening_count tiff filename width height
      (saveRGBATIFFFile.scanlineSize tiff bytesPerRow)
    have hw := writes_count (fun k => scanlineAt tiff imageData bytesPerRow
      (saveRGBATIFFFile.scanlineSize tiff bytesPerRow)
      (min (saveRGBATIFFFile.scanlineSize tiff bytesPerRow) bytesPerRow) k) m
    refine ⟨?_, ?_, ?_⟩
    · rw [List.count_append, List.count_append, hc.1, hw.1]
      rfl
    · simp
    · rw [List.count_append, List.count_append, hc.2, hw.2, if_pos hbuf]
      rfl

/-- The loop of `saveRGBATIFFFile` reads the image only below the offset
`row + n * bytesPerRow`, `n` being the number of rows left: two images that
agree there give the same result and the same calls. -/
theorem saveRGBATIFFFile_loop_congr (tiff : TiffDriver) (imageData imageData' : Nat → Nat)
    (bytesPerRow scanlineSize rowCopySize : Nat) (hsize : rowCopySize ≤ bytesPerRow)
    (n yy row : Nat) (scanlineBuffer : Nat → Nat) (writeResult : Int) (calls : List TiffCall)
    (hsame : ∀ i, i < row + n * bytesPerRow → imageData' i = imageData i) :
    saveRGBATIFFFile.loop tiff imageData' bytesPerRow scanlineSize rowCopySize
        n yy row scanlineBuffer writeResult calls =
      saveRGBATIFFFile.loop tiff imageData bytesPerRow scanlineSize rowCopySize
        n yy row scanlineBuffer writeResult calls := by
  induction n generalizing yy row scanlineBuffer writeResult calls with
  | zero => rfl
  | succ n ih =>
    unfold saveRGBATIFFFile.loop
    have hbuf : (fun j => if j < rowCopySize then imageData' (row + j) else scanlineBuffer j) =
        (fun j => if j < rowCopySize then imageData (row + j) else scanlineBuffer j) := by
      funext j
      by_cases hj : j < rowCopySize
      · have hlt : row + j < row + (n + 1) * bytesPerRow := by
          have : bytesPerRow ≤ (n + 1) * bytesPerRow := Nat.le_mul_of_pos_left _ (by omega)
          omega
        simp [hj, hsame _ hlt]
      · simp [hj]
    dsimp only
    rw [hbuf]
    split
    · rfl
    · apply ih
      intro i hi
      apply hsame
      have : (n + 1) * bytesPerRow = bytesPerRow + n * bytesPerRow := by ring
      omega

/-- C24: for every height, `bytesPerRow` and scanline size, every `memcpy` of
`saveRGBATIFFFile` reads inside a buffer of `height * bytesPerRow` bytes and
writes inside the scanline buffer. The `i`-th `memcpy` is the one of row
`i < height`: it reads `min capacity bytesPerRow` bytes from the offset
`i * bytesPerRow`, where `capacity` is the size the scanline buffer was
allocated with, so it ends at or before `height * bytesPerRow` and copies no
more than `capacity` bytes; the scanline written for that row holds `capacity`
bytes, the first of them the bytes read. For every row `yy < height` and every
scanline size `s`, `yy * bytesPerRow + min s bytesPerRow ≤ height * bytesPerRow`.
What `saveRGBATIFFFile` returns and the calls it makes depend on the image only
through the bytes below `height * bytesPerRow`. -/
theorem saveRGBATIFFFile_reads_in_bounds (tiff : TiffDriver) (filename : String)
    (imageData : Nat → Nat) (width height bytesPerRow : Nat) :
    (∀ c ∈ saveRGBATIFFFile.copies tiff height bytesPerRow,
      c.offset + c.size ≤ height * bytesPerRow ∧ c.size ≤ c.capacity ∧
      TiffCall._TIFFmalloc c.capacity ∈
        (saveRGBATIFFFile tiff filename imageData width height bytesPerRow).calls) ∧
    (∀ i c, (saveRGBATIFFFile.copies tiff height bytesPerRow)[i]? = some c →
      i < height ∧ c.offset = i * bytesPerRow ∧ c.size = min c.capacity bytesPerRow ∧
      c.capacity = saveRGBATIFFFile.scanlineSize tiff bytesPerRow ∧
      ∃ buf, (scanlines (saveRGBATIFFFile tiff filename imageData width height
          bytesPerRow).calls)[i]? = some (i, buf) ∧
        buf.length = c.capacity ∧
        ∀ j, j < c.size → buf[j]? = some (imageData (c.offset + j))) ∧
    (saveRGBATIFFFile.copies tiff height bytesPerRow).length =
      (scanlines (saveRGBATIFFFile tiff filename imageData width height
        bytesPerRow).calls).length ∧
    (∀ s yy, yy < height → yy * bytesPerRow + min s bytesPerRow ≤ height * bytesPerRow) ∧
    (∀ imageData' : Nat → Nat,
      (∀ i, i < height * bytesPerRow → imageData' i = imageData i) →
      saveRGBATIFFFile tiff filename imageData' width height bytesPerRow =
        saveRGBATIFFFile tiff filename imageData width height bytesPerRow) := by
  have hrow : ∀ s yy, yy < height →
      yy * bytesPerRow + min s bytesPerRow ≤ height * bytesPerRow := by
    intro s yy hyy
    have h1 : min s bytesPerRow ≤ bytesPerRow := Nat.min_le_right _ _
    have h2 : (yy + 1) * bytesPerRow ≤ height * bytesPerRow := Nat.mul_le_mul_right _ hyy
    have h3 : (yy + 1) * bytesPerRow = yy * bytesPerRow + bytesPerRow := by ring
    omega
  have hcongr : ∀ imageData' : Nat → Nat,
      (∀ i, i < height * bytesPerRow → imageData' i = imageData i) →
      saveRGBATIFFFile tiff filename imageData' width height bytesPerRow =
        saveRGBATIFFFile tiff filename imageData width height bytesPerRow := by
    intro imageData' hsame
    have hle : ∀ a b : Nat, (if a < b then a else b) ≤ b := by
      intro a b
      by_cases h : a < b
      · rw [if_pos h]; exact Nat.le_of_lt h
      · rw [if_neg h]
    unfold saveRGBATIFFFile
    dsimp only
    rw [saveRGBATIFFFile_loop_congr tiff imageData imageData' bytesPerRow _ _
      (hle _ _) height 0 0 _ _ _ (by simpa using hsame)]
  by_cases hopen : tiff.TIFFOpen = true
  swap
  · have hopen' : tiff.TIFFOpen = false := by simpa using hopen
    obtain ⟨h1, h2⟩ := saveRGBATIFFFile_unopened tiff filename imageData width height
      bytesPerRow hopen'
    refine ⟨?_, ?_, ?_, hrow, hcongr⟩ <;> rw [h2] <;> simp [h1, scanlines]
  by_cases hbuf : tiff._TIFFmalloc = true
  swap
  · have hbuf' : tiff._TIFFmalloc = false := by simpa using hbuf
    obtain ⟨h1, h2⟩ := saveRGBATIFFFile_unallocated tiff filename imageData width height
      bytesPerRow hopen hbuf'
    refine ⟨?_, ?_, ?_, hrow, hcongr⟩ <;> rw [h2] <;>
      simp [h1, scanlines_append, scanlines_opening, scanlines_close]
  obtain ⟨m, hm, hcalls, hcopies, _, _, _⟩ := saveRGBATIFFFile_calls tiff filename imageData
    width height bytesPerRow hopen hbuf
  have hlines : scanlines (saveRGBATIFFFile tiff filename imageData width height
      bytesPerRow).calls = (List.range m).map (fun k => (k, scanlineAt tiff imageData bytesPerRow
        (saveRGBATIFFFile.scanlineSize tiff bytesPerRow)
        (min (saveRGBATIFFFile.scanlineSize tiff bytesPerRow) bytesPerRow) k)) := by
    rw [hcalls, scanlines_append, scanlines_append, scanlines_opening, scanlines_writes]
    simp [scanlines]
  have hget : ∀ i c, (saveRGBATIFFFile.copies tiff height bytesPerRow)[i]? = some c →
      i < m ∧ c = { offset := i * bytesPerRow,
                    size := min (saveRGBATIFFFile.scanlineSize tiff bytesPerRow) bytesPerRow,
                    capacity := saveRGBATIFFFile.scanlineSize tiff bytesPerRow } := by
    intro i c hc
    rw [hcopies, List.getElem?_map] at hc
    have hi : i < m := by
      by_contra hge
      rw [List.getElem?_eq_none (by simpa using Nat.not_lt.mp hge)] at hc
      simp at hc
    rw [List.getElem?_range hi] at hc
    simp only [Option.map_some', Option.some.injEq] at hc
    exact ⟨hi, hc.symm⟩
  refine ⟨?_, ?_, ?_, hrow, hcongr⟩
  · intro c hc
    obtain ⟨i, hi⟩ := List.mem_iff_getElem?.mp hc
    obtain ⟨him, rfl⟩ := hget i c hi
    refine ⟨hrow _ i (by omega), Nat.min_le_left _ _, ?_⟩
    rw [hcalls]
    simp [saveRGBATIFFFile.opening]
  · intro i c hc
    obtain ⟨him, rfl⟩ := hget i c hc
    refine ⟨by omega, rfl, rfl, rfl, ?_⟩
    refine ⟨_, by rw [hlines, List.getElem?_map, List.getElem?_range him]; rfl, ?_, ?_⟩
    · simp [scanlineAt]
    · intro j hj
      dsimp only at hj ⊢
      have hjs : j < saveRGBATIFFFile.scanlineSize tiff bytesPerRow :=
        lt_of_lt_of_le hj (Nat.min_le_left _ _)
      have hjb : j < bytesPerRow := lt_of_lt_of_le hj (Nat.min_le_right _ _)
      unfold scanlineAt
      rw [List.getElem?_map, List.getElem?_range hjs]
      simp [hjs, hjb]
  · rw [hcopies, hlines]
    simp

/-! ## No use of a handle after its release -/

theorem released_of_releases (c : Call) (r : Res) (h : c.releases r = true) :
    c.released = some r := by
  unfold Call.releases at h
  unfold Call.released
  simp only [Bool.and_eq_true, beq_iff_eq] at h
  rw [if_pos h.1, h.2]
  rfl

theorem isDestroy_of_releases (c : Call) (r : Res) (h : c.releases r = true) :
    c.fn.isDestroy = true := by
  unfold Call.releases at h
  simp only [Bool.and_eq_true] at h
  exact h.1

/-- A destroy or free call is none of the calls that a run starts with. -/
theorem not_query_of_isDestroy (fn : VkFn) (h : fn.isDestroy = true) :
    fn ≠ .vkCreateInstance ∧ fn ≠ .vkEnumeratePhysicalDevices ∧
      fn ≠ .vkGetPhysicalDeviceProperties := by
  refine ⟨?_, ?_, ?_⟩ <;> (rintro rfl; exact absurd h (by decide))

theorem structural_createsFrom (parent r : Res) :
    Structural (fun c => c.createsFrom parent r) false := by
  constructor
  · intro c; rfl
  · intro c hc; simp [Call.createsFrom, Call.creates, hc, VkFn.isCreate]

theorem structural_confusesDevice : Structural Call.confusesDevice false := by
  constructor
  · intro c; rfl
  · intro c hc
    simp [Call.confusesDevice, Call.createsFrom, Call.creates, hc, VkFn.isCreate]

/-- What `clearFrom` checks: no call is barred by a mark it starts with, and
no call is barred by a mark that a call before it left behind. -/
theorem clearFrom_spec {μ : Type} (marks : Call → List μ) (bars : μ → Call → Bool)
    (m : List μ) (t : List Call) (h : clearFrom marks bars t m = true) :
    (∀ x ∈ m, ∀ y ∈ t, bars x y = false) ∧
    (∀ pre c post, t = pre ++ c :: post → ∀ x ∈ marks c, ∀ y ∈ post, bars x y = false) := by
  induction t generalizing m with
  | nil =>
    refine ⟨fun _ _ y hy => absurd hy (List.not_mem_nil _), ?_⟩
    intro pre c post hsplit
    cases pre <;> simp at hsplit
  | cons a t ih =>
    simp only [clearFrom, Bool.and_eq_true, Bool.not_eq_true'] at h
    obtain ⟨h1, h2⟩ := h
    obtain ⟨hA, hB⟩ := ih (marks a ++ m) h2
    constructor
    · intro x hx y hy
      rcases List.mem_cons.mp hy with rfl | hy
      · rw [List.any_eq_false] at h1
        simpa using h1 x hx
      · exact hA x (List.mem_append_right _ hx) y hy
    · intro pre c post hsplit x hx y hy
      cases pre with
      | nil =>
        simp only [List.nil_append, List.cons.injEq] at hsplit
        obtain ⟨rfl, rfl⟩ := hsplit
        exact hA x (List.mem_append_left _ hx) y hy
      | cons b pre =>
        simp only [List.cons_append, List.cons.injEq] at hsplit
        exact hB pre c post hsplit.2 x hx y hy

theorem releases_of_mem_lifeline (r : Res) (t : List Call) (h : false ∈ lifeline r t) :
    ∃ c ∈ t, c.releases r = true := by
  unfold lifeline at h
  rw [List.mem_filterMap] at h
  obtain ⟨c, hc, hf⟩ := h
  refine ⟨c, hc, ?_⟩
  by_cases h1 : c.creates r = true
  · simp [h1] at hf
  · by_cases h2 : c.releases r = true
    · exact h2
    · simp [h1, h2] at hf

/-- Calls that neither map nor unmap memory add nothing to the mappings. -/
theorem mapline_eq_nil (l : List Call)
    (h : ∀ y ∈ l, y.fn ≠ .vkMapMemory ∧ y.fn ≠ .vkUnmapMemory) : mapline l = [] := by
  unfold mapline
  rw [List.filterMap_eq_nil_iff]
  intro y hy
  simp [(h y hy).1, (h y hy).2]

set_option maxRecDepth 100000 in
theorem exits_clear : ∀ e ∈ exits,
    clearFrom Call.marks Mark.bars (skeleton (renderImage e 0 0).trace) [] = true ∧
    (skeleton (renderImage e 0 0).trace).any Call.confusesDevice = false ∧
    ((skeleton (renderImage e 0 0).trace).any (fun c => c.creates .inst) = true →
      (renderImage e 0 0).cleanup.getLast? = some (issued .vkDestroyInstance [some .inst])) := by
  decide!

/-- After a destroy or free call of a run, no call is barred by a mark that
the call left behind. -/
theorem renderImage_clear (env : Env) (width height : Nat) (pre post : List Call) (c : Call)
    (hsplit : (renderImage env width height).trace = pre ++ c :: post)
    (hd : c.fn.isDestroy = true) :
    ∀ x ∈ c.marks, ∀ y ∈ post, Mark.bars x y = false := by
  obtain ⟨e, he, ht, _⟩ := renderImage_cases env width height
  obtain ⟨h1, h2, h3⟩ := not_query_of_isDestroy c.fn hd
  have hpush := skeleton_split_push _ pre post c hsplit h3
  rw [ht] at hpush
  have hpost := skeleton_eq_map post
    (renderImage_no_query_after env width height pre post c hsplit h1 h2 h3)
  have key := (clearFrom_spec Call.marks Mark.bars [] _ (exits_clear e he).1).2
    (skeleton pre) c.erase (skeleton post) hpush
  intro x hx y hy
  have := key x hx y.erase (by rw [hpost]; exact List.mem_map_of_mem _ hy)
  rw [← this]
  cases x <;> rfl

/-- C25: in every run of `renderImage`, after the destroy or free call of an
object no call is handed the handle of that object, and none creates it again.
No `vkCreateGraphicsPipelines` comes after the destroy of a shader module.
After `vkDestroyDevice` no call comes but `vkDestroyInstance`, and every object
that was created from the device has been released before `vkDestroyDevice`.
When the staging memory is freed, every mapping of memory made before has been
unmapped, and no memory is mapped or unmapped afterwards. Whenever the instance
was created, the last call of the run is `vkDestroyInstance` on it. -/
theorem renderImage_no_use_after_release (env : Env) (width height : Nat) :
    (∀ pre c post r, (renderImage env width height).trace = pre ++ c :: post →
      c.releases r = true → ∀ x ∈ post, x.uses r = false ∧ x.creates r = false) ∧
    (∀ pre c post, (renderImage env width height).trace = pre ++ c :: post →
      c.fn = .vkDestroyShaderModule → ∀ x ∈ post, x.fn ≠ .vkCreateGraphicsPipelines) ∧
    (∀ pre c post, (renderImage env width height).trace = pre ++ c :: post →
      c.fn = .vkDestroyDevice →
      (∀ x ∈ post, x.fn = .vkDestroyInstance) ∧
      ∀ r, (∃ x ∈ (renderImage env width height).trace, x.createsFrom .device r = true) →
        ∃ y ∈ pre, y.releases r = true) ∧
    (∀ pre c post, (renderImage env width height).trace = pre ++ c :: post →
      c.releases .destImageMemory = true →
      (mapline pre = [] ∨ mapline pre = [true, false]) ∧
      ∀ x ∈ post, x.fn ≠ .vkMapMemory ∧ x.fn ≠ .vkUnmapMemory) ∧
    ((∃ c ∈ (renderImage env width height).trace, c.creates .inst = true) →
      (renderImage env width height).trace.getLast? =
        some (issued .vkDestroyInstance [some .inst])) := by
  obtain ⟨e, he, ht, _, hc, _⟩ := renderImage_cases env width height
  have hdev : ∀ pre c post, (renderImage env width height).trace = pre ++ c :: post →
      c.fn = .vkDestroyDevice → ∀ x ∈ post, x.fn = .vkDestroyInstance := by
    intro pre c post hsplit hfn x hx
    have key := renderImage_clear env width height pre post c hsplit (by rw [hfn]; rfl)
      .deviceDestroyed (by simp [Call.marks, hfn]) x hx
    simpa [Mark.bars] using key
  refine ⟨?_, ?_, ?_, ?_, ?_⟩
  · intro pre c post r hsplit hrel x hx
    have key := renderImage_clear env width height pre post c hsplit
      (isDestroy_of_releases c r hrel) (.released r)
      (by simp [Call.marks, released_of_releases c r hrel]) x hx
    simpa [Mark.bars] using key
  · intro pre c post hsplit hfn x hx
    have key := renderImage_clear env width height pre post c hsplit (by rw [hfn]; rfl)
      .shaderModuleDestroyed (by simp [Call.marks, hfn]) x hx
    simpa [Mark.bars] using key
  · intro pre c post hsplit hfn
    refine ⟨hdev pre c post hsplit hfn, ?_⟩
    intro r hr
    obtain ⟨x, hx, hxr⟩ := hr
    have hconf : ∀ y ∈ (renderImage env width height).trace, y.confusesDevice = false := by
      have := (exits_clear e he).2.1
      rw [← ht, any_skeleton _ structural_confusesDevice, List.any_eq_false] at this
      intro y hy
      simpa using this y hy
    have hxc : x.creates r = true := by
      unfold Call.createsFrom at hxr
      simp only [Bool.and_eq_true] at hxr
      exact hxr.1
    have hr1 : r ≠ .device := by
      rintro rfl
      have := hconf x hx
      simp [Call.confusesDevice, hxr] at this
    have hr2 : r ≠ .inst := by
      rintro rfl
      have := hconf x hx
      simp [Call.confusesDevice, hxr] at this
    have hlife := exits_lives e he r (Res.mem_all r)
    rw [← lifeline_eq_lifeOf, ← ht, lifeline, filterMap_skeleton _ (structural_lifeline r)]
      at hlife
    have hne := lifeline_ne_nil_of_creates r _ (List.any_eq_true.mpr ⟨x, hx, hxc⟩)
    have hfalse : false ∈ lifeline r (renderImage env width height).trace := by
      rcases hlife with h | h
      · exact absurd h hne
      · unfold lifeline; rw [h]; simp
    obtain ⟨y, hy, hyr⟩ := releases_of_mem_lifeline r _ hfalse
    have hnot : ∀ z ∈ (renderImage env width height).trace,
        (z.fn = .vkDestroyDevice ∨ z.fn = .vkDestroyInstance) → z.releases r = false := by
      intro z hz hfz
      by_contra hzr
      have hzr' : z.releases r = true := by simpa using hzr
      have := hconf z hz
      rcases hfz with hfz | hfz <;>
        simp [Call.confusesDevice, hfz, released_of_releases z r hzr', hr1, hr2] at this
    rw [hsplit] at hy
    rcases List.mem_append.mp hy with hy | hy
    · exact ⟨y, hy, hyr⟩
    · rcases List.mem_cons.mp hy with rfl | hy
      · have := hnot y (by rw [hsplit]; simp) (Or.inl hfn)
        rw [hyr] at this
        exact absurd this (by decide)
      · have := hnot y (by rw [hsplit]; simp [hy]) (Or.inr (hdev pre c post hsplit hfn y hy))
        rw [hyr] at this
        exact absurd this (by decide)
  · intro pre c post hsplit hrel
    have hd := isDestroy_of_releases c _ hrel
    have hpost : ∀ x ∈ post, x.fn ≠ .vkMapMemory ∧ x.fn ≠ .vkUnmapMemory := by
      intro x hx
      have key := renderImage_clear env width height pre post c hsplit hd
        .stagingMemoryFreed (by simp [Call.marks, hrel]) x hx
      simpa [Mark.bars] using key
    refine ⟨?_, hpost⟩
    have hmap := exits_mapline e he
    rw [← ht, mapline, filterMap_skeleton _ structural_mapline] at hmap
    have hc' : ∀ y ∈ c :: post, y.fn ≠ .vkMapMemory ∧ y.fn ≠ .vkUnmapMemory := by
      intro y hy
      rcases List.mem_cons.mp hy with rfl | hy
      · constructor <;> (intro hfn; rw [hfn] at hd; exact absurd hd (by decide))
      · exact hpost y hy
    have hpre : mapline (renderImage env width height).trace = mapline pre := by
      rw [hsplit]
      unfold mapline
      rw [List.filterMap_append]
      have := mapline_eq_nil _ hc'
      unfold mapline at this
      rw [this, List.append_nil]
    unfold mapline at hpre
    rw [hpre] at hmap
    exact hmap
  · intro hinst
    have hany : (skeleton (renderImage e 0 0).trace).any (fun c => c.creates .inst) = true := by
      rw [← ht, any_skeleton _ (structural_creates .inst)]
      exact List.any_eq_true.mpr hinst
    have key := (exits_clear e he).2.2 hany
    rw [← hc] at key
    unfold Run.trace
    rw [List.getLast?_append, key]
    rfl

/-! ## `findMemoryTypeIndex` and the scan from index 0 -/

/-- From an index on, and as long as the index stays below 32, the loop of the
naive scan and the loop of `findMemoryTypeIndex` do the same. -/
theorem naiveFindMemoryTypeIndex_loop_eq (mp : VkPhysicalDeviceMemoryProperties)
    (bits req : Nat) (n index : Nat) (hn : index + n ≤ 32) :
    naiveFindMemoryTypeIndex.loop mp bits req n index =
      findMemoryTypeIndex.loop mp bits req n index (2 ^ index % 2 ^ 32) := by
  induction n generalizing index with
  | zero => simp [naiveFindMemoryTypeIndex.loop, findMemoryTypeIndex.loop]
  | succ n ih =>
    have hidx : index < 32 := by omega
    have hpow : 2 ^ index % 2 ^ 32 = 2 ^ index :=
      Nat.mod_eq_of_lt (Nat.pow_lt_pow_right (by decide) hidx)
    have hnext : (2 ^ index % 2 ^ 32) <<< 1 % 2 ^ 32 = 2 ^ (index + 1) % 2 ^ 32 := by
      rw [hpow, Nat.shiftLeft_eq, pow_one, ← pow_succ]
    unfold naiveFindMemoryTypeIndex.loop findMemoryTypeIndex.loop
    rw [Nat.one_shiftLeft, hnext, ih (index + 1) (by omega)]

/-- The naive scan passes over indices whose bit is not set in the mask. -/
theorem naiveFindMemoryTypeIndex_loop_skip (mp : VkPhysicalDeviceMemoryProperties)
    (bits req : Nat) (k m index : Nat) (hk : index + k ≤ 32)
    (hzero : ∀ j, index ≤ j → j < index + k → bits.testBit j = false) :
    naiveFindMemoryTypeIndex.loop mp bits req (k + m) index =
      naiveFindMemoryTypeIndex.loop mp bits req m (index + k) := by
  induction k generalizing index with
  | zero => simp
  | succ k ih =>
    have hidx : index < 32 := by omega
    have hpow : 2 ^ index % 2 ^ 32 = 2 ^ index :=
      Nat.mod_eq_of_lt (Nat.pow_lt_pow_right (by decide) hidx)
    have hbit : IS_FLAG_SET bits (2 ^ index % 2 ^ 32) = false := by
      rw [hpow, IS_FLAG_SET_two_pow]
      exact hzero index (le_refl _) (by omega)
    have e : k + 1 + m = (k + m) + 1 := by omega
    have step : naiveFindMemoryTypeIndex.loop mp bits req (k + m + 1) index =
        naiveFindMemoryTypeIndex.loop mp bits req (k + m) (index + 1) := by
      conv_lhs => unfold naiveFindMemoryTypeIndex.loop
      rw [Nat.one_shiftLeft, hbit, Bool.false_and]
      simp only [Bool.false_eq_true, ↓reduceIte]
    have e2 : index + 1 + k = index + (k + 1) := by omega
    rw [e, step, ih (index + 1) (by omega) (fun j h1 h2 => hzero j (by omega) (by omega)), e2]

theorem findMemoryTypeIndex_eq_naive (mp : VkPhysicalDeviceMemoryProperties)
    (bits req : Nat) (hcount : mp.memoryTypeCount ≤ 32) :
    findMemoryTypeIndex mp bits req = naiveFindMemoryTypeIndex mp bits req := by
  obtain ⟨hz32, hzero⟩ := stdc_trailing_zeros_spec bits
  unfold findMemoryTypeIndex naiveFindMemoryTypeIndex
  dsimp only
  rw [Nat.one_shiftLeft]
  by_cases hle : stdc_trailing_zeros bits ≤ mp.memoryTypeCount
  · have e : mp.memoryTypeCount =
        stdc_trailing_zeros bits + (mp.memoryTypeCount - stdc_trailing_zeros bits) := by omega
    conv_rhs => rw [e]
    rw [naiveFindMemoryTypeIndex_loop_skip mp bits req _ _ 0 (by omega)
      (fun j _ h2 => hzero j (by omega)), Nat.zero_add]
    exact (naiveFindMemoryTypeIndex_loop_eq mp bits req _ _ (by omega)).symm
  · have hfuel : mp.memoryTypeCount - stdc_trailing_zeros bits = 0 := by omega
    rw [hfuel]
    have e : mp.memoryTypeCount = mp.memoryTypeCount + 0 := rfl
    conv_rhs => rw [e]
    rw [naiveFindMemoryTypeIndex_loop_skip mp bits req _ 0 0 (by omega)
      (fun j _ h2 => hzero j (by omega))]
    simp [findMemoryTypeIndex.loop, naiveFindMemoryTypeIndex.loop]

/-- C26: for every memory-properties table with `memoryTypeCount ≤ 32`, every
mask and every requested property set, `findMemoryTypeIndex`, which starts at
`stdc_trailing_zeros` of the mask with the probe bit `1u << index`, returns the
same result code and the same index as the naive scan from index 0. For the
mask 0 it returns `VK_ERROR_FEATURE_NOT_PRESENT` with index 0 and reads no
memory type: the loop starts at index 32 and its body is not entered, whatever
value the probe bit has. -/
theorem findMemoryTypeIndex_refines_naive_scan (mp : VkPhysicalDeviceMemoryProperties)
    (bits req : Nat) (hcount : mp.memoryTypeCount ≤ 32) :
    findMemoryTypeIndex mp bits req = naiveFindMemoryTypeIndex mp bits req ∧
    findMemoryTypeIndex mp 0 req = (VK_ERROR_FEATURE_NOT_PRESENT, 0) ∧
    findMemoryTypeIndex.examined mp 0 req = [] ∧
    stdc_trailing_zeros 0 = 32 ∧
    (∀ indexBit, findMemoryTypeIndex.loop mp 0 req
      (mp.memoryTypeCount - stdc_trailing_zeros 0) (stdc_trailing_zeros 0) indexBit =
        (VK_ERROR_FEATURE_NOT_PRESENT, 0)) := by
  have hz : stdc_trailing_zeros 0 = 32 := by decide
  have hfuel : mp.memoryTypeCount - 32 = 0 := by omega
  refine ⟨findMemoryTypeIndex_eq_naive mp bits req hcount, ?_, ?_, hz, ?_⟩
  · unfold findMemoryTypeIndex
    dsimp only
    rw [hz, hfuel]
    rfl
  · unfold findMemoryTypeIndex.examined
    dsimp only
    rw [hz, hfuel]
    rfl
  · intro indexBit
    rw [hz, hfuel]
    rfl

/-- C26, witness: the table of `gpu0`, whose second type is the host-visible,
host-coherent one, with a mask that allows only that type. -/
theorem findMemoryTypeIndex_refines_naive_scan_witness :
    gpu0.memoryProperties.memoryTypeCount ≤ 32 ∧
    findMemoryTypeIndex gpu0.memoryProperties 2 6 = (VK_SUCCESS, 1) ∧
    findMemoryTypeIndex gpu0.memoryProperties 2 6 =
      naiveFindMemoryTypeIndex gpu0.memoryProperties 2 6 :=
  ⟨by decide, by decide,
   (findMemoryTypeIndex_refines_naive_scan gpu0.memoryProperties 2 6 (by decide)).1⟩

end Square
